import Mathlib

/-!
# Range-accrual coupon test fixture and pricing contract

Verification development for `test-suite/rangeaccrual.cpp`.

The source file is the test driver: it builds the fixture (`CommonVars`) and
calls the range-accrual coupon and its BGM pricer, whose implementation is part
of the pricing library and not of the file.  The fixture and the three tests
are embedded from the source, the tests with the values they read from the
library as parameters; the pricer, the coupon checks, the schedule generator
and the date serial convention are embedded from the specification and marked
as such.

Real numbers of the source (`Real`, `Rate`, `Spread`) are embedded as exact
rationals; dates are embedded as their serial numbers.  Where the rounding of
the source's `double` arithmetic matters, in the strike grid and in the strikes
of the monotonicity tests, the doubles the source computes are embedded as
well (`Double`, `doubleStrikes`, `doubleEffectiveLowerStrike`,
`doubleEffectiveUpperStrike`).
-/

namespace range_accrual_test

/-! ## The fixture `CommonVars` (from the source) -/

namespace CommonVars

/-- Evaluation date, `today = Date(39147)`. -/
def today : Nat := 39147

/-- Flat volatility level, `flatVol = 0.1`. -/
def flatVol : ℚ := 1 / 10

/-- Coupon gearing, `gearing = 1.0`. -/
def gearing : ℚ := 1

/-- Coupon spread, `spread = 0.0`. -/
def spread : ℚ := 0

/-- Lower strike of the infinite range, `infiniteLowerStrike = 1.e-9`. -/
def infiniteLowerStrike : ℚ := 1 / 1000000000

/-- Upper strike of the infinite range, `infiniteUpperStrike = 1.0`. -/
def infiniteUpperStrike : ℚ := 1

/-- Correlation handed to every pricer, `correlation = 1.0`. -/
def correlation : ℚ := 1

/-- Accrual start, `startDate = Date(42800)`. -/
def startDate : Nat := 42800

/-- Accrual end, `endDate = Date(42984)`. -/
def endDate : Nat := 42984

/-- Payment date, `paymentDate = endDate`. -/
def paymentDate : Nat := endDate

/-- Fixing lag, `fixingDays = 2`. -/
def fixingDays : Nat := 2

/-- Replication flags, in the order they are pushed: `true`, then `false`. -/
def byCallSpread : List Bool := [true, false]

/-- Tolerance on rates, `rateTolerance = 2.0e-8`. -/
def rateTolerance : ℚ := 2 / 100000000

/-- Tolerance on prices, `priceTolerance = 2.0e-4`. -/
def priceTolerance : ℚ := 2 / 10000

end CommonVars

/-! ## The coupon and the pricer configuration

The two records list the arguments of the constructor calls made by the tests,
in the order of the calls.  The index and the day counter of the coupon are
collaborators and live in `Market`. -/

/-- Smile section: a volatility by strike, anchored at an exercise date. -/
structure SmileSection where
  exerciseDate : Nat
  volatility : ℚ → ℚ

/-- Arguments of `RangeAccrualFloatersCoupon(paymentDate, nominal, index,
startDate, endDate, fixingDays, dayCounter, gearing, spread, refPeriodStart,
refPeriodEnd, observationsSchedule, lowerStrike, upperStrike)`. -/
structure RangeAccrualFloatersCoupon where
  paymentDate : Nat
  notional : ℚ
  startDate : Nat
  endDate : Nat
  fixingDays : Nat
  gearing : ℚ
  spread : ℚ
  refPeriodStart : Nat
  refPeriodEnd : Nat
  observationsSchedule : List Nat
  lowerStrike : ℚ
  upperStrike : ℚ

/-- Arguments of `RangeAccrualPricerByBgm(correlation, smilesOnExpiry[z],
smilesOnPayment[z], true, byCallSpread[i])`. -/
structure RangeAccrualPricerByBgm where
  correlation : ℚ
  smileOnExpiry : SmileSection
  smileOnPayment : SmileSection
  withSmile : Bool
  byCallSpread : Bool

/-- The coupon every test builds: notional `1.`, the fixture's dates, gearing
and spread, the observation schedule, and the corridor of the scenario. -/
def testCoupon (observationSchedule : List Nat) (lowerStrike upperStrike : ℚ) :
    RangeAccrualFloatersCoupon :=
  { paymentDate := CommonVars.paymentDate
    notional := 1
    startDate := CommonVars.startDate
    endDate := CommonVars.endDate
    fixingDays := CommonVars.fixingDays
    gearing := CommonVars.gearing
    spread := CommonVars.spread
    refPeriodStart := CommonVars.startDate
    refPeriodEnd := CommonVars.endDate
    observationsSchedule := observationSchedule
    lowerStrike := lowerStrike
    upperStrike := upperStrike }

/-- The pricer every test builds for the smile pair `z` and the flag `i`. -/
def testPricer (smileOnExpiry smileOnPayment : SmileSection) (flag : Bool) :
    RangeAccrualPricerByBgm :=
  { correlation := CommonVars.correlation
    smileOnExpiry := smileOnExpiry
    smileOnPayment := smileOnPayment
    withSmile := true
    byCallSpread := flag }

/-! ## The pricing contract (from the specification, section 4.1) -/

/-- Modelled from the spec: the collaborators of section 6, none of which is
defined in the source file.  The discount curve gives `discountFactor`, the
index gives the fixing projected to a date, the day counter gives the length of
the accrual period and the weight of an observation day. -/
structure Market where
  evaluationDate : Nat
  discountFactor : Nat → ℚ
  forwardFixing : Nat → ℚ
  yearFraction : Nat → Nat → ℚ
  dayWeight : Nat → ℚ

/-- Modelled from the spec: the option formulas of step 2 of section 4.1, which
belong to the pricing library.  `call` and `digital` take the forward, the
strike, the volatility read off the expiry smile and off the payment smile at
that strike, and the correlation; `eps` is the half width of the call spread. -/
structure Replication where
  call : ℚ → ℚ → ℚ → ℚ → ℚ → ℚ
  digital : ℚ → ℚ → ℚ → ℚ → ℚ → ℚ
  eps : ℚ

/-- Fatal errors, the failure modes of section 4.1. -/
inductive PricingError where
  | invalidSmileSection
  | invalidCorridor
  | invalidCorrelation
  deriving DecidableEq, Repr

/-- Modelled from the spec: a call struck at `strike` on the fixing observed at
`date`, priced off the smile sections at that strike. -/
def callPrice (mk : Market) (rp : Replication) (p : RangeAccrualPricerByBgm)
    (date : Nat) (strike : ℚ) : ℚ :=
  rp.call (mk.forwardFixing date) strike (p.smileOnExpiry.volatility strike)
    (p.smileOnPayment.volatility strike) p.correlation

/-- Modelled from the spec: step 2, the probability mass of the fixing at
`date` being at or above `strike`: the call spread
`(Call(K-ε) - Call(K+ε)) / (2ε)` when the flag is set, the digital formula
otherwise. -/
def probAbove (mk : Market) (rp : Replication) (p : RangeAccrualPricerByBgm)
    (date : Nat) (strike : ℚ) : ℚ :=
  if p.byCallSpread then
    (callPrice mk rp p date (strike - rp.eps) - callPrice mk rp p date (strike + rp.eps))
      / (2 * rp.eps)
  else
    rp.digital (mk.forwardFixing date) strike (p.smileOnExpiry.volatility strike)
      (p.smileOnPayment.volatility strike) p.correlation

/-- Modelled from the spec: step 3, the in-corridor probability of a date,
`P(fixing ≥ lowerStrike) − P(fixing ≥ upperStrike)`. -/
def inCorridorProbability (mk : Market) (rp : Replication) (p : RangeAccrualPricerByBgm)
    (c : RangeAccrualFloatersCoupon) (date : Nat) : ℚ :=
  probAbove mk rp p date c.lowerStrike - probAbove mk rp p date c.upperStrike

/-- Modelled from the spec: the contribution of one observation date in step 4,
`gearing*forwardFixing+spread` weighted by the day-count weight of the day. -/
def dayAccrual (mk : Market) (c : RangeAccrualFloatersCoupon) (date : Nat) : ℚ :=
  (c.gearing * mk.forwardFixing date + c.spread) * mk.dayWeight date

/-- Modelled from the spec: step 4, the sum over the observation dates. -/
def accumulated (mk : Market) (rp : Replication) (p : RangeAccrualPricerByBgm)
    (c : RangeAccrualFloatersCoupon) : ℚ :=
  (c.observationsSchedule.map
    (fun date => dayAccrual mk c date * inCorridorProbability mk rp p c date)).sum

/-- Modelled from the spec: the length of the accrual period. -/
def accrualPeriodLength (mk : Market) (c : RangeAccrualFloatersCoupon) : ℚ :=
  mk.yearFraction c.startDate c.endDate

/-- Modelled from the spec: the failure mode "strikes with lowerStrike ≥
upperStrike → invalid corridor, fatal". -/
def checkCorridor (c : RangeAccrualFloatersCoupon) : Except PricingError Unit :=
  if c.lowerStrike < c.upperStrike then .ok () else .error .invalidCorridor

/-- Modelled from the spec: the failure mode "correlation outside [-1,1] →
invalid parameter, fatal". -/
def checkCorrelation (p : RangeAccrualPricerByBgm) : Except PricingError Unit :=
  if -1 ≤ p.correlation ∧ p.correlation ≤ 1 then .ok () else .error .invalidCorrelation

/-- Modelled from the spec: the failure mode "invalid smile section (expiry
before evaluation date) → configuration error, fatal". -/
def checkSmileSection (mk : Market) (s : SmileSection) : Except PricingError Unit :=
  if s.exerciseDate < mk.evaluationDate then .error .invalidSmileSection else .ok ()

/-- Modelled from the spec: construction of the coupon, which rejects an
invalid corridor. -/
def RangeAccrualFloatersCoupon.create (c : RangeAccrualFloatersCoupon) :
    Except PricingError RangeAccrualFloatersCoupon := do
  checkCorridor c
  pure c

/-- Modelled from the spec: configuration of the pricer, which rejects an
out-of-domain correlation and a smile section that expires before the
evaluation date. -/
def RangeAccrualPricerByBgm.create (mk : Market) (p : RangeAccrualPricerByBgm) :
    Except PricingError RangeAccrualPricerByBgm := do
  checkCorrelation p
  checkSmileSection mk p.smileOnExpiry
  checkSmileSection mk p.smileOnPayment
  pure p

/-- Modelled from the spec: step 5, `rate()`: the accumulated weighted sum
normalized by the length of the accrual period, for a coupon and a pricer that
pass their checks. -/
def rate (mk : Market) (rp : Replication) (p : RangeAccrualPricerByBgm)
    (c : RangeAccrualFloatersCoupon) : Except PricingError ℚ := do
  let c ← RangeAccrualFloatersCoupon.create c
  let p ← RangeAccrualPricerByBgm.create mk p
  pure (accumulated mk rp p c / accrualPeriodLength mk c)

/-- Modelled from the spec: step 5, `price()`:
`rate() * notional * discountFactor(paymentDate) * accrualPeriodLength`. -/
def price (mk : Market) (rp : Replication) (p : RangeAccrualPricerByBgm)
    (c : RangeAccrualFloatersCoupon) : Except PricingError ℚ := do
  let r ← rate mk rp p c
  pure (r * c.notional * mk.discountFactor c.paymentDate * accrualPeriodLength mk c)

/-! ## Concrete collaborators used to exercise the contract -/

/-- Flat smile of the fixture, `FlatSmileSection(date, flatVol, dayCounter)`:
the same volatility at every strike. -/
def FlatSmileSection (date : Nat) (vol : ℚ) : SmileSection :=
  { exerciseDate := date, volatility := fun _ => vol }

/-- A market with a flat projected fixing of 3%, a discount factor of 9/10 and
an Actual/360 day counter, evaluated at the fixture's evaluation date. -/
def sampleMarket : Market :=
  { evaluationDate := CommonVars.today
    discountFactor := fun _ => 9 / 10
    forwardFixing := fun _ => 3 / 100
    yearFraction := fun d1 d2 => ((d2 : ℚ) - (d1 : ℚ)) / 360
    dayWeight := fun _ => 1 / 360 }

/-- Option formulas at zero volatility: a call is worth its intrinsic value and
the digital is the indicator of the forward being at or above the strike. -/
def intrinsicReplication : Replication :=
  { call := fun forward strike _ _ _ => max (forward - strike) 0
    digital := fun forward strike _ _ _ => if strike ≤ forward then 1 else 0
    eps := 1 / 10000 }

/-- The fixture's pricer on the flat smile pair (`z = 0`). -/
def flatPricer (flag : Bool) : RangeAccrualPricerByBgm :=
  testPricer (FlatSmileSection CommonVars.startDate CommonVars.flatVol)
    (FlatSmileSection CommonVars.endDate CommonVars.flatVol) flag

/-- Option formulas with a time value: a call is worth its intrinsic value plus
the volatility read off the expiry smile at its strike, and the digital moves
away from certainty as that volatility grows, `1 - vol` for a strike at or
below the forward and `vol` for a strike above it. -/
def timeValueReplication : Replication :=
  { call := fun forward strike volOnExpiry _ _ =>
      (if strike ≤ forward then forward - strike else 0) + volOnExpiry
    digital := fun forward strike volOnExpiry _ _ =>
      if strike ≤ forward then 1 - volOnExpiry else volOnExpiry
    eps := 1 / 10000 }

/-- A piecewise-linear smile that rises from 10% at strike 0 to 12% at strike
2% and is flat from there on. -/
def cappedSmileSection (date : Nat) : SmileSection :=
  { exerciseDate := date
    volatility := fun strike => if strike ≤ 2 / 100 then 1 / 10 + strike else 12 / 100 }

/-- A piecewise-linear smile that falls from 30% at strike 0 to 10% at strike
2% and is flat from there on. -/
def skewSmileSection (date : Nat) : SmileSection :=
  { exerciseDate := date
    volatility := fun strike => if strike ≤ 2 / 100 then 3 / 10 - 10 * strike else 1 / 10 }

/-- The fixture's pricer with call-spread replication on the capped smile. -/
def cappedSmilePricer : RangeAccrualPricerByBgm :=
  testPricer (cappedSmileSection CommonVars.startDate) (cappedSmileSection CommonVars.endDate)
    true

/-- The fixture's pricer with the digital formula on the skewed smile. -/
def skewSmilePricer : RangeAccrualPricerByBgm :=
  testPricer (skewSmileSection CommonVars.startDate) (skewSmileSection CommonVars.endDate)
    false

/-! ## The observation schedule (from the specification, sections 3 and 6)

The fixture builds the schedule as `Schedule(startDate, endDate,
Period(Daily), calendar, ModifiedFollowing, ModifiedFollowing,
DateGeneration::Forward, false)`.  The schedule generator and the calendar are
collaborators. -/

/-- Modelled from the spec: the calendar handed to the schedule generator.  The
holiday table of the TARGET calendar and the month of a date are not in the
source file: a calendar tells of a date serial whether it is a business day,
and gives the index of its month counted from the epoch. -/
structure Calendar where
  isBusinessDay : Nat → Bool
  monthIndex : Nat → Nat

/-- Modelled from the spec: the first business day at or after `date`, looked
for over `fuel` consecutive days. -/
def following (cal : Calendar) : Nat → Nat → Nat
  | 0, date => date
  | fuel + 1, date =>
    if cal.isBusinessDay date = true then date else following cal fuel (date + 1)

/-- Modelled from the spec: the last business day at or before `date`, looked
for over `fuel` consecutive days. -/
def preceding (cal : Calendar) : Nat → Nat → Nat
  | 0, date => date
  | fuel + 1, date =>
    if cal.isBusinessDay date = true then date else preceding cal fuel (date - 1)

/-- Modelled from the spec: the business-day convention of the fixture,
`ModifiedFollowing`: the following business day, unless it belongs to a
different month, in which case the preceding business day. -/
def adjust (cal : Calendar) (fuel date : Nat) : Nat :=
  if cal.monthIndex (following cal fuel date) = cal.monthIndex date then
    following cal fuel date
  else
    preceding cal fuel date

/-- Modelled from the spec: forward generation at daily frequency, the dates
`startDate, startDate + 1, …, endDate` before adjustment. -/
def dailySeeds (startDate endDate : Nat) : List Nat :=
  (List.range (endDate - startDate + 1)).map (fun i => startDate + i)

/-- Modelled from the spec: the dates of `dates` that differ from the last date
kept, `last`. -/
def skipRepeatedAfter (last : Nat) : List Nat → List Nat
  | [] => []
  | d :: rest =>
    if d = last then skipRepeatedAfter last rest else d :: skipRepeatedAfter d rest

/-- Modelled from the spec: a date is kept only when it differs from the date
kept before it. -/
def skipRepeated : List Nat → List Nat
  | [] => []
  | d :: rest => d :: skipRepeatedAfter d rest

/-- Modelled from the spec: the schedule generator for daily frequency, forward
generation and the `ModifiedFollowing` convention on every date: the daily
dates from `startDate` to `endDate`, each adjusted to a business day, repeated
dates dropped.  A business day is looked for over as many days as the schedule
spans. -/
def Schedule (cal : Calendar) (startDate endDate : Nat) : List Nat :=
  skipRepeated ((dailySeeds startDate endDate).map (adjust cal (endDate - startDate + 1)))

/-- The fixture's `observationSchedule`, from `startDate` to `endDate`. -/
def observationSchedule (cal : Calendar) : List Nat :=
  Schedule cal CommonVars.startDate CommonVars.endDate

/-- A calendar for the fixture's coupon period, March to September 2017, with
the closing days of that period: Saturdays and Sundays (serials congruent to 0
and 1 modulo 7), Good Friday (42839), Easter Monday (42842) and Labour Day
(42856); the month index of a date is the number of months of the period that
start at or before it, the first days of April to October being the serials
42826, 42856, 42887, 42917, 42948, 42979 and 43009. -/
def couponPeriodCalendar : Calendar :=
  { isBusinessDay := fun d =>
      d % 7 != 0 && d % 7 != 1 && d != 42839 && d != 42842 && d != 42856
    monthIndex := fun d =>
      [42826, 42856, 42887, 42917, 42948, 42979, 43009].countP (fun m => decide (m ≤ d)) }

/-! ## The smile sections of the fixture (`createSmileSections`, from the source) -/

/-- The strike grid, `strikes[i] = 0.003+i/1000.0` for `i` from 0 to 999, in
exact values; `doubleStrikes` holds the doubles the source computes, each
within `2^-53` of its exact value. -/
def strikes : List ℚ :=
  (List.range 1000).map (fun (i : Nat) => 3 / 1000 + (i : ℚ) / 1000)

/-- The array `expiryBag`, in the order of the source. -/
def expiryBag : List ℚ :=
  [
    2.45489828353233, 2.10748097295326, 1.87317517200074, 1.69808302023488, 1.55911989073644,
    1.44436083444893, 1.34687413874126, 1.26228953588707, 1.18769456816136, 1.12104324191799,
    1.06085561121201, 1.00603120341767, 0.9557256903997, 0.90928131840481, 0.86618579845204,
    0.82601854761258, 0.78844752673212, 0.75320077993188, 0.720053785498, 0.68882313132617,
    0.65935702808872, 0.6315321469569, 0.60524729504558, 0.58041392858028, 0.55696247745247,
    0.53482969610895, 0.51396815038482, 0.49433040611518, 0.47586902913511, 0.45854923439037,
    0.44232991227137, 0.4271636286132, 0.41300927380629, 0.39981941368572, 0.38754661408661,
    0.37613711628872, 0.3655403238495, 0.35570564032638, 0.34657298244381, 0.33809175375924,
    0.3302113578301, 0.32288119821383, 0.31605668679542, 0.30969165432103, 0.30374530740885,
    0.29818001495472, 0.29296130813214, 0.28805788039229, 0.28344158746397, 0.27908807980922,
    0.27496889692908, 0.27106759497973, 0.26736456783968, 0.26384242298178, 0.26048629770105,
    0.25728259420353, 0.25421897960636, 0.25128438593772, 0.24846932636464, 0.2457646302819,
    0.24316239199534, 0.24065533826636, 0.23823714453963, 0.2359018024876, 0.23364393623824,
    0.2314584861473, 0.22934134125381, 0.22728807436907, 0.22529520698763, 0.22335957683184,
    0.22147738916851, 0.21964643040327, 0.21786353825847, 0.21612649913974, 0.21443341568048,
    0.21278144183081, 0.21116931267966, 0.20959481463266, 0.20805636655099, 0.20655270352358,
    0.20508161195607, 0.20364277562069, 0.20223398092308, 0.20085427917995, 0.19950303793576,
    0.19817867605168, 0.19688024484442, 0.19560679563067, 0.1943576959549, 0.19313168090606,
    0.19192843425636, 0.19074669109476, 0.18958645142124, 0.18844613409698, 0.18732573912199,
    0.18622431781295, 0.18514155394211, 0.18407649882616, 0.18302915246512, 0.18199951485896,
    0.18098473995782, 0.17998672512827, 0.17900452168702, 0.17804192436726, 0.17708375423623,
    0.17614582268223, 0.17522718102195, 0.17430948804497, 0.17341298232831, 0.17253671518868,
    0.17170630107512, 0.17079651379229, 0.1699635698566, 0.16919292279081, 0.16828977629107,
    0.16750584765911, 0.16681330885154, 0.16630513083155, 0.16607713061225, 0.16458611669548,
    0.16424269334159, 0.16421328415935, 0.16451654658696, 0.16511864425345, 0.16595981011106,
    0.16697679860657, 0.16811585101976, 0.16933206300786, 0.17060013634959, 0.17189192677377,
    0.17320174218061, 0.17451282249852, 0.17582390281642, 0.1771324533122, 0.17843309811383,
    0.17972646967684, 0.18101193554569, 0.18228696589827, 0.18355314187341, 0.18481014724332,
    0.18605671709696, 0.18729538125645, 0.18852360989966, 0.18974519775978, 0.19095508519256,
    0.18650291447481, 0.18765809450407, 0.18881706926652, 0.18995801904631, 0.19109074690418,
    0.19221588529567, 0.19333533158737, 0.19444655595715, 0.19554702858289, 0.19664623629757,
    0.19773658963479, 0.19881113158372, 0.19988757089924, 0.20095167733189, 0.20200756184262,
    0.20306123275898, 0.20411269008099, 0.20514675487586, 0.20617828984861, 0.20720729499923,
    0.20822459972251, 0.20923494743493, 0.21023517585884, 0.21123160954956, 0.21223120551794,
    0.21321910105898, 0.21419213389501, 0.21516706409764, 0.21614610526123, 0.217099215748,
    0.21805643719574, 0.21900512049379, 0.21995127396971, 0.22088541079052, 0.22183124803868,
    0.22275716293758, 0.22367390723126, 0.22459918967462, 0.22550360108543, 0.22641275591273,
    0.22731337259035, 0.22821651909009, 0.22910859761802, 0.22998834326308, 0.23088326784091,
    0.23174846700873, 0.23261746090975, 0.23348708726629, 0.23434849170092, 0.2352057851746,
    0.23606497601486, 0.2369077230113, 0.2377479401856, 0.23859068718204, 0.239419203929,
    0.24025088295363, 0.2410756049674, 0.24190317303107, 0.24272251917282, 0.24353016488722,
    0.24434287024589, 0.2451457725438, 0.24595120466385, 0.2467370306624, 0.24752696762191,
    0.24831563967036, 0.24911158495742, 0.24988065088437, 0.25065635759441, 0.25143459412658,
    0.25219954909257, 0.25296102555314, 0.25372787788573, 0.25448049996885, 0.25523533564634,
    0.25598416299626, 0.25673583639609, 0.25747770673516, 0.25822052575753, 0.25895354171916,
    0.25969130109728, 0.26041419777039, 0.26113835935457, 0.26185746129449, 0.26258193910644,
    0.26329250289668, 0.26400654519234, 0.26470730592184, 0.26541786971208, 0.26612843350232,
    0.26681844248777, 0.26750623787885, 0.2682139556192, 0.26890111855475, 0.26958195693499,
    0.27025710321543, 0.27094331746769, 0.27162320716463, 0.27229519116741, 0.27298172164743,
    0.2736334670732, 0.27429849406513, 0.2749752214844, 0.2756275993657, 0.27628725048561,
    0.27693614986148, 0.27759516852585, 0.27824723017938, 0.27889233482206, 0.27953332850377,
    0.28016388666921, 0.2808014018455, 0.28144460912158, 0.28206251817637, 0.28270319563032,
    0.28332142091289, 0.28396209836684, 0.28458981048238, 0.28520013007079, 0.28582183385878,
    0.28641823942549, 0.28705543837401, 0.28765089525742, 0.28825900125147, 0.28886647478999,
    0.28945750448468, 0.29006529425096, 0.2906613835899, 0.29127012203949, 0.291862732873,
    0.2924480704679, 0.29303182692397, 0.29363012985727, 0.29420534816365, 0.29478025024227,
    0.2953690663426, 0.29594112237132, 0.29650653761696, 0.29709598617281, 0.29766393124058,
    0.29822650043632, 0.29881373539782, 0.29935132260005, 0.29993128432292, 0.3004916399243,
    0.30104408983154, 0.30161646208803, 0.30215752779568, 0.30271788339706, 0.30325578682706,
    0.30378198982971, 0.30433064500375, 0.30488119754438, 0.30545356980087, 0.30597060219831,
    0.3064955402899, 0.30705494720798, 0.30757893661627, 0.30810513961892, 0.30863956454349,
    0.30916892982381, 0.30970841439263, 0.31022671170113, 0.31075702566474, 0.31126773350686,
    0.31179520142058, 0.31229389260758, 0.31280713027183, 0.31333902537427, 0.31383898147234,
    0.31435759500861, 0.31485723487892, 0.3153663615822, 0.31588529134624, 0.31638587989984,
    0.31688868204781, 0.31736618597449, 0.3178974486214, 0.31837495254809, 0.31888091697371,
    0.31936790773338, 0.31985489849305, 0.32035453836335, 0.32084785367834, 0.3213190330497,
    0.32179969925405, 0.32230250140202, 0.32278316760636, 0.32327964519901, 0.32373501318207,
    0.32421251710876, 0.3246931833131, 0.32517068723979, 0.32563870433349, 0.32613201964848,
    0.32657157624324, 0.32704908016993, 0.32750761043065, 0.32799776346798, 0.32844364461806,
    0.32893379765539, 0.32936386741717, 0.32984137134386, 0.33028409021628, 0.33075526958765,
    0.33120431301539, 0.33164703188781, 0.3321403472028, 0.33257990379756, 0.33302262266999,
    0.33347482837539, 0.33392387180314, 0.33434129245428, 0.334799822715, 0.33527100208637,
    0.33570107184815, 0.33615960210887, 0.33658334731534, 0.33699444341116, 0.3374592982272,
    0.33789253026665, 0.33833524913907, 0.33876848117851, 0.33916376588603, 0.3396349452574,
    0.3400397167979, 0.34048559794799, 0.34089669404381, 0.34133625063857, 0.34175367128971,
    0.34217741649618, 0.3426043239803, 0.34302174463144, 0.34340438022832, 0.34384393682308,
    0.34427716886253, 0.34470091406899, 0.34512149699779, 0.34553891764893, 0.34591206641283,
    0.34635478528526, 0.34674690771512, 0.34715167925562, 0.34756277535144, 0.3479865205579,
    0.34840710348671, 0.34877392769529, 0.34920399745707, 0.34962458038587, 0.34998191776147,
    0.35039617613495, 0.35079778539779, 0.35117409643935, 0.35159784164582, 0.35198680179802,
    0.35235678828426, 0.35279318260136, 0.3531947918642, 0.35354896696214, 0.35395373850264,
    0.35433321182186, 0.35472533425172, 0.35510480757094, 0.35550325455612, 0.35586375420938,
    0.35627168802755, 0.35666064817975, 0.35703695922131, 0.35740062115223, 0.35779590585975,
    0.35815008095769, 0.35856117705351, 0.35891535215145, 0.35931379913663, 0.35967429878989,
    0.36002847388783, 0.36045538137195, 0.36080955646989, 0.3611415956242, 0.36156217855301,
    0.36192267820627, 0.36227369102655, 0.36263735295746, 0.36299469033306, 0.36334254087568,
    0.3637378255832, 0.3640951629588, 0.36445566261206, 0.36486675870788, 0.36520828469518,
    0.36558459573674, 0.36590714805808, 0.366270809989, 0.3666123359763, 0.36699813385084,
    0.36733333528281, 0.36769383493607, 0.36807330825529, 0.36844013246387, 0.36876584706287,
    0.36910421077251, 0.36949000864705, 0.36982521007903, 0.37020468339825, 0.37051458660894,
    0.37085611259624, 0.37119763858354, 0.37158659873574, 0.37187436600282, 0.37222854110076,
    0.37257955392103, 0.37291791763067, 0.37333217600415, 0.37359780732761, 0.37397728064683,
    0.37428718385752, 0.37461606073418, 0.37500185860872, 0.37531176181942, 0.37559952908649,
    0.376004300627, 0.37629206789407, 0.37664624299201, 0.37695298392505, 0.37733245724427,
    0.37766133412092, 0.37799969783056, 0.37827797826466, 0.37863531564026, 0.37894838112861,
    0.37926460889463, 0.37957451210533, 0.37990022670432, 0.38027653774588, 0.38060541462254,
    0.38089634416728, 0.38123470787691, 0.38159520753017, 0.38183554063235, 0.38213911928772,
    0.38248696983034, 0.3828474694836, 0.38313207447302, 0.38347992501563, 0.38379615278165,
    0.38410605599235, 0.38445706881263, 0.3847448360797, 0.38504841473508, 0.38537412933408,
    0.38570933076605, 0.38603820764271, 0.38633862402043, 0.38662322900984, 0.3869521058865,
    0.38724935998656, 0.38758456141853, 0.38785651729731, 0.38821385467291, 0.38851427105062,
    0.38874827959747, 0.38907399419647, 0.38943133157207, 0.3896432041753, 0.39002583977218,
    0.39035155437118, 0.39060769886165, 0.39090179068405, 0.39121801845007, 0.3915247593831,
    0.39180936437252, 0.39209396936193, 0.39241968396093, 0.39272326261631, 0.3930015430504,
    0.39333674448238, 0.39361186263881, 0.39394073951547, 0.394168423507, 0.39445935305174,
    0.39480087903904, 0.39502540075291, 0.39534795307425, 0.3956135843977, 0.39595194810734,
    0.39626817587336, 0.39650534669787, 0.39683106129687, 0.3971378022299, 0.39739078444272,
    0.39767222715447, 0.3979315339226, 0.39826989763224, 0.39848493251313, 0.39882645850043,
    0.39912687487815, 0.39939883075692, 0.39968027346868, 0.39991744429319, 0.40027478166879,
    0.4005435752699, 0.40082818025932, 0.40110329841575, 0.40135628062857, 0.40166618383926,
    0.40187489416483, 0.40223855609575, 0.40246624008729, 0.40274768279904, 0.40307023512038,
    0.40332637961085, 0.40353508993642, 0.40379755898222, 0.40412643585887, 0.40442368995893,
    0.40473359316963, 0.40497708854946, 0.40522058392929, 0.40553364941765, 0.40574235974322,
    0.40608388573052, 0.40629575833375, 0.40664360887637, 0.40681437187002, 0.40711478824773,
    0.40743417829141, 0.40762391495102, 0.40793698043938, 0.40826585731603, 0.40849670358523,
    0.40877498401932, 0.40902480395447, 0.40926197477899, 0.40951811926946, 0.40983118475782,
    0.41010946519191, 0.41034979829409, 0.41058380684094, 0.41093165738356, 0.41109925809955,
    0.41137437625598, 0.411690604022, 0.41194358623481, 0.41221554211358, 0.41234835777531,
    0.41267723465197, 0.41290808092116, 0.41318003679994, 0.41338242257019, 0.41370181261386,
    0.41395479482668, 0.41422991298311, 0.41450819341721, 0.41474852651938, 0.41502048239815,
    0.41527662688863, 0.41558336782166, 0.41573199487169, 0.41606087174835, 0.41633598990478,
    0.41653205111971, 0.41677238422189, 0.41702852871236, 0.41728151092517, 0.41745543619648,
    0.41772106751994, 0.41806891806256, 0.41820489600194, 0.4185337728786, 0.41877094370311,
    0.41904289958189, 0.41922947396384, 0.41952989034155, 0.41974492522245, 0.4200263679342,
    0.42028251242467, 0.42042797719704, 0.42065882346623, 0.42101932311949, 0.4211932483908,
    0.42139563416105, 0.42170237509409, 0.42188262492072, 0.42217671674311, 0.42240123845699,
    0.42265105839214, 0.43466455122312, 0.43492069571359, 0.42340368047526, 0.43543298469454,
    0.42384639934768, 0.43591048862123, 0.43616347083404, 0.43641329076919, 0.43664413703839,
    0.4368971192512, 0.43715958829699, 0.43735881178958, 0.43760230716942, 0.43785212710457,
    0.43807664881844, 0.43833279330892, 0.43856996413343, 0.4388102972356, 0.43905695489309,
    0.43927831432931, 0.43953445881978, 0.43976530508897, 0.44001512502412, 0.44026494495928,
    0.44045468161889, 0.44072347522, 0.44095748376685, 0.44121046597967, 0.44140336491694,
    0.44168164535103, 0.4418587329, 0.44209590372452, 0.44237418415861, 0.44259238131716,
    0.44281374075337, 0.44307620979917, 0.44327543329176, 0.44353157778223, 0.44370550305354,
    0.44396480982167, 0.44418300698023, 0.4444391514707, 0.44467632229521, 0.44491665539739,
    0.44510322977934, 0.44532458921555, 0.44560286964964, 0.44575782125499, 0.44602977713376,
    0.44628275934658, 0.44647882056151, 0.44665590811048, 0.44694051309989, 0.44716187253611,
    0.4474243415819, 0.44760459140853, 0.44780065262346, 0.44808525761287, 0.44830029249377,
    0.44850584054168, 0.44870822631193, 0.44893591030346, 0.44914145835137, 0.44936598006524,
    0.44956520355783, 0.44987194449087, 0.45006168115048, 0.45022928186647, 0.4504727772463,
    0.45073208401444, 0.45094079434001, 0.45116215377622, 0.45137402637945, 0.45157008759438,
    0.45181358297421, 0.4520286178551, 0.45223416590302, 0.45243338939561, 0.45263577516586,
    0.45286978371271, 0.45305635809466, 0.45327455525321, 0.45357813390859, 0.45376154601288,
    0.45397025633845, 0.4541568307204, 0.45434656738001, 0.45459006275984, 0.45479561080775,
    0.45503278163226, 0.45525730334614, 0.45546917594937, 0.45568421083026, 0.45590873254413,
    0.4560541973165, 0.45628188130803, 0.45652537668786, 0.45668349057087, 0.45693647278369,
    0.45712937172096, 0.45732227065823, 0.45752149415082, 0.45773652903171, 0.45797053757856,
    0.45814130057221, 0.45840693189566, 0.45858718172229, 0.45884648849043, 0.45904571198302,
    0.45921647497667, 0.4594125361916, 0.45965603157143, 0.45982995684274, 0.46005447855661,
    0.46024421521622, 0.46039600454391, 0.46067112270034, 0.46085769708229, 0.46102846007594,
    0.46121503445789, 0.46145852983773, 0.46165775333032, 0.46186962593355, 0.46212260814636,
    0.46226491064107, 0.46247045868898, 0.46267600673689, 0.46291001528374, 0.46308710283271,
    0.46324521671572, 0.46348238754023, 0.46369109786581, 0.46390929502436, 0.46407373346269,
    0.46428560606592, 0.46447534272553, 0.4646682416628, 0.46484532921177, 0.46503190359372,
    0.46525642530759, 0.46542718830124, 0.46564538545979, 0.46580666162046, 0.46602169650135,
    0.4662557050482, 0.46648971359505, 0.466676287977, 0.46684388869299, 0.46699251574302,
    0.46721387517923, 0.46747001966971, 0.46765659405166, 0.467811545657, 0.46793803676341,
    0.46817204531026, 0.46837443108051, 0.46859579051673, 0.46880133856464, 0.46897210155829,
    0.46913970227428, 0.46930730299026, 0.4695507983701, 0.46970891225311, 0.46995240763294,
    0.47015163112553, 0.47026231084364, 0.47049948166815, 0.4706702446618, 0.47087895498737,
    0.4710275820374, 0.47122048097467, 0.4714323535779, 0.47161576568219, 0.4718371251184,
    0.47202686177801, 0.47218497566102, 0.47234625182169, 0.47257393581322, 0.47271307603027,
    0.4729407600218, 0.47316844401333, 0.47331074650804, 0.47352894366659, 0.47365859705066,
    0.47385782054325, 0.47401277214859, 0.47429105258269, 0.47443651735506, 0.47466103906893,
    0.47476539423171, 0.47502786327751, 0.47519862627116, 0.4753219550999, 0.4755528013691,
    0.47568561703082, 0.47590065191172, 0.47607457718302, 0.47620106828943, 0.47645721277991,
    0.47659319071929, 0.47686198432041, 0.47697582631617, 0.4772035103077, 0.47732367685879,
    0.47753871173968, 0.47772212384397, 0.47794664555784, 0.47809843488553, 0.4782913338228,
    0.47837039076431, 0.47855064059094, 0.47879729824843, 0.47898703490804, 0.47911985056977,
    0.47933804772832, 0.47956889399751, 0.47974914382414, 0.47985033670927, 0.48004323564654,
    0.48022348547317, 0.48032467835829, 0.48060295879239, 0.48071680078815, 0.48098875666693,
    0.48109627410737, 0.48123857660208, 0.48145677376063, 0.48157377803406, 0.48183308480219,
    0.48197854957456, 0.48213666345757, 0.48234537378314, 0.48246237805656, 0.4827058734364,
    0.48290825920665, 0.48307269764498, 0.48318021508542, 0.48346165779718, 0.48353755246102,
    0.48369250406637, 0.48383164428342, 0.48403719233133, 0.48424274037924, 0.48436606920799,
    0.48459691547718, 0.48470759519528, 0.48484989768999, 0.48509655534749, 0.48525466923049,
    0.48549816461033, 0.48557405927417, 0.4856910635476, 0.48589977387317, 0.48617172975194,
    0.48630770769133, 0.48651958029456, 0.48662709773501, 0.48676940022971, 0.48694332550102,
    0.48710776393935, 0.48729750059896, 0.48742082942771, 0.48764218886392, 0.48780978957991,
    0.48795209207462, 0.48810388140231, 0.4883347276715, 0.48847703016621, 0.48866044227049,
    0.48884701665244, 0.48893872270459, 0.48904624014504, 0.48926443730359, 0.48940990207595,
    0.48964707290047, 0.48976091489623, 0.48999492344309, 0.49018149782504, 0.49019098465802,
    0.49046610281445, 0.49061156758682, 0.49078549285813, 0.49090882168687, 0.49103215051562,
    0.49124402311885, 0.49137367650292, 0.49153495266359, 0.49173733843384, 0.49195237331473,
    0.49205672847752, 0.49222749147116, 0.49237611852119, 0.49256901745846, 0.49268285945423,
    0.49288208294682, 0.49298643810961, 0.49321412210114, 0.49335010004052, 0.49352402531183,
    0.49371376197144, 0.49388768724275, 0.49405212568108, 0.49414383173323, 0.49435570433646,
    0.49453911644075, 0.49461501110459, 0.49478261182058, 0.49488696698337, 0.49517473425044,
    0.49532336130047, 0.49545933923986, 0.4955194225154, 0.49572180828565, 0.49592103177824,
    0.49606649655061, 0.4962182858783, 0.49638588659429, 0.49652502681133, 0.49667681613902,
    0.49679382041245, 0.49704996490292, 0.49718910511997, 0.49734721900298, 0.49747687238704,
    0.4976792581573, 0.49777096420944, 0.49799864820097, 0.49804292008821, 0.49820419624888,
    0.49842871796276, 0.49851726173724, 0.49867221334259, 0.49881767811496, 0.49907698488309,
    0.49920031371184, 0.49941534859273, 0.49951337920019, 0.49966516852788, 0.49976952369067,
    0.49991182618537, 0.50009840056732, 0.50028181267161, 0.5003703564461, 0.50050000983017,
    0.50070239560042, 0.50084469809512, 0.50109135575262, 0.50112930308454, 0.50133801341011,
    0.50154039918036, 0.50164475434315, 0.50172064900699, 0.50195465755384, 0.50209696004855,
    0.50221080204432, 0.50240686325925, 0.50259659991886, 0.50265984547206, 0.50281163479975,
    0.50290334085189, 0.50308359067852, 0.50330495011473, 0.50338400705624, 0.50352947182861,
    0.5037128839329, 0.50385834870526, 0.50402911169891, 0.50412714230638, 0.50430106757769
  ]

/-- The array `paymentBag`, in the order of the source. -/
def paymentBag : List ℚ :=
  [
    1.6617526454415, 1.4669124167142, 1.32415790098, 1.2120961731935, 1.1201668663866,
    1.0424206605982, 0.9751732547411, 0.9160138132757, 0.8632670647314, 0.8157437931899,
    0.7725528968054, 0.7330333400265, 0.6966731443381, 0.6630705038169, 0.6319111025389,
    0.6029486723577, 0.5759823103116, 0.5508499978832, 0.5274286009992, 0.5056047066973,
    0.4852940653485, 0.4664189080644, 0.4489047063269, 0.4326866527292, 0.4176999398641,
    0.4038765199544, 0.3911451048524, 0.3794344064103, 0.3686698961103, 0.3587770454342,
    0.3496780854936, 0.3413049685113, 0.3335864063394, 0.3264575915712, 0.3198563090958,
    0.3137287687655, 0.3080244208027, 0.3026982240597, 0.2977103219812, 0.2930253945303,
    0.2886123341517, 0.2844432736605, 0.2804945583529, 0.2767441537107, 0.273174237697,
    0.2697679603859, 0.266511064148, 0.2633912355757, 0.2603990775953, 0.2575187123919,
    0.2547472236322, 0.2520745661682, 0.2494942592591, 0.2469994981273, 0.244584774143,
    0.2422449027139, 0.2399756713583, 0.2377725435579, 0.2356322789423, 0.2335506650299,
    0.2315251095246, 0.2295526960931, 0.2276305084019, 0.225756278192, 0.2239274131669,
    0.2221426171785, 0.2203989738936, 0.218695187164, 0.2170296368045, 0.21540070263,
    0.2138067644552, 0.212246202095, 0.2107183674754, 0.2092216404111, 0.207755048791,
    0.2063172964671, 0.2049074113281, 0.2035247453001, 0.2021680022349, 0.2008362100214,
    0.1995290446225, 0.1982452098902, 0.1969843817873, 0.1957459122398, 0.1945285050996,
    0.1933321603667, 0.19215590593, 0.1909994177523, 0.1898617237227, 0.1887428238411,
    0.1876417459965, 0.1865581661517, 0.1854914362327, 0.1844415562396, 0.1834078780982,
    0.1823907258456, 0.1813868591114, 0.180399194229, 0.1794264350501, 0.1784666373527,
    0.1775214213218, 0.1765904629205, 0.1756776505931, 0.1747651623028, 0.1738730883457,
    0.1730004566106, 0.172122316246, 0.1712668584738, 0.1704344073311, 0.1695851062626,
    0.1687652925642, 0.1679765864212, 0.1672679174259, 0.1663641781355, 0.1656295861773,
    0.165014239848, 0.1646185906283, 0.1645304525548, 0.1629251730839, 0.1627171413074,
    0.1628402753807, 0.1632897147481, 0.1640194461508, 0.1649614218113, 0.1660589352486,
    0.1672562520926, 0.1685167561584, 0.1698180888907, 0.1711395119191, 0.1724687118363,
    0.173801476161, 0.1751297039671, 0.1764537192918, 0.1777673654313, 0.1790764750524,
    0.1803729472291, 0.181660994443, 0.1829389965087, 0.1842088976485, 0.1854681055662,
    0.186718888521, 0.1879580061426, 0.1891903189864, 0.1904125866821, 0.1916248092297,
    0.1928302269996, 0.1940249515474, 0.1952125472804, 0.1963913940134, 0.1975601955984,
    0.1987189520352, 0.1998725238795, 0.1951120957995, 0.196220302459, 0.1973171678222,
    0.1984056082225, 0.1994934005487, 0.2005659631343, 0.2016369055347, 0.2026955345278,
    0.2037538394838, 0.2047917301067, 0.2058393418406, 0.2068697796116, 0.2078934126049,
    0.2089163975242, 0.2099244767398, 0.2109348242147, 0.2119335063563, 0.2129312163868,
    0.21391661301, 0.2149003894481, 0.2158760649602, 0.2168452597316, 0.2178060295402,
    0.2187635589784, 0.2197220605277, 0.22067148904, 0.2216082801079, 0.2225421548426,
    0.2234692247995, 0.2243969428305, 0.2253159118615, 0.2262309924481, 0.2271337596274,
    0.2280494882881, 0.2289418862823, 0.2298333121653, 0.2307247380484, 0.2315996380427,
    0.2324810187777, 0.2333601312534, 0.2342246620626, 0.2350934053532, 0.2359469189032,
    0.236808209342, 0.2376552421513, 0.238496766331, 0.2393373183995, 0.2401791666163,
    0.2410038408701, 0.2418327276055, 0.2426548095631, 0.2434785117058, 0.2442895764042,
    0.2450967526582, 0.2459032808381, 0.2467140214995, 0.2475079122351, 0.2483066635261,
    0.2490927773729, 0.2498782431455, 0.2506491272516, 0.2514336209131, 0.2522058011673,
    0.2529708526068, 0.2537372001944, 0.2545012795227, 0.2552695713325, 0.256016476698,
    0.2567708349153, 0.257510611466, 0.2582555726093, 0.2590028020118, 0.2597399862663,
    0.2604713378541, 0.2612017173308, 0.2619359852519, 0.2626640964694, 0.2633734135388,
    0.2640940719045, 0.2648053331961, 0.2655204829322, 0.2662158664091, 0.2669216190712,
    0.2676212150296, 0.2683191908028, 0.2690242953908, 0.2697144942752, 0.2703836307523,
    0.2710796623033, 0.2717640285211, 0.2724451543685, 0.2731220677344, 0.2738015733966,
    0.2744671454664, 0.275112951277, 0.2757924569392, 0.2764502521201, 0.2771064271158,
    0.2777600098152, 0.2784090559962, 0.2790762482511, 0.2797204338765, 0.2803668877612,
    0.2810110733866, 0.281636464864, 0.2822780581931, 0.2829177073001, 0.2835499035552,
    0.2841730267733, 0.2848142960654, 0.285413116506, 0.2860365637612, 0.286665843683,
    0.2872776256049, 0.2878845469713, 0.2885041057821, 0.289124960741, 0.2897202167741,
    0.2903238977702, 0.2909259585811, 0.2915215386513, 0.2921174427585, 0.2927146430138,
    0.2933073067507, 0.2938934897469, 0.2944903659652, 0.295054514443, 0.2956406974392,
    0.2962297967686, 0.2968218124314, 0.2973921176129, 0.297958858387, 0.2985395327536,
    0.2991065975647, 0.2996862998201, 0.3002384589277, 0.3008006631832, 0.3013589789944,
    0.3019250716944, 0.3024749625427, 0.3030384629464, 0.3035870576465, 0.3041492619021,
    0.3047001248615, 0.3052396465246, 0.3057801402989, 0.3063271148138, 0.3068698768473,
    0.3074081023623, 0.3079554009143, 0.3084780726516, 0.3090282875369, 0.3095509592742,
    0.3100729829375, 0.3106125046006, 0.3111494339675, 0.3116633567049, 0.3121727429238,
    0.3126934704389, 0.3132252152132, 0.313724880321, 0.314244311688, 0.3147873977585,
    0.3152822023109, 0.3157932087149, 0.3162896334524, 0.3168025840787, 0.3173041934088,
    0.3177967297018, 0.3182963948097, 0.3187960599175, 0.3193219720252, 0.3198099717998,
    0.3203089888336, 0.3208180510154, 0.3212995700493, 0.3217820611943, 0.322270709043,
    0.3227697260768, 0.3232463845551, 0.3237428092926, 0.3241828515861, 0.3246818686198,
    0.3251744049129, 0.3256474989839, 0.3261141123142, 0.3265904467555, 0.3270667811968,
    0.3275366348975, 0.3280194500795, 0.3284860634098, 0.3289494363697, 0.3294095689593,
    0.3298761822896, 0.3303460359902, 0.3307996878391, 0.3312792626508, 0.3317231933887,
    0.3321638837561, 0.3326240163457, 0.3330938700464, 0.3335604833767, 0.3340011737441,
    0.3344645467041, 0.3348890352198, 0.3353426870687, 0.3357930985473, 0.3362467503961,
    0.3366679985415, 0.3371443329829, 0.3375558600172, 0.3379933100144, 0.3384404811226,
    0.3388649696383, 0.3393315829686, 0.3397495907436, 0.3401805600001, 0.3406018081455,
    0.3410587003647, 0.3414734677694, 0.3418979562852, 0.3423483677637, 0.3427728562794,
    0.3431746622027, 0.3436088718295, 0.3440009566418, 0.3444286855279, 0.3448758566361,
    0.3452582203373, 0.3457021510751, 0.3461396010723, 0.3465025225514, 0.3469561744003,
    0.3473741821753, 0.3477565458765, 0.3481713132812, 0.3485763595749, 0.3489684443871,
    0.3494156154953, 0.349820661789, 0.3502321888233, 0.350637235117, 0.3510293199292,
    0.3514343662229, 0.3518037684427, 0.3522509395509, 0.3526203417707, 0.353031868805,
    0.3534077517655, 0.3537998365778, 0.3542081232418, 0.3545872465726, 0.3549955332366,
    0.3553746565675, 0.3557764624908, 0.3561296628589, 0.3565541513746, 0.356910592113,
    0.3572799943328, 0.3576915213672, 0.3580803658091, 0.3584724506213, 0.3588386124708,
    0.359211255061, 0.3596357435767, 0.3599921843151, 0.3603615865349, 0.3607569117175,
    0.3611165928263, 0.3615021968978, 0.3618910413397, 0.3622604435596, 0.3625942017055,
    0.3630219305916, 0.3633589291079, 0.3637412928091, 0.3640750509551, 0.3644736165081,
    0.3648203361354, 0.3651864979849, 0.3655623809454, 0.3658896583507, 0.366291464274,
    0.3666576261234, 0.3670011053804, 0.3673802287113, 0.3677107464869, 0.3680833890771,
    0.3684527912969, 0.3687930301835, 0.3691624324034, 0.369492950179, 0.3698785542505,
    0.3701961105448, 0.3705590320239, 0.3708960305402, 0.3712783942414, 0.3715927101653,
    0.3719685931258, 0.3723250338642, 0.3726652727508, 0.3730022712672, 0.3733587120056,
    0.3736859894108, 0.3740456705196, 0.3743826690359, 0.3747488308854, 0.3750955505127,
    0.3754066260663, 0.3757274227308, 0.3760968249507, 0.3764208619856, 0.3767546201315,
    0.3770980993886, 0.3774253767938, 0.3777558945694, 0.3780799316044, 0.3784493338242,
    0.3787766112294, 0.3791136097458, 0.3794635697435, 0.3797616838156, 0.3800954419616,
    0.3804713249221, 0.3807791601053, 0.3811226393623, 0.3814142726937, 0.3817739538025,
    0.3820688275042, 0.3824058260206, 0.3827169015741, 0.383031217498, 0.3833163700887,
    0.3836857723085, 0.3839644441585, 0.3843014426748, 0.3846611237836, 0.3849171130412,
    0.3852800345203, 0.3855943504442, 0.3859313489605, 0.3862229822919, 0.3865599808082,
    0.3868483737693, 0.3871464878414, 0.3874608037653, 0.3877653985781, 0.3881088778352,
    0.3883745882038, 0.3887180674608, 0.3889805374591, 0.3893402185679, 0.3896059289365,
    0.3899947733784, 0.3902475222656, 0.3905618381895, 0.3908826348541, 0.3911937104076,
    0.3914918244797, 0.391828822996, 0.3920815718833, 0.3923991281775, 0.3927264055828,
    0.3930342407659, 0.3932610666904, 0.3936175074288, 0.3939480252044, 0.3942234566841,
    0.3944762055713, 0.3948132040877, 0.3950756740859, 0.3954353551947, 0.3956881040819,
    0.3960121411169, 0.3962746111151, 0.3965727251873, 0.3968935218518, 0.3971624725908,
    0.3974832692554, 0.3977749025868, 0.3980341322148, 0.3983290059165, 0.3986562833218,
    0.3989057918387, 0.3991844636887, 0.3994631355388, 0.3997709707219, 0.4000237196092,
    0.4003347951627, 0.4006037459017, 0.4009148214552, 0.4012258970087, 0.4014656844146,
    0.4018124040419, 0.4020165473739, 0.4023470651496, 0.4026127755182, 0.4028752455165,
    0.40318632107, 0.4034682332904, 0.4037145014369, 0.4039899329166, 0.4042977680998,
    0.4045894014312, 0.404884275133, 0.4051046203167, 0.4053930132778, 0.4056684447575,
    0.4059017514226, 0.4062031058651, 0.4065109410483, 0.4067410073431, 0.4070423617856,
    0.4072951106728, 0.4075932247449, 0.4078621754839, 0.4080825206676, 0.4084162788136,
    0.4086366239974, 0.4089185362177, 0.4092522943637, 0.409449956955, 0.4097480710271,
    0.4100008199144, 0.4102956936162, 0.4105678847255, 0.4107558262057, 0.4111252284255,
    0.4113941791645, 0.4116145243483, 0.4118672732355, 0.4121718680483, 0.4123792517507,
    0.4126708850821, 0.4129463165618, 0.4132152673008, 0.413458295077, 0.4137078035939,
    0.413931389148, 0.4141679361835, 0.414479011737, 0.414747962476, 0.4150007113632,
    0.4152826235836, 0.4155386128412, 0.415778400247, 0.4160052261714, 0.416326022836,
    0.4165139643163, 0.4167958765367, 0.4171199135716, 0.4172171246821, 0.417550882828,
    0.4178619583815, 0.4181179476391, 0.4182864468973, 0.4185878013398, 0.4188178676346,
    0.4190479339294, 0.419313644298, 0.4196247198515, 0.4198126613318, 0.4200362468859,
    0.4202825150324, 0.4205968309563, 0.420807455029, 0.4210375213238, 0.4213356353959,
    0.4215235768761, 0.4218573350221, 0.4220614783541, 0.4222591409454, 0.422589658721,
    0.4227743598309, 0.4230368298292, 0.4232733768647, 0.4234937220485, 0.4237205479729,
    0.4239311720456, 0.4242487283398, 0.4244787946346, 0.4247153416701, 0.4249907731498,
    0.4251722338893, 0.4254282231469, 0.4256453279603, 0.4258948364772, 0.4261767486976,
    0.4263614498075, 0.426607717954, 0.4267891786936, 0.4271650616541, 0.427340041653,
    0.4276089923919, 0.4277807320205, 0.4280334809077, 0.4283089123874, 0.4285486997932,
    0.428713958681, 0.4290120727532, 0.4291935334927, 0.4294430420096, 0.4296860697858,
    0.4298578094143, 0.4301850868196, 0.430402191633, 0.4305739312615, 0.4307586323714,
    0.4310761886656, 0.4312900531086, 0.4314844753296, 0.4317210223651, 0.4320223768076,
    0.4321941164361, 0.4324177019902, 0.4326445279146, 0.432936161246, 0.4330301319862,
    0.4333768516135, 0.433603677538, 0.4337721767961, 0.4340832523497, 0.434290636052,
    0.4344008086439, 0.4346438364201, 0.4349095467887, 0.4350845267876, 0.435376160119,
    0.4355673419696, 0.435719639376, 0.4359691478929, 0.4362705023354, 0.4485871500327,
    0.4366334238145, 0.4368278460354, 0.4492967911392, 0.4495106555822, 0.4497504429881,
    0.4499869900236, 0.4502267774294, 0.4504471226131, 0.4506383044637, 0.4508780918696,
    0.4510919563126, 0.4512960996446, 0.4515196851987, 0.4517400303825, 0.4519798177883,
    0.4522228455645, 0.4524367100075, 0.4526538148209, 0.4528482370419, 0.4530945051884,
    0.4532921677797, 0.4535254744449, 0.4537296177769, 0.4539596840717, 0.4542124329589,
    0.4543906533281, 0.4546174792526, 0.4548378244363, 0.4550192851759, 0.455252591841,
    0.4554794177655, 0.4556576381347, 0.4558909447998, 0.4560983285021, 0.4563413562783,
    0.45654225924, 0.456746402572, 0.456960267015, 0.4572000544209, 0.4573782747901,
    0.4576213025663, 0.4578351670093, 0.4580393103413, 0.4582337325623, 0.4584670392274,
    0.4586711825594, 0.4589077295949, 0.4590794692234, 0.4592998144072, 0.4594812751467,
    0.4597016203305, 0.4599316866253, 0.4601163877352, 0.4603172906968, 0.4605343955102,
    0.4607579810643, 0.4609815666184, 0.4611565466173, 0.4613704110603, 0.4615453910592,
    0.4617916592057, 0.4619666392046, 0.4622129073511, 0.4623781662389, 0.4625985114227,
    0.4627929336436, 0.4630132788274, 0.4632174221594, 0.4634118443803, 0.463632189564,
    0.4638201310443, 0.4640145532653, 0.4642543406711, 0.4644325610403, 0.4646464254833,
    0.4648505688153, 0.4649996258514, 0.4652815380718, 0.4654435565893, 0.4656509402916,
    0.4658615643643, 0.4660365443632, 0.4662180051027, 0.4664837154713, 0.4666327725074,
    0.4668077525063, 0.4670605013935, 0.4672290006517, 0.4674169421319, 0.4675919221308,
    0.4678155076849, 0.4679969684244, 0.468188150275, 0.4683955339774, 0.4685769947169,
    0.4688232628635, 0.4690176850844, 0.4692283091571, 0.4694454139705, 0.4695685480438,
    0.4697888932275, 0.4700351613741, 0.4702004202619, 0.4704078039642, 0.4705147361858,
    0.4707707254433, 0.4709748687753, 0.4711271661818, 0.4713377902545, 0.4715646161789,
    0.4717331154371, 0.4719372587691, 0.4720506717313, 0.4722839783964, 0.4724427565435,
    0.4727376302453, 0.4728802065407, 0.4730811095023, 0.4732463683901, 0.4734505117221,
    0.473625491721, 0.4738004717199, 0.4739916535705, 0.4741795950507, 0.474377257642,
    0.4745133531967, 0.4747304580101, 0.4749313609717, 0.4751484657851, 0.4753590898578,
    0.4754854643014, 0.4757025691148, 0.4759067124468, 0.4760460483718, 0.4762696339259,
    0.4763992487399, 0.4766260746644, 0.4768075354039, 0.4769533520696, 0.4771445339202,
    0.4773551579929, 0.4775398591028, 0.477718079472, 0.4778768576191, 0.4780972028029,
    0.4782819039128, 0.4784892876151, 0.478589739096, 0.478803603539, 0.4789915450193,
    0.4791665250181, 0.4793998316833, 0.4795035235344, 0.4796882246444, 0.4799798579758,
    0.4800738287159, 0.4802747316776, 0.480427029084, 0.4806246916753, 0.4808029120445,
    0.4809649305619, 0.4811625931532, 0.4813732172259, 0.4815093127806, 0.4817199368533,
    0.4818754746301, 0.4821055409249, 0.4822675594423, 0.4824328183301, 0.482607798329,
    0.4827730572168, 0.4829772005488, 0.4831619016587, 0.4832785549913, 0.4834956598047,
    0.4836479572111, 0.4838196968396, 0.4840011575791, 0.4842085412815, 0.4842895505402,
    0.4845487801682, 0.4847691253519, 0.4849117016473, 0.4850866816461, 0.4852195368304,
    0.4854463627549, 0.4855597757171, 0.4857606786788, 0.4859875046032, 0.4861041579358,
    0.486282378305, 0.4864897620073, 0.4866128960806, 0.4867587127463, 0.4869563753376,
    0.4871540379289, 0.4872901334836, 0.4874165079272, 0.4876109301482, 0.4877826697767,
    0.4880094957011, 0.4881650334779, 0.4883140905139, 0.4884761090314, 0.4886316468082,
    0.4888293093995, 0.4889621645838, 0.4891727886565, 0.4893186053222, 0.489493585321,
    0.4896556038385, 0.4898791893926, 0.4900023234659, 0.4902323897607, 0.4903490430932,
    0.4904754175369, 0.4906990030909, 0.490838339016, 0.4910262804962, 0.4911753375323,
    0.4913924423457, 0.4915155764189, 0.4916581527143, 0.4918720171574, 0.4919757090085,
    0.4921701312295, 0.4923613130801, 0.4925298123382, 0.4927015519668, 0.4928311667807,
    0.4929834641871, 0.4931940882598, 0.4932459341854, 0.4935570097389, 0.493641259368,
    0.4938454027, 0.4939782578843, 0.4941305552908, 0.494318496771, 0.494457832696,
    0.4946652163984, 0.4947494660275, 0.4949860130629, 0.4951059067659, 0.49532949232,
    0.4954461456525, 0.4955627989851, 0.4957637019468, 0.4959484030567, 0.4960844986113,
    0.4962821612026, 0.4964376989794, 0.4965997174968, 0.4967908993475, 0.4968783893469,
    0.497037167494, 0.497176503419, 0.4973385219365, 0.4975621074906, 0.4977014434156,
    0.4978375389702, 0.4980189997098, 0.4982199026715, 0.4982685082267, 0.4984985745215,
    0.4986281893355, 0.4988128904454, 0.499013793407, 0.4991725715541, 0.4992438597018,
    0.4995030893297, 0.4995938196995, 0.4997266748838, 0.4999372989565, 0.5000312696967,
    0.5002030093252, 0.5003455856205, 0.5004363159903, 0.5006890648775, 0.5007927567287,
    0.5010066211718, 0.5010746689491, 0.5013436196881, 0.5014311096875, 0.501602849316,
    0.5017259833893, 0.5018944826474, 0.5020370589428, 0.5022638848673, 0.502344894126,
    0.5025069126434, 0.5025684796801, 0.502827709308, 0.5029800067144, 0.503096660047,
    0.503375331897, 0.5034239374523, 0.5036216000436, 0.5038063011535, 0.5039294352267,
    0.5040784922628, 0.5041757033733, 0.5043701255942, 0.5044478944826, 0.5047136048513,
    0.5047136048513, 0.504924228924, 0.5050959685525, 0.5051899392926, 0.5053908422542,
    0.505611187438, 0.5056954370671, 0.5058185711403, 0.505964387806, 0.5061393678049
  ]

/-- The vector `stdDevsOnExpiry`, built from the whole of `expiryBag`. -/
def stdDevsOnExpiry : List ℚ := expiryBag

/-- The vector `stdDevsOnPayment`, built from the whole of `paymentBag`. -/
def stdDevsOnPayment : List ℚ := paymentBag

/-- The level `dummyAtmLevel = 0` handed to the interpolated smile sections. -/
def dummyAtmLevel : ℚ := 0

/-- The two kinds of smile section the fixture builds. -/
inductive SmileKind where
  | flat
  | interpolated
  deriving DecidableEq, Repr

/-- The constructor calls of `createSmileSections`:
`FlatSmileSection(date, vol, dayCounter)` and
`InterpolatedSmileSection<Linear>(date, strikes, stdDevs, atmLevel, dayCounter)`. -/
inductive SmileSectionArgs where
  | flatSmileSection (date : Nat) (vol : ℚ)
  | interpolatedSmileSection (date : Nat) (strikes stdDevs : List ℚ) (atmLevel : ℚ)

/-- Kind of the smile section a constructor call builds. -/
def SmileSectionArgs.kind : SmileSectionArgs → SmileKind
  | .flatSmileSection _ _ => .flat
  | .interpolatedSmileSection _ _ _ _ => .interpolated

/-- Date at which a smile section is anchored, the first argument of its
constructor. -/
def SmileSectionArgs.exerciseDate : SmileSectionArgs → Nat
  | .flatSmileSection date _ => date
  | .interpolatedSmileSection date _ _ _ => date

/-- The smile section a constructor call builds.  The interpolation class of
the library is not in the source file: `interpolate strikes stdDevs` is the
volatility by strike it yields for the two vectors. -/
def SmileSectionArgs.build (interpolate : List ℚ → List ℚ → ℚ → ℚ) :
    SmileSectionArgs → SmileSection
  | .flatSmileSection date vol => FlatSmileSection date vol
  | .interpolatedSmileSection date strikes stdDevs _ =>
    { exerciseDate := date, volatility := interpolate strikes stdDevs }

/-- The vector `smilesOnExpiry`: the flat smile, then the interpolated smile,
both at `startDate`. -/
def smilesOnExpiry : List SmileSectionArgs :=
  [ .flatSmileSection CommonVars.startDate CommonVars.flatVol,
    .interpolatedSmileSection CommonVars.startDate strikes stdDevsOnExpiry dummyAtmLevel ]

/-- The vector `smilesOnPayment`: the flat smile, then the interpolated smile,
both at `endDate`. -/
def smilesOnPayment : List SmileSectionArgs :=
  [ .flatSmileSection CommonVars.endDate CommonVars.flatVol,
    .interpolatedSmileSection CommonVars.endDate strikes stdDevsOnPayment dummyAtmLevel ]

/-! ## The three tests (from the source)

Each test declares the fixture `vars` and runs the loops
`for z < vars.smilesOnPayment.size()` and `for i < vars.byCallSpread.size()`.
The values the tests read from the library (`coupon.rate()`,
`coupon.price(vars.termStructure)`, `iborIndex->fixing(fixingDate)`) are
parameters. -/

/-- The members of `CommonVars` listed under "test parameters". -/
structure TestParameters where
  rateTolerance : ℚ
  priceTolerance : ℚ

/-- The test parameters set by the constructor of `CommonVars`. -/
def CommonVars.testParameters : TestParameters :=
  { rateTolerance := CommonVars.rateTolerance
    priceTolerance := CommonVars.priceTolerance }

/-- Arguments of the pricer built in the body of the two outer loops,
`RangeAccrualPricerByBgm(vars.correlation, vars.smilesOnExpiry[z],
vars.smilesOnPayment[z], true, vars.byCallSpread[i])`. -/
structure BgmPricerArgs where
  correlation : ℚ
  smileOnExpiry : SmileSectionArgs
  smileOnPayment : SmileSectionArgs
  withSmile : Bool
  byCallSpread : Bool

/-- The pricer arguments for the indices `z` and `i`; `none` when an index is
out of range. -/
def bgmPricerArgs (z i : Nat) : Option BgmPricerArgs :=
  match smilesOnExpiry[z]?, smilesOnPayment[z]?, CommonVars.byCallSpread[i]? with
  | some onExpiry, some onPayment, some flag =>
    some
      { correlation := CommonVars.correlation
        smileOnExpiry := onExpiry
        smileOnPayment := onPayment
        withSmile := true
        byCallSpread := flag }
  | _, _, _ => none

/-- The pricer configuration the arguments denote. -/
def BgmPricerArgs.build (interpolate : List ℚ → List ℚ → ℚ → ℚ) (a : BgmPricerArgs) :
    RangeAccrualPricerByBgm :=
  { correlation := a.correlation
    smileOnExpiry := a.smileOnExpiry.build interpolate
    smileOnPayment := a.smileOnPayment.build interpolate
    withSmile := a.withSmile
    byCallSpread := a.byCallSpread }

/-- The pairs `(z, i)` in the order the two outer loops visit them. -/
def testCombinations : List (Nat × Nat) :=
  (List.range smilesOnPayment.length).flatMap
    (fun z => (List.range CommonVars.byCallSpread.length).map (fun i => (z, i)))

/-- What the tests read from the library: the rate and the price of a coupon
with a pricer attached, the fixing date of a coupon, the fixing of the index at
a date, and the observation schedule built by the fixture. -/
structure Library where
  couponRate : BgmPricerArgs → RangeAccrualFloatersCoupon → ℚ
  couponPrice : BgmPricerArgs → RangeAccrualFloatersCoupon → ℚ
  fixingDate : RangeAccrualFloatersCoupon → Nat
  indexFixing : Nat → ℚ
  observationSchedule : List Nat

/-- One pass through the body of the innermost loop of a test: the loop
indices (`k = 0` where there is no loop on `k`), the coupon object and the
pricer object used, numbered in the order of their construction, the corridor
of the coupon, the value the result is compared with, the result, and whether
`BOOST_ERROR` is reached. -/
structure Evaluation where
  z : Nat
  i : Nat
  k : Nat
  coupon : Nat
  pricer : Nat
  lowerStrike : ℚ
  upperStrike : ℚ
  comparedWith : ℚ
  value : ℚ
  error : Bool

/-- The loops of `testInfiniteRange` over the pairs `(z, i)`, for the coupon
object `coupon` built before them: each pass builds a pricer, attaches it to
the coupon, and reports an error when `|rate - indexfixing| > rateTolerance`. -/
def infiniteRangeLoop (vars : TestParameters) (lib : Library) (coupon : Nat) :
    List (Nat × Nat) → Nat → List Evaluation
  | [], _ => []
  | (z, i) :: rest, nextObject =>
    match bgmPricerArgs z i with
    | none => []
    | some args =>
      let theCoupon := testCoupon lib.observationSchedule CommonVars.infiniteLowerStrike
        CommonVars.infiniteUpperStrike
      let rate := lib.couponRate args theCoupon
      let indexfixing := lib.indexFixing (lib.fixingDate theCoupon)
      let difference := rate - indexfixing
      { z := z, i := i, k := 0, coupon := coupon, pricer := nextObject
        lowerStrike := CommonVars.infiniteLowerStrike
        upperStrike := CommonVars.infiniteUpperStrike
        comparedWith := indexfixing, value := rate
        error := decide (|difference| > vars.rateTolerance) }
        :: infiniteRangeLoop vars lib coupon rest (nextObject + 1)

/-- The test `testInfiniteRange`: the coupon is the first object built, the
loops follow. -/
def testInfiniteRange (vars : TestParameters) (lib : Library) : List Evaluation :=
  infiniteRangeLoop vars lib 0 testCombinations 1

/-- Lower strike of the `k`-th coupon, `effectiveLowerStrike = 0.005 + k*0.001`,
in exact value; `doubleEffectiveLowerStrike` is the double the source
computes. -/
def effectiveLowerStrike (k : Nat) : ℚ := 5 / 1000 + (k : ℚ) * (1 / 1000)

/-- Upper strike of the `k`-th coupon, `effectiveUpperStrike = 0.006 + k*0.001`,
in exact value; `doubleEffectiveUpperStrike` is the double the source
computes. -/
def effectiveUpperStrike (k : Nat) : ℚ := 6 / 1000 + (k : ℚ) * (1 / 1000)

/-- The price computed in pass `k` of the lower-strike test,
`coupon.price(vars.termStructure)` for the coupon with corridor
`[effectiveLowerStrike, infiniteUpperStrike]`. -/
def lowerStrikePrice (lib : Library) (args : BgmPricerArgs) (k : Nat) : ℚ :=
  lib.couponPrice args
    (testCoupon lib.observationSchedule (effectiveLowerStrike k)
      CommonVars.infiniteUpperStrike)

/-- The price computed in pass `k` of the upper-strike test,
`coupon.price(vars.termStructure)` for the coupon with corridor
`[.004, effectiveUpperStrike]`. -/
def upperStrikePrice (lib : Library) (args : BgmPricerArgs) (k : Nat) : ℚ :=
  lib.couponPrice args
    (testCoupon lib.observationSchedule (4 / 1000) (effectiveUpperStrike k))

/-- The loop on `k` of the lower-strike test for the pricer object `pricer`:
each pass builds a coupon, attaches the pricer, compares
`previousPrice <= price`, and stores the price in `previousPrice`. -/
def lowerStrikeLoop (lib : Library) (z i pricer : Nat) (args : BgmPricerArgs) :
    List Nat → Nat → ℚ → List Evaluation
  | [], _, _ => []
  | k :: ks, nextObject, previousPrice =>
    let price := lowerStrikePrice lib args k
    { z := z, i := i, k := k, coupon := nextObject, pricer := pricer
      lowerStrike := effectiveLowerStrike k
      upperStrike := CommonVars.infiniteUpperStrike
      comparedWith := previousPrice, value := price
      error := decide (previousPrice ≤ price) }
      :: lowerStrikeLoop lib z i pricer args ks (nextObject + 1) price

/-- The two outer loops of the lower-strike test: each pass builds a pricer,
sets `previousPrice = 100.` and runs the loop `for (k = 1; k < 100; k++)`. -/
def lowerStrikeCombinations (lib : Library) : List (Nat × Nat) → Nat → List Evaluation
  | [], _ => []
  | (z, i) :: rest, nextObject =>
    match bgmPricerArgs z i with
    | none => []
    | some args =>
      lowerStrikeLoop lib z i nextObject args (List.range' 1 99) (nextObject + 1) 100
        ++ lowerStrikeCombinations lib rest (nextObject + 1 + 99)

/-- The test `testPriceMonotonicityWithRespectToLowerStrike`. -/
def testPriceMonotonicityWithRespectToLowerStrike (_vars : TestParameters) (lib : Library) :
    List Evaluation :=
  lowerStrikeCombinations lib testCombinations 0

/-- The loop on `k` of the upper-strike test for the pricer object `pricer`:
each pass builds a coupon with lower strike `.004`, attaches the pricer,
compares `previousPrice > price`, and stores the price in `previousPrice`. -/
def upperStrikeLoop (lib : Library) (z i pricer : Nat) (args : BgmPricerArgs) :
    List Nat → Nat → ℚ → List Evaluation
  | [], _, _ => []
  | k :: ks, nextObject, previousPrice =>
    let price := upperStrikePrice lib args k
    { z := z, i := i, k := k, coupon := nextObject, pricer := pricer
      lowerStrike := 4 / 1000
      upperStrike := effectiveUpperStrike k
      comparedWith := previousPrice, value := price
      error := decide (previousPrice > price) }
      :: upperStrikeLoop lib z i pricer args ks (nextObject + 1) price

/-- The two outer loops of the upper-strike test: each pass builds a pricer,
sets `previousPrice = 0.` and runs the loop `for (k = 1; k < 95; k++)`. -/
def upperStrikeCombinations (lib : Library) : List (Nat × Nat) → Nat → List Evaluation
  | [], _ => []
  | (z, i) :: rest, nextObject =>
    match bgmPricerArgs z i with
    | none => []
    | some args =>
      upperStrikeLoop lib z i nextObject args (List.range' 1 94) (nextObject + 1) 0
        ++ upperStrikeCombinations lib rest (nextObject + 1 + 94)

/-- The test `testPriceMonotonicityWithRespectToUpperStrike`. -/
def testPriceMonotonicityWithRespectToUpperStrike (_vars : TestParameters) (lib : Library) :
    List Evaluation :=
  upperStrikeCombinations lib testCombinations 0

/-- A library that returns the fixing 3% for every rate and a price that falls
with the lower strike and rises with the upper strike of the coupon. -/
def sampleLibrary : Library :=
  { couponRate := fun _ _ => 3 / 100
    couponPrice := fun _ c => c.upperStrike - c.lowerStrike
    fixingDate := fun c => c.startDate - c.fixingDays
    indexFixing := fun _ => 3 / 100
    observationSchedule := [CommonVars.startDate, CommonVars.endDate] }

/-! ## The yield curve of the fixture (`createYieldCurve`, from the source) -/

namespace createYieldCurve

/-- The vector `dates`, in the order of the `emplace_back` calls. -/
def dates : List Nat :=
  [
    39147, 39148, 39151, 39153, 39159, 39166, 39183, 39294,
    39384, 39474, 39567, 39658, 39748, 39839, 39931, 40250,
    40614, 40978, 41344, 41709, 42074, 42441, 42805, 43170,
    43535, 43900, 44268, 44632, 44996, 45361, 45727, 46092,
    46459, 46823, 47188, 47553, 47918, 48283, 48650, 49014,
    49379, 49744, 50110, 53762, 57415, 61068
  ]

/-- The vector `zeroRates`, in the order of the `push_back` calls. -/
def zeroRates : List ℚ :=
  [
    0.02676568527, 0.02676568527, 0.02676333038, 0.02682286201,
    0.02682038347, 0.02683030208, 0.02700136766, 0.02932526033,
    0.03085568949, 0.03216370631, 0.03321234116, 0.03404978072,
    0.03471117149, 0.03527141916, 0.03574660393, 0.03691715582,
    0.03796468718, 0.03876457629, 0.03942029708, 0.03999925325,
    0.04056663618, 0.04108743922, 0.04156156761, 0.0419979179,
    0.04239486483, 0.04273799032, 0.04305531203, 0.04336417578,
    0.04364017665, 0.04388153459, 0.04408005012, 0.04424764425,
    0.04437504759, 0.04447696334, 0.04456212318, 0.04464090072,
    0.0447068707, 0.04475921774, 0.04477418345, 0.04477880755,
    0.04476692489, 0.04473779454, 0.04468646066, 0.04430951558,
    0.04363922313, 0.04363601992
  ]

end createYieldCurve

/-! ## The volatility matrices of the fixture (`createVolatilityStructures`,
from the source) -/

/-- Units of a tenor. -/
inductive TimeUnit where
  | Months
  | Years
  deriving DecidableEq, Repr

/-- A tenor, `Period(length, units)`. -/
structure Period where
  length : Nat
  units : TimeUnit
  deriving DecidableEq, Repr

/-- A matrix of reals: its dimensions and its cells by row, a cell being `none`
until it is assigned. -/
structure Matrix where
  rows : Nat
  columns : Nat
  cells : List (List (Option ℚ))

/-- The constructor `Matrix(rows, columns)`: no cell is assigned. -/
def Matrix.create (rows columns : Nat) : Matrix :=
  { rows := rows, columns := columns
    cells := List.replicate rows (List.replicate columns none) }

/-- The cell `m[i][j]`; `none` when it is out of bounds or not assigned. -/
def Matrix.cell (m : Matrix) (i j : Nat) : Option ℚ :=
  ((m.cells.getD i []).getD j none)

/-- An assignment `m[row][col] = value`. -/
structure MatrixWrite where
  row : Nat
  col : Nat
  value : ℚ

/-- The assignment `m[i][j] = value`; `none` when the cell is out of bounds. -/
def Matrix.write (m : Matrix) (w : MatrixWrite) : Option Matrix :=
  if w.row < m.rows ∧ w.col < m.columns then
    some { m with cells := m.cells.set w.row ((m.cells.getD w.row []).set w.col (some w.value)) }
  else
    none

/-- A sequence of assignments, in order; `none` as soon as one is out of
bounds. -/
def Matrix.writeAll (m : Matrix) : List MatrixWrite → Option Matrix
  | [] => some m
  | w :: ws =>
    match m.write w with
    | none => none
    | some m2 => m2.writeAll ws

namespace createVolatilityStructures

/-- The vector `atmOptionTenors`. -/
def atmOptionTenors : List Period :=
  [⟨1, .Months⟩, ⟨6, .Months⟩, ⟨1, .Years⟩, ⟨5, .Years⟩, ⟨10, .Years⟩, ⟨30, .Years⟩]

/-- The vector `atmSwapTenors`. -/
def atmSwapTenors : List Period :=
  [⟨1, .Years⟩, ⟨5, .Years⟩, ⟨10, .Years⟩, ⟨30, .Years⟩]

/-- The vector `optionTenors`. -/
def optionTenors : List Period :=
  [⟨1, .Years⟩, ⟨10, .Years⟩, ⟨30, .Years⟩]

/-- The vector `swapTenors`. -/
def swapTenors : List Period :=
  [⟨2, .Years⟩, ⟨10, .Years⟩, ⟨30, .Years⟩]

/-- The vector `strikeSpreads`. -/
def strikeSpreads : List ℚ :=
  [-0.020, -0.005, 0.000, 0.005, 0.020]

/-- The assignments `atmVolMatrix[i][j]=flatVol`, in the order of the source. -/
def atmVolWrites : List MatrixWrite :=
  [
    ⟨0, 0, CommonVars.flatVol⟩, ⟨0, 1, CommonVars.flatVol⟩, ⟨0, 2, CommonVars.flatVol⟩, ⟨0, 3, CommonVars.flatVol⟩,
    ⟨1, 0, CommonVars.flatVol⟩, ⟨1, 1, CommonVars.flatVol⟩, ⟨1, 2, CommonVars.flatVol⟩, ⟨1, 3, CommonVars.flatVol⟩,
    ⟨2, 0, CommonVars.flatVol⟩, ⟨2, 1, CommonVars.flatVol⟩, ⟨2, 2, CommonVars.flatVol⟩, ⟨2, 3, CommonVars.flatVol⟩,
    ⟨3, 0, CommonVars.flatVol⟩, ⟨3, 1, CommonVars.flatVol⟩, ⟨3, 2, CommonVars.flatVol⟩, ⟨3, 3, CommonVars.flatVol⟩,
    ⟨4, 0, CommonVars.flatVol⟩, ⟨4, 1, CommonVars.flatVol⟩, ⟨4, 2, CommonVars.flatVol⟩, ⟨4, 3, CommonVars.flatVol⟩,
    ⟨5, 0, CommonVars.flatVol⟩, ⟨5, 1, CommonVars.flatVol⟩, ⟨5, 2, CommonVars.flatVol⟩, ⟨5, 3, CommonVars.flatVol⟩
  ]

/-- The matrix `atmVolMatrix`: built with `Matrix(atmOptionTenors.size(),
atmSwapTenors.size())`, then assigned cell by cell. -/
def atmVolMatrix : Option Matrix :=
  (Matrix.create atmOptionTenors.length atmSwapTenors.length).writeAll atmVolWrites

/-- The number of rows `nRows = optionTenors.size()*swapTenors.size()`. -/
def nRows : Nat := optionTenors.length * swapTenors.length

/-- The number of columns `nCols = strikeSpreads.size()`. -/
def nCols : Nat := strikeSpreads.length

/-- The assignments `volSpreadsMatrix[i][j]=…`, in the order of the source. -/
def volSpreadsWrites : List MatrixWrite :=
  [
    ⟨0, 0, 0.0599⟩, ⟨0, 1, 0.0049⟩, ⟨0, 2, 0.0000⟩, ⟨0, 3, -0.0001⟩, ⟨0, 4, 0.0127⟩,
    ⟨1, 0, 0.0729⟩, ⟨1, 1, 0.0086⟩, ⟨1, 2, 0.0000⟩, ⟨1, 3, -0.0024⟩, ⟨1, 4, 0.0098⟩,
    ⟨2, 0, 0.0738⟩, ⟨2, 1, 0.0102⟩, ⟨2, 2, 0.0000⟩, ⟨2, 3, -0.0039⟩, ⟨2, 4, 0.0065⟩,
    ⟨3, 0, 0.0465⟩, ⟨3, 1, 0.0063⟩, ⟨3, 2, 0.0000⟩, ⟨3, 3, -0.0032⟩, ⟨3, 4, -0.0010⟩,
    ⟨4, 0, 0.0558⟩, ⟨4, 1, 0.0084⟩, ⟨4, 2, 0.0000⟩, ⟨4, 3, -0.0050⟩, ⟨4, 4, -0.0057⟩,
    ⟨5, 0, 0.0576⟩, ⟨5, 1, 0.0083⟩, ⟨5, 2, 0.0000⟩, ⟨5, 3, -0.0043⟩, ⟨5, 4, -0.0014⟩,
    ⟨6, 0, 0.0437⟩, ⟨6, 1, 0.0059⟩, ⟨6, 2, 0.0000⟩, ⟨6, 3, -0.0030⟩, ⟨6, 4, -0.0006⟩,
    ⟨7, 0, 0.0533⟩, ⟨7, 1, 0.0078⟩, ⟨7, 2, 0.0000⟩, ⟨7, 3, -0.0045⟩, ⟨7, 4, -0.0046⟩,
    ⟨8, 0, 0.0545⟩, ⟨8, 1, 0.0079⟩, ⟨8, 2, 0.0000⟩, ⟨8, 3, -0.0042⟩, ⟨8, 4, -0.0020⟩
  ]

/-- The matrix `volSpreadsMatrix`: built with `Matrix(nRows, nCols)`, then
assigned cell by cell. -/
def volSpreadsMatrix : Option Matrix :=
  (Matrix.create nRows nCols).writeAll volSpreadsWrites

end createVolatilityStructures

/-- The assertion that ends `createSmileSections`,
`QL_REQUIRE(smilesOnExpiry.size()==smilesOnPayment.size(), …)`: the two vectors
when it holds, the error otherwise. -/
def createSmileSections :
    Except String (List SmileSectionArgs × List SmileSectionArgs) :=
  if smilesOnExpiry.length = smilesOnPayment.length then
    .ok (smilesOnExpiry, smilesOnPayment)
  else
    .error "smilesOnExpiry.size()!=smilesOnPayment.size()"

/-! ## Date serial numbers

The fixture gives its dates as serial numbers, `Date(39147)` with the comment
`6 Mar 2007`, `Date(42800)` with `6 Mar 2017` and `Date(42984)` with
`6 Sep 2017`.  The date class belongs to the library. -/

/-- A date of the calendar: year, month (1 to 12) and day of the month. -/
structure CivilDate where
  year : Nat
  month : Nat
  day : Nat
  deriving DecidableEq, Repr

/-- Leap years of the Gregorian calendar. -/
def isLeapYear (year : Nat) : Bool :=
  year % 4 == 0 && (year % 100 != 0 || year % 400 == 0)

/-- Number of days of a month of the Gregorian calendar. -/
def monthLength (year month : Nat) : Nat :=
  if month = 2 then (if isLeapYear year then 29 else 28)
  else if month = 4 ∨ month = 6 ∨ month = 9 ∨ month = 11 then 30
  else 31

/-- A date that exists in the calendar. -/
def CivilDate.isValid (d : CivilDate) : Prop :=
  1 ≤ d.month ∧ d.month ≤ 12 ∧ 1 ≤ d.day ∧ d.day ≤ monthLength d.year d.month

/-- The calendar day that follows a date. -/
def CivilDate.next (d : CivilDate) : CivilDate :=
  if d.day < monthLength d.year d.month then { d with day := d.day + 1 }
  else if d.month < 12 then { year := d.year, month := d.month + 1, day := 1 }
  else { year := d.year + 1, month := 1, day := 1 }

/-- Number of days in the years 1 to `year - 1` of the Gregorian calendar. -/
def daysBeforeYear (year : Nat) : Nat :=
  365 * (year - 1) + (year - 1) / 4 - (year - 1) / 100 + (year - 1) / 400

/-- Number of days in the first `n` months of a year. -/
def daysInMonths (year : Nat) : Nat → Nat
  | 0 => 0
  | n + 1 => daysInMonths year n + monthLength year (n + 1)

/-- Number of the day of a date, counted from 1 January of the year 1. -/
def dayNumber (d : CivilDate) : Nat :=
  daysBeforeYear d.year + daysInMonths d.year (d.month - 1) + d.day

/-- Modelled from the spec: the serial number of a date under the convention of
the library's date class, which is not in the source file: 1 January 1901 has
the serial number 367 and each later day the next number. -/
def serialNumber (d : CivilDate) : Nat :=
  367 + dayNumber d - dayNumber { year := 1901, month := 1, day := 1 }

/-! ## Double-precision arithmetic

`Real` and `Rate` of the source are `double`.  The source computes the strike
grid and the strikes of the monotonicity tests by a division or a
multiplication and an addition of doubles, each of which returns the double
nearest to its exact result, ties to even (IEEE 754 binary64 in the default
rounding mode).  The values that occur are non-negative and below `2^53`, so a
double is embedded as a mantissa and a binary shift. -/

/-- A non-negative finite `double`, the value `mant / 2^shift`: zero has
`mant = 0`, every other value has `2^52 ≤ mant < 2^53`. -/
structure Double where
  mant : Nat
  shift : Nat
  deriving DecidableEq, Repr

/-- The exact value of a double. -/
def Double.toRat (x : Double) : ℚ := (x.mant : ℚ) / 2 ^ x.shift

/-- The largest shift `s` with `n * 2^s < 2^53 * d` that is `s` plus a sum of
steps, found step by step from the largest step down; for `0 < n / d < 2^53`
and the steps `1024, 512, …, 1` it is the shift with
`2^52 ≤ n * 2^s / d < 2^53`. -/
def Double.normalShift (n d : Nat) : List Nat → Nat → Nat
  | [], s => s
  | step :: steps, s =>
    if n * 2 ^ (s + step) < 2 ^ 53 * d then Double.normalShift n d steps (s + step)
    else Double.normalShift n d steps s

/-- Rounding to nearest, ties to even: the double nearest to `n / d`, for
`n / d` zero or in the normal range below `2^53`.  The mantissa is the quotient
of `n * 2^s` by `d`, raised by one when the remainder is more than half of `d`,
or is half of `d` and the quotient is odd. -/
def Double.round (n d : Nat) : Double :=
  if n = 0 then { mant := 0, shift := 0 }
  else
    let s := Double.normalShift n d [1024, 512, 256, 128, 64, 32, 16, 8, 4, 2, 1] 0
    let q := n * 2 ^ s / d
    let r := n * 2 ^ s % d
    let m := if d < 2 * r ∨ (2 * r = d ∧ q % 2 = 1) then q + 1 else q
    if m = 2 ^ 53 then { mant := 2 ^ 52, shift := s - 1 } else { mant := m, shift := s }

/-- The sum `a + b` of two doubles: the exact sum, rounded. -/
def Double.add (a b : Double) : Double :=
  Double.round (a.mant * 2 ^ b.shift + b.mant * 2 ^ a.shift) (2 ^ (a.shift + b.shift))

/-- The product `a * b` of two doubles: the exact product, rounded. -/
def Double.mul (a b : Double) : Double :=
  Double.round (a.mant * b.mant) (2 ^ (a.shift + b.shift))

/-- The quotient `a / b` of two doubles, `b` not zero: the exact quotient,
rounded. -/
def Double.div (a b : Double) : Double :=
  Double.round (a.mant * 2 ^ b.shift) (b.mant * 2 ^ a.shift)

/-- The double denoted by a decimal literal of value `n / d`, such as `0.003`
for `3 / 1000`. -/
def Double.literal (n d : Nat) : Double := Double.round n d

/-- Conversion of an index (`Size`) to `double`, exact below `2^53`. -/
def Double.ofNat (i : Nat) : Double := Double.round i 1

/-- The order `a < b` of two doubles, decided on the mantissas. -/
def Double.ltb (a b : Double) : Bool :=
  decide (a.mant * 2 ^ b.shift < b.mant * 2 ^ a.shift)

/-- The order `a ≤ b` of two doubles, decided on the mantissas. -/
def Double.leb (a b : Double) : Bool :=
  decide (a.mant * 2 ^ b.shift ≤ b.mant * 2 ^ a.shift)

/-- Whether the double `x` lies within `2^-k` of `n / d`, decided on the
mantissa. -/
def Double.within (x : Double) (n d k : Nat) : Bool :=
  decide (2 ^ k * d * x.mant ≤ 2 ^ k * n * 2 ^ x.shift + d * 2 ^ x.shift)
    && decide (2 ^ k * n * 2 ^ x.shift ≤ 2 ^ k * d * x.mant + d * 2 ^ x.shift)

/-- Entry `i` of the strike grid as the source computes it,
`strikes[i] = 0.003+i/1000.0`: the index converted to `double`, divided by the
double `1000.0`, and the quotient added to the double `0.003`. -/
def doubleStrike (i : Nat) : Double :=
  Double.add (Double.literal 3 1000) (Double.div (Double.ofNat i) (Double.literal 1000 1))

/-- The vector `strikes` as the source computes it, for `i` from 0 to 999. -/
def doubleStrikes : List Double := (List.range 1000).map doubleStrike

/-- The lower strike `effectiveLowerStrike = 0.005 + k*0.001` as the source
computes it: `k` converted to `double`, multiplied by the double `0.001`, and
the product added to the double `0.005`. -/
def doubleEffectiveLowerStrike (k : Nat) : Double :=
  Double.add (Double.literal 5 1000) (Double.mul (Double.ofNat k) (Double.literal 1 1000))

/-- The upper strike `effectiveUpperStrike = 0.006 + k*0.001` as the source
computes it. -/
def doubleEffectiveUpperStrike (k : Nat) : Double :=
  Double.add (Double.literal 6 1000) (Double.mul (Double.ofNat k) (Double.literal 1 1000))

/-! ## Lemmas on the contract -/

/-- A coupon with a valid corridor passes construction. -/
theorem create_coupon_ok (c : RangeAccrualFloatersCoupon) (h : c.lowerStrike < c.upperStrike) :
    c.create = .ok c := by
  simp [RangeAccrualFloatersCoupon.create, checkCorridor, h, bind, Except.bind, pure,
    Except.pure]

/-- A pricer with a correlation in `[-1, 1]` and smile sections that do not
expire before the evaluation date passes configuration. -/
theorem create_pricer_ok (mk : Market) (p : RangeAccrualPricerByBgm)
    (hlo : -1 ≤ p.correlation) (hhi : p.correlation ≤ 1)
    (hexp : mk.evaluationDate ≤ p.smileOnExpiry.exerciseDate)
    (hpay : mk.evaluationDate ≤ p.smileOnPayment.exerciseDate) :
    p.create mk = .ok p := by
  simp [RangeAccrualPricerByBgm.create, checkCorrelation, checkSmileSection, hlo, hhi,
    Nat.not_lt.mpr hexp, Nat.not_lt.mpr hpay, bind, Except.bind, pure, Except.pure]

/-- On valid inputs `price` returns the accumulated sum, normalized and scaled
back by the accrual period length, times notional and discount factor. -/
theorem price_ok (mk : Market) (rp : Replication) (p : RangeAccrualPricerByBgm)
    (c : RangeAccrualFloatersCoupon) (h : c.lowerStrike < c.upperStrike)
    (hlo : -1 ≤ p.correlation) (hhi : p.correlation ≤ 1)
    (hexp : mk.evaluationDate ≤ p.smileOnExpiry.exerciseDate)
    (hpay : mk.evaluationDate ≤ p.smileOnPayment.exerciseDate) :
    price mk rp p c
      = .ok (accumulated mk rp p c / accrualPeriodLength mk c * c.notional
          * mk.discountFactor c.paymentDate * accrualPeriodLength mk c) := by
  simp [price, rate, create_coupon_ok c h, create_pricer_ok mk p hlo hhi hexp hpay, bind,
    Except.bind, pure, Except.pure]

/-- Scaling by notional and discount factor preserves the order of two
accumulated sums, whatever the accrual period length. -/
theorem scaled_le_scaled (a1 a2 len scale : ℚ) (h : a2 ≤ a1) (hs : 0 ≤ scale) :
    a2 / len * scale * len ≤ a1 / len * scale * len := by
  by_cases hlen : len = 0
  · simp [hlen]
  · have e : ∀ a : ℚ, a / len * scale * len = a * scale := by
      intro a
      field_simp
    rw [e a1, e a2]
    exact mul_le_mul_of_nonneg_right h hs

/-- The accumulated sum is monotone in the in-corridor probabilities when
every observation day accrues a non-negative amount. -/
theorem accumulated_le_accumulated (mk : Market) (rp : Replication)
    (p : RangeAccrualPricerByBgm) (c1 c2 : RangeAccrualFloatersCoupon)
    (hs : c2.observationsSchedule = c1.observationsSchedule)
    (hd : ∀ d, dayAccrual mk c2 d = dayAccrual mk c1 d)
    (hacc : ∀ d ∈ c1.observationsSchedule, 0 ≤ dayAccrual mk c1 d)
    (hprob : ∀ d ∈ c1.observationsSchedule,
      inCorridorProbability mk rp p c2 d ≤ inCorridorProbability mk rp p c1 d) :
    accumulated mk rp p c2 ≤ accumulated mk rp p c1 := by
  unfold accumulated
  rw [hs]
  apply List.sum_le_sum
  intro d hmem
  rw [hd d]
  exact mul_le_mul_of_nonneg_left (hprob d hmem) (hacc d hmem)

/-- At zero volatility the call spread gives probability one to a strike that
lies at least `eps` below the forward. -/
theorem probAbove_intrinsic_callSpread_one (mk : Market) (p : RangeAccrualPricerByBgm)
    (d : Nat) (strike : ℚ) (hflag : p.byCallSpread = true)
    (h : strike + 1 / 10000 ≤ mk.forwardFixing d) :
    probAbove mk intrinsicReplication p d strike = 1 := by
  simp only [probAbove, callPrice, intrinsicReplication, hflag, if_true]
  rw [max_eq_left (by linarith), max_eq_left (by linarith)]
  ring

/-- At zero volatility the call spread gives probability zero to a strike that
lies at least `eps` above the forward. -/
theorem probAbove_intrinsic_callSpread_zero (mk : Market) (p : RangeAccrualPricerByBgm)
    (d : Nat) (strike : ℚ) (hflag : p.byCallSpread = true)
    (h : mk.forwardFixing d + 1 / 10000 ≤ strike) :
    probAbove mk intrinsicReplication p d strike = 0 := by
  simp only [probAbove, callPrice, intrinsicReplication, hflag, if_true]
  rw [max_eq_right (by linarith), max_eq_right (by linarith)]
  ring

/-- The increments of a convex function over a step of fixed length do not
decrease as the step moves to the right. -/
theorem convex_increment_mono (f : ℚ → ℚ) (hf : ConvexOn ℚ Set.univ f) (x y h : ℚ)
    (hxy : x ≤ y) (hh : 0 ≤ h) : f (x + h) - f x ≤ f (y + h) - f y := by
  rcases eq_or_lt_of_le hh with rfl | hpos
  · simp
  rcases eq_or_lt_of_le hxy with rfl | hlt
  · exact le_refl _
  have s1 := hf.secant_mono (Set.mem_univ x) (Set.mem_univ (x + h)) (Set.mem_univ (y + h))
    (by intro e; linarith) (by intro e; linarith) (by linarith)
  have s2 := hf.secant_mono (Set.mem_univ (y + h)) (Set.mem_univ x) (Set.mem_univ y)
    (by intro e; linarith) (by intro e; linarith) hxy
  have e1 : x + h - x = h := by ring
  have e2 : y - (y + h) = -h := by ring
  rw [e1] at s1
  rw [e2] at s2
  have e3 : (f x - f (y + h)) / (x - (y + h)) = (f (y + h) - f x) / (y + h - x) := by
    rw [← neg_div_neg_eq]
    congr 1 <;> ring
  have e4 : (f y - f (y + h)) / -h = (f (y + h) - f y) / h := by
    rw [← neg_div_neg_eq]
    congr 1 <;> ring
  rw [e3, e4] at s2
  exact (div_le_div_iff_of_pos_right hpos).mp (le_trans s1 s2)

/-- The call spread `(f(k-ε) - f(k+ε)) / (2ε)` of a convex function `f` does
not increase with `k`, whatever the half width `ε`. -/
theorem callSpread_antitone (f : ℚ → ℚ) (hf : ConvexOn ℚ Set.univ f) (eps k1 k2 : ℚ)
    (hk : k1 ≤ k2) :
    (f (k2 - eps) - f (k2 + eps)) / (2 * eps) ≤ (f (k1 - eps) - f (k1 + eps)) / (2 * eps) := by
  rcases lt_trichotomy eps 0 with hneg | rfl | hpos
  · have h := convex_increment_mono f hf (k1 + eps) (k2 + eps) (-(2 * eps)) (by linarith)
      (by linarith)
    have e1 : k1 + eps + -(2 * eps) = k1 - eps := by ring
    have e2 : k2 + eps + -(2 * eps) = k2 - eps := by ring
    rw [e1, e2] at h
    exact div_le_div_of_nonpos_of_le (by linarith) h
  · simp
  · have h := convex_increment_mono f hf (k1 - eps) (k2 - eps) (2 * eps) (by linarith)
      (by linarith)
    have e1 : k1 - eps + 2 * eps = k1 + eps := by ring
    have e2 : k2 - eps + 2 * eps = k2 + eps := by ring
    rw [e1, e2] at h
    exact div_le_div_of_nonneg_right (by linarith) (by linarith)

/-- The probability mass of step 2 does not increase with the strike when the
call price is convex in the strike (call spread) and the digital formula does
not increase with the strike (digital), each along the smile sections. -/
theorem probAbove_antitone (mk : Market) (rp : Replication) (p : RangeAccrualPricerByBgm)
    (d : Nat)
    (hcall : p.byCallSpread = true → ConvexOn ℚ Set.univ (callPrice mk rp p d))
    (hdigital : p.byCallSpread = false →
      Antitone (fun strike : ℚ =>
        rp.digital (mk.forwardFixing d) strike (p.smileOnExpiry.volatility strike)
          (p.smileOnPayment.volatility strike) p.correlation))
    (k1 k2 : ℚ) (hk : k1 ≤ k2) :
    probAbove mk rp p d k2 ≤ probAbove mk rp p d k1 := by
  unfold probAbove
  cases hflag : p.byCallSpread
  · simp only [Bool.false_eq_true, if_false]
    exact hdigital hflag hk
  · simp only [if_true]
    exact callSpread_antitone _ (hcall hflag) rp.eps k1 k2 hk

/-- The price at zero volatility is convex in the strike. -/
theorem callPrice_intrinsic_convex (mk : Market) (p : RangeAccrualPricerByBgm) (d : Nat) :
    ConvexOn ℚ Set.univ (callPrice mk intrinsicReplication p d) := by
  show ConvexOn ℚ Set.univ (fun k : ℚ => max (mk.forwardFixing d - k) 0)
  apply ConvexOn.sup
  · refine ⟨convex_univ, ?_⟩
    intro x _ y _ a b _ _ hab
    simp only [smul_eq_mul]
    have : mk.forwardFixing d = (a + b) * mk.forwardFixing d := by rw [hab, one_mul]
    nlinarith
  · exact convexOn_const 0 convex_univ

/-- The digital at zero volatility does not increase with the strike. -/
theorem digital_intrinsic_antitone (mk : Market) (p : RangeAccrualPricerByBgm) (d : Nat) :
    Antitone (fun strike : ℚ =>
      intrinsicReplication.digital (mk.forwardFixing d) strike
        (p.smileOnExpiry.volatility strike) (p.smileOnPayment.volatility strike)
        p.correlation) := by
  intro k1 k2 hk
  simp only [intrinsicReplication]
  by_cases h2 : k2 ≤ mk.forwardFixing d
  · rw [if_pos h2, if_pos (le_trans hk h2)]
  · rw [if_neg h2]
    split_ifs <;> norm_num

/-- On the sample market a valid coupon of the fixture over the two dates
42800 and 42801, with gearing `g`, spread `s` and notional `n`, is worth
`(g*3/100 + s) * n / 200` times the sum of the in-corridor probabilities of the
two dates. -/
theorem price_sample (rp : Replication) (p : RangeAccrualPricerByBgm)
    (c : RangeAccrualFloatersCoupon) (h : c.lowerStrike < c.upperStrike)
    (hlo : -1 ≤ p.correlation) (hhi : p.correlation ≤ 1)
    (hexp : sampleMarket.evaluationDate ≤ p.smileOnExpiry.exerciseDate)
    (hpay : sampleMarket.evaluationDate ≤ p.smileOnPayment.exerciseDate)
    (hs : c.observationsSchedule = [42800, 42801])
    (hstart : c.startDate = CommonVars.startDate) (hend : c.endDate = CommonVars.endDate) :
    price sampleMarket rp p c
      = .ok ((c.gearing * (3 / 100) + c.spread) * c.notional / 400
          * (inCorridorProbability sampleMarket rp p c 42800
            + inCorridorProbability sampleMarket rp p c 42801)) := by
  rw [price_ok _ _ _ _ h hlo hhi hexp hpay]
  congr 1
  simp only [accumulated, hs, List.map, List.sum_cons, List.sum_nil, dayAccrual,
    accrualPeriodLength, hstart, hend, sampleMarket, CommonVars.startDate, CommonVars.endDate]
  norm_num
  ring

/-- The call with time value on the capped smile is not convex in the strike:
its price at 2% lies above the mean of its prices at 1.5% and 2.5%. -/
theorem callPrice_timeValue_not_convex (d : Nat) :
    ¬ ConvexOn ℚ Set.univ (callPrice sampleMarket timeValueReplication cappedSmilePricer d) := by
  intro h
  have h2 := h.2 (Set.mem_univ (15 / 1000 : ℚ)) (Set.mem_univ (25 / 1000 : ℚ))
    (by norm_num : (0 : ℚ) ≤ 1 / 2) (by norm_num : (0 : ℚ) ≤ 1 / 2) (by norm_num)
  norm_num [callPrice, sampleMarket, timeValueReplication, cappedSmilePricer,
    cappedSmileSection, testPricer] at h2

/-- The digital with time value on the skewed smile rises from the strike 1% to
the strike 2.5%. -/
theorem digital_timeValue_not_antitone (d : Nat) :
    ¬ Antitone (fun strike : ℚ =>
      timeValueReplication.digital (sampleMarket.forwardFixing d) strike
        (skewSmilePricer.smileOnExpiry.volatility strike)
        (skewSmilePricer.smileOnPayment.volatility strike) skewSmilePricer.correlation) := by
  intro h
  have h2 := h (by norm_num : (1 / 100 : ℚ) ≤ 25 / 1000)
  norm_num [sampleMarket, timeValueReplication, skewSmilePricer, skewSmileSection,
    testPricer] at h2

/-! ## Lemmas on the schedule -/

/-- With a business day `b` within reach, `following` returns the first
business day at or after `date`: a business day between `date` and `b`. -/
theorem following_spec (cal : Calendar) (b : Nat) (hb : cal.isBusinessDay b = true) :
    ∀ fuel date : Nat, date ≤ b → b < date + fuel →
      cal.isBusinessDay (following cal fuel date) = true
      ∧ date ≤ following cal fuel date ∧ following cal fuel date ≤ b := by
  intro fuel
  induction fuel with
  | zero =>
    intro date h1 h2
    omega
  | succ n ih =>
    intro date h1 h2
    by_cases hd : cal.isBusinessDay date = true
    · simp only [following, hd, if_true]
      exact ⟨trivial, le_refl _, h1⟩
    · have hne : date ≠ b := fun e => hd (e ▸ hb)
      simp only [following]
      rw [if_neg hd]
      obtain ⟨i1, i2, i3⟩ := ih (date + 1) (by omega) (by omega)
      exact ⟨i1, by omega, i3⟩

/-- With a business day `b` within reach, `preceding` returns the last
business day at or before `date`: a business day between `b` and `date`. -/
theorem preceding_spec (cal : Calendar) (b : Nat) (hb : cal.isBusinessDay b = true) :
    ∀ fuel date : Nat, b ≤ date → date < b + fuel →
      cal.isBusinessDay (preceding cal fuel date) = true
      ∧ b ≤ preceding cal fuel date ∧ preceding cal fuel date ≤ date := by
  intro fuel
  induction fuel with
  | zero =>
    intro date h1 h2
    omega
  | succ n ih =>
    intro date h1 h2
    by_cases hd : cal.isBusinessDay date = true
    · simp only [preceding, hd, if_true]
      exact ⟨trivial, h1, le_refl _⟩
    · have hne : date ≠ b := fun e => hd (e ▸ hb)
      simp only [preceding]
      rw [if_neg hd]
      obtain ⟨i1, i2, i3⟩ := ih (date - 1) (by omega) (by omega)
      exact ⟨i1, i2, by omega⟩

/-- Between two business days `s ≤ e`, with fuel for the whole range, the
`ModifiedFollowing` adjustment stays in the range and preserves the order of
dates. -/
theorem adjust_mono (cal : Calendar) (s e fuel : Nat)
    (hs : cal.isBusinessDay s = true) (he : cal.isBusinessDay e = true)
    (hfuel : e < s + fuel) (hm : ∀ a b, a ≤ b → cal.monthIndex a ≤ cal.monthIndex b)
    (d1 d2 : Nat) (h1 : s ≤ d1) (h12 : d1 ≤ d2) (h2 : d2 ≤ e) :
    adjust cal fuel d1 ≤ adjust cal fuel d2 := by
  obtain ⟨f1b, f1lo, f1hi⟩ := following_spec cal e he fuel d1 (by omega) (by omega)
  obtain ⟨f2b, f2lo, f2hi⟩ := following_spec cal e he fuel d2 (by omega) (by omega)
  obtain ⟨p1b, p1lo, p1hi⟩ := preceding_spec cal s hs fuel d1 (by omega) (by omega)
  obtain ⟨p2b, p2lo, p2hi⟩ := preceding_spec cal s hs fuel d2 (by omega) (by omega)
  have hff : following cal fuel d1 ≤ following cal fuel d2 :=
    (following_spec cal _ f2b fuel d1 (by omega) (by omega)).2.2
  have hpp : preceding cal fuel d1 ≤ preceding cal fuel d2 :=
    (preceding_spec cal _ p1b fuel d2 (by omega) (by omega)).2.1
  unfold adjust
  by_cases c1 : cal.monthIndex (following cal fuel d1) = cal.monthIndex d1
  · by_cases c2 : cal.monthIndex (following cal fuel d2) = cal.monthIndex d2
    · simp only [c1, c2, if_true]
      exact hff
    · simp only [c1, c2, if_true, if_false]
      by_cases hcmp : following cal fuel d1 ≤ d2
      · exact (preceding_spec cal _ f1b fuel d2 hcmp (by omega)).2.1
      · exfalso
        have hback : following cal fuel d2 ≤ following cal fuel d1 :=
          (following_spec cal _ f1b fuel d2 (by omega) (by omega)).2.2
        have heq : following cal fuel d2 = following cal fuel d1 := le_antisymm hback hff
        have m1 := hm d1 d2 h12
        have m2 := hm d2 (following cal fuel d2) f2lo
        rw [heq, c1] at m2
        exact c2 (by rw [heq, c1]; exact le_antisymm m1 m2)
  · by_cases c2 : cal.monthIndex (following cal fuel d2) = cal.monthIndex d2
    · simp only [c1, c2, if_true, if_false]
      omega
    · simp only [c1, c2, if_false]
      exact hpp

/-- A business day is left where it is by the `ModifiedFollowing` adjustment. -/
theorem adjust_businessDay (cal : Calendar) (fuel d : Nat) (hfuel : 0 < fuel)
    (hd : cal.isBusinessDay d = true) : adjust cal fuel d = d := by
  obtain ⟨n, rfl⟩ : ∃ n, fuel = n + 1 := ⟨fuel - 1, by omega⟩
  simp [adjust, following, hd]

/-- After a date `last` that bounds the list from below, the dates kept are
strictly increasing, starting above `last`. -/
theorem skipRepeatedAfter_pairwise :
    ∀ (l : List Nat) (last : Nat), (last :: l).Pairwise (fun a b => a ≤ b) →
      (last :: skipRepeatedAfter last l).Pairwise (fun a b => a < b) := by
  intro l
  induction l with
  | nil =>
    intro last _
    simp [skipRepeatedAfter]
  | cons d rest ih =>
    intro last h
    rw [List.pairwise_cons] at h
    obtain ⟨hlast, hrest⟩ := h
    by_cases hd : d = last
    · simp only [skipRepeatedAfter, hd, if_true]
      apply ih last
      rw [List.pairwise_cons]
      refine ⟨fun x hx => hlast x (List.mem_cons_of_mem _ hx), ?_⟩
      exact (List.pairwise_cons.mp hrest).2
    · simp only [skipRepeatedAfter, hd, if_false]
      have hkept := ih d hrest
      have hlt : last < d := lt_of_le_of_ne (hlast d (List.mem_cons_self _ _)) (Ne.symm hd)
      rw [List.pairwise_cons]
      refine ⟨?_, hkept⟩
      intro x hx
      rcases List.mem_cons.mp hx with rfl | hx
      · exact hlt
      · exact lt_trans hlt ((List.pairwise_cons.mp hkept).1 x hx)

/-- Dropping repeated dates turns a non-decreasing list into a strictly
increasing one. -/
theorem skipRepeated_pairwise (l : List Nat) (h : l.Pairwise (fun a b => a ≤ b)) :
    (skipRepeated l).Pairwise (fun a b => a < b) := by
  cases l with
  | nil => simp [skipRepeated]
  | cons d rest => exact skipRepeatedAfter_pairwise rest d h

/-- Dropping repeated dates keeps the first date. -/
theorem skipRepeated_head (l : List Nat) : (skipRepeated l).head? = l.head? := by
  cases l <;> rfl

/-- Dropping the dates equal to the last kept one keeps the value of the last
date. -/
theorem skipRepeatedAfter_getLast :
    ∀ (l : List Nat) (last : Nat),
      (last :: skipRepeatedAfter last l).getLast? = (last :: l).getLast? := by
  intro l
  induction l with
  | nil =>
    intro last
    simp [skipRepeatedAfter]
  | cons d rest ih =>
    intro last
    by_cases hd : d = last
    · simp only [skipRepeatedAfter, hd, if_true]
      rw [ih last, List.getLast?_cons_cons]
    · simp only [skipRepeatedAfter, hd, if_false]
      rw [List.getLast?_cons_cons, ih d, List.getLast?_cons_cons]

/-- Dropping repeated dates keeps the value of the last date. -/
theorem skipRepeated_getLast (l : List Nat) : (skipRepeated l).getLast? = l.getLast? := by
  cases l with
  | nil => rfl
  | cons d rest => exact skipRepeatedAfter_getLast rest d

/-- Between two business days `s ≤ e` of a calendar whose month index does not
decrease, the schedule is strictly increasing, starts at `s` and ends at `e`. -/
theorem schedule_spec (cal : Calendar) (s e : Nat) (hse : s ≤ e)
    (hs : cal.isBusinessDay s = true) (he : cal.isBusinessDay e = true)
    (hm : ∀ a b, a ≤ b → cal.monthIndex a ≤ cal.monthIndex b) :
    (Schedule cal s e).Pairwise (fun a b => a < b)
    ∧ (Schedule cal s e).head? = some s
    ∧ (Schedule cal s e).getLast? = some e := by
  unfold Schedule
  refine ⟨?_, ?_, ?_⟩
  · apply skipRepeated_pairwise
    unfold dailySeeds
    rw [List.map_map, List.pairwise_map]
    refine List.Pairwise.imp_of_mem ?_ (List.pairwise_lt_range (e - s + 1))
    intro i j hi hj hij
    have hi2 := List.mem_range.mp hi
    have hj2 := List.mem_range.mp hj
    exact adjust_mono cal s e (e - s + 1) hs he (by omega) hm (s + i) (s + j)
      (by omega) (by omega) (by omega)
  · rw [skipRepeated_head]
    unfold dailySeeds
    rw [List.range_succ_eq_map]
    simp [adjust_businessDay cal (e - s + 1) s (by omega) hs]
  · rw [skipRepeated_getLast]
    unfold dailySeeds
    rw [List.range_succ]
    have hend : s + (e - s) = e := by omega
    simp [hend, adjust_businessDay cal (e - s + 1) e (by omega) he]

/-! ## Lemmas on the tests -/

/-- The pairs visited by the outer loops are the four pairs of `{0,1} × {0,1}`,
`z` in the outer loop. -/
theorem testCombinations_eq : testCombinations = [(0, 0), (0, 1), (1, 0), (1, 1)] := by
  decide

/-- Closed form of the loop of the lower-strike test over `k = a, …, a+n-1`:
pass `j` has `k = a + j`, uses the `j`-th coupon object built, and compares the
price of pass `j - 1` (the initial `previousPrice` in pass 0) with its price. -/
theorem lowerStrikeLoop_range (lib : Library) (z i pricer : Nat) (args : BgmPricerArgs) :
    ∀ (n a nextObject : Nat) (previousPrice : ℚ),
      lowerStrikeLoop lib z i pricer args (List.range' a n) nextObject previousPrice
        = (List.range n).map (fun j =>
            { z := z, i := i, k := a + j, coupon := nextObject + j, pricer := pricer
              lowerStrike := effectiveLowerStrike (a + j)
              upperStrike := CommonVars.infiniteUpperStrike
              comparedWith :=
                if j = 0 then previousPrice else lowerStrikePrice lib args (a + j - 1)
              value := lowerStrikePrice lib args (a + j)
              error := decide
                ((if j = 0 then previousPrice else lowerStrikePrice lib args (a + j - 1))
                  ≤ lowerStrikePrice lib args (a + j)) }) := by
  intro n
  induction n with
  | zero =>
    intro a nextObject previousPrice
    rfl
  | succ n ih =>
    intro a nextObject previousPrice
    rw [List.range'_succ, List.range_succ_eq_map, List.map_cons, List.map_map]
    simp only [lowerStrikeLoop, ih]
    congr 1
    apply List.map_congr_left
    intro j _
    have e1 : a + 1 + j = a + (j + 1) := by omega
    have e2 : nextObject + 1 + j = nextObject + (j + 1) := by omega
    have e3 : a + (j + 1) - 1 = a + j := by omega
    by_cases hj : j = 0
    · subst hj
      simp
    · simp only [Function.comp, e1, e2, e3, hj, if_false, Nat.succ_ne_zero]

/-- Closed form of the loop of the upper-strike test over `k = a, …, a+n-1`:
pass `j` has `k = a + j`, uses the `j`-th coupon object built, and compares the
price of pass `j - 1` (the initial `previousPrice` in pass 0) with its price. -/
theorem upperStrikeLoop_range (lib : Library) (z i pricer : Nat) (args : BgmPricerArgs) :
    ∀ (n a nextObject : Nat) (previousPrice : ℚ),
      upperStrikeLoop lib z i pricer args (List.range' a n) nextObject previousPrice
        = (List.range n).map (fun j =>
            { z := z, i := i, k := a + j, coupon := nextObject + j, pricer := pricer
              lowerStrike := 4 / 1000
              upperStrike := effectiveUpperStrike (a + j)
              comparedWith :=
                if j = 0 then previousPrice else upperStrikePrice lib args (a + j - 1)
              value := upperStrikePrice lib args (a + j)
              error := decide
                ((if j = 0 then previousPrice else upperStrikePrice lib args (a + j - 1))
                  > upperStrikePrice lib args (a + j)) }) := by
  intro n
  induction n with
  | zero =>
    intro a nextObject previousPrice
    rfl
  | succ n ih =>
    intro a nextObject previousPrice
    rw [List.range'_succ, List.range_succ_eq_map, List.map_cons, List.map_map]
    simp only [upperStrikeLoop, ih]
    congr 1
    apply List.map_congr_left
    intro j _
    have e1 : a + 1 + j = a + (j + 1) := by omega
    have e2 : nextObject + 1 + j = nextObject + (j + 1) := by omega
    have e3 : a + (j + 1) - 1 = a + j := by omega
    by_cases hj : j = 0
    · subst hj
      simp
    · simp only [Function.comp, e1, e2, e3, hj, if_false, Nat.succ_ne_zero]

/-- The pricer arguments of the four combinations: the two flat smiles for
`z = 0`, the two interpolated smiles for `z = 1`, call spread for `i = 0`. -/
theorem bgmPricerArgs_combinations :
    bgmPricerArgs 0 0 = some
        { correlation := CommonVars.correlation
          smileOnExpiry := .flatSmileSection CommonVars.startDate CommonVars.flatVol
          smileOnPayment := .flatSmileSection CommonVars.endDate CommonVars.flatVol
          withSmile := true, byCallSpread := true }
    ∧ bgmPricerArgs 0 1 = some
        { correlation := CommonVars.correlation
          smileOnExpiry := .flatSmileSection CommonVars.startDate CommonVars.flatVol
          smileOnPayment := .flatSmileSection CommonVars.endDate CommonVars.flatVol
          withSmile := true, byCallSpread := false }
    ∧ bgmPricerArgs 1 0 = some
        { correlation := CommonVars.correlation
          smileOnExpiry :=
            .interpolatedSmileSection CommonVars.startDate strikes stdDevsOnExpiry dummyAtmLevel
          smileOnPayment :=
            .interpolatedSmileSection CommonVars.endDate strikes stdDevsOnPayment dummyAtmLevel
          withSmile := true, byCallSpread := true }
    ∧ bgmPricerArgs 1 1 = some
        { correlation := CommonVars.correlation
          smileOnExpiry :=
            .interpolatedSmileSection CommonVars.startDate strikes stdDevsOnExpiry dummyAtmLevel
          smileOnPayment :=
            .interpolatedSmileSection CommonVars.endDate strikes stdDevsOnPayment dummyAtmLevel
          withSmile := true, byCallSpread := false } :=
  ⟨rfl, rfl, rfl, rfl⟩

/-- The lower-strike test runs its loop on `k` once for each combination; the
pricers are the objects 0, 100, 200 and 300, each followed by its 99 coupons. -/
theorem lowerStrikeTest_eq (vars : TestParameters) (lib : Library) :
    ∃ a00 a01 a10 a11,
      bgmPricerArgs 0 0 = some a00 ∧ bgmPricerArgs 0 1 = some a01
      ∧ bgmPricerArgs 1 0 = some a10 ∧ bgmPricerArgs 1 1 = some a11
      ∧ testPriceMonotonicityWithRespectToLowerStrike vars lib
        = lowerStrikeLoop lib 0 0 0 a00 (List.range' 1 99) 1 100
          ++ (lowerStrikeLoop lib 0 1 100 a01 (List.range' 1 99) 101 100
          ++ (lowerStrikeLoop lib 1 0 200 a10 (List.range' 1 99) 201 100
          ++ lowerStrikeLoop lib 1 1 300 a11 (List.range' 1 99) 301 100)) := by
  obtain ⟨h00, h01, h10, h11⟩ := bgmPricerArgs_combinations
  refine ⟨_, _, _, _, h00, h01, h10, h11, ?_⟩
  simp only [testPriceMonotonicityWithRespectToLowerStrike, testCombinations_eq,
    lowerStrikeCombinations, h00, h01, h10, h11, List.append_nil]

/-- The four passes of `testInfiniteRange`: the coupon is the object 0 in each
of them, the pricers are the objects 1 to 4. -/
theorem testInfiniteRange_objects (vars : TestParameters) (lib : Library) :
    (testInfiniteRange vars lib).map (fun e => (e.z, e.i, e.k, e.coupon, e.pricer))
      = [(0, 0, 0, 0, 1), (0, 1, 0, 0, 2), (1, 0, 0, 0, 3), (1, 1, 0, 0, 4)] := by
  obtain ⟨h00, h01, h10, h11⟩ := bgmPricerArgs_combinations
  simp only [testInfiniteRange, testCombinations_eq, infiniteRangeLoop, h00, h01, h10, h11,
    List.map_cons, List.map_nil]

/-- The upper-strike test runs its loop on `k` once for each combination; the
pricers are the objects 0, 95, 190 and 285, each followed by its 94 coupons. -/
theorem upperStrikeTest_eq (vars : TestParameters) (lib : Library) :
    ∃ a00 a01 a10 a11,
      bgmPricerArgs 0 0 = some a00 ∧ bgmPricerArgs 0 1 = some a01
      ∧ bgmPricerArgs 1 0 = some a10 ∧ bgmPricerArgs 1 1 = some a11
      ∧ testPriceMonotonicityWithRespectToUpperStrike vars lib
        = upperStrikeLoop lib 0 0 0 a00 (List.range' 1 94) 1 0
          ++ (upperStrikeLoop lib 0 1 95 a01 (List.range' 1 94) 96 0
          ++ (upperStrikeLoop lib 1 0 190 a10 (List.range' 1 94) 191 0
          ++ upperStrikeLoop lib 1 1 285 a11 (List.range' 1 94) 286 0)) := by
  obtain ⟨h00, h01, h10, h11⟩ := bgmPricerArgs_combinations
  refine ⟨_, _, _, _, h00, h01, h10, h11, ?_⟩
  simp only [testPriceMonotonicityWithRespectToUpperStrike, testCombinations_eq,
    upperStrikeCombinations, h00, h01, h10, h11, List.append_nil]

/-- Objects and indices of the passes of the lower-strike loop: consecutive
new coupons, one pricer, `k` running over the range. -/
theorem lowerStrikeLoop_objects (lib : Library) (z i pricer : Nat) (args : BgmPricerArgs)
    (n a nextObject : Nat) (previousPrice : ℚ) :
    (lowerStrikeLoop lib z i pricer args (List.range' a n) nextObject previousPrice).map
        (fun e => e.coupon) = List.range' nextObject n
    ∧ (lowerStrikeLoop lib z i pricer args (List.range' a n) nextObject previousPrice).map
        (fun e => e.pricer) = List.replicate n pricer
    ∧ (lowerStrikeLoop lib z i pricer args (List.range' a n) nextObject previousPrice).map
        (fun e => (e.z, e.i, e.k)) = (List.range' a n).map (fun k => (z, i, k)) := by
  rw [lowerStrikeLoop_range]
  refine ⟨?_, ?_, ?_⟩
  · rw [List.map_map, List.range'_eq_map_range]
    rfl
  · rw [List.map_map]
    simp [Function.comp_def]
  · rw [List.map_map, List.range'_eq_map_range, List.map_map]
    rfl

/-- Objects and indices of the passes of the upper-strike loop: consecutive
new coupons, one pricer, `k` running over the range. -/
theorem upperStrikeLoop_objects (lib : Library) (z i pricer : Nat) (args : BgmPricerArgs)
    (n a nextObject : Nat) (previousPrice : ℚ) :
    (upperStrikeLoop lib z i pricer args (List.range' a n) nextObject previousPrice).map
        (fun e => e.coupon) = List.range' nextObject n
    ∧ (upperStrikeLoop lib z i pricer args (List.range' a n) nextObject previousPrice).map
        (fun e => e.pricer) = List.replicate n pricer
    ∧ (upperStrikeLoop lib z i pricer args (List.range' a n) nextObject previousPrice).map
        (fun e => (e.z, e.i, e.k)) = (List.range' a n).map (fun k => (z, i, k)) := by
  rw [upperStrikeLoop_range]
  refine ⟨?_, ?_, ?_⟩
  · rw [List.map_map, List.range'_eq_map_range]
    rfl
  · rw [List.map_map]
    simp [Function.comp_def]
  · rw [List.map_map, List.range'_eq_map_range, List.map_map]
    rfl

/-- Four blocks of `n` consecutive numbers separated by one number each have
no number in common. -/
theorem four_blocks_nodup (n : Nat) :
    (List.range' 1 n ++ (List.range' (n + 2) n ++ (List.range' (2 * n + 3) n
      ++ List.range' (3 * n + 4) n))).Nodup := by
  simp only [List.nodup_append, List.Disjoint, List.mem_append, List.mem_range'_1]
  refine ⟨List.nodup_range' _ _, ⟨List.nodup_range' _ _, ⟨List.nodup_range' _ _,
    List.nodup_range' _ _, ?_⟩, ?_⟩, ?_⟩
  · intro a h1 h2
    omega
  · intro a h1 h2
    omega
  · intro a h1 h2
    omega


/-- Every pass of the lower-strike loop prices the corridor
`[effectiveLowerStrike k, infiniteUpperStrike]` and reports an error exactly
when the value it compares with is `≤` its price. -/
theorem lowerStrikeLoop_mem (lib : Library) (z i pricer : Nat) (args : BgmPricerArgs)
    (n a nextObject : Nat) (previousPrice : ℚ) (e : Evaluation)
    (he : e ∈ lowerStrikeLoop lib z i pricer args (List.range' a n) nextObject previousPrice) :
    (∃ k, a ≤ k ∧ k < a + n ∧ e.lowerStrike = effectiveLowerStrike k
        ∧ e.upperStrike = CommonVars.infiniteUpperStrike)
    ∧ (e.error = true ↔ e.comparedWith ≤ e.value) := by
  rw [lowerStrikeLoop_range, List.mem_map] at he
  obtain ⟨j, hj, rfl⟩ := he
  rw [List.mem_range] at hj
  exact ⟨⟨a + j, by omega, by omega, rfl, rfl⟩, by simp only [decide_eq_true_eq]⟩

/-- Every pass of the upper-strike loop prices the corridor
`[.004, effectiveUpperStrike k]` and reports an error exactly when the value it
compares with is `>` its price. -/
theorem upperStrikeLoop_mem (lib : Library) (z i pricer : Nat) (args : BgmPricerArgs)
    (n a nextObject : Nat) (previousPrice : ℚ) (e : Evaluation)
    (he : e ∈ upperStrikeLoop lib z i pricer args (List.range' a n) nextObject previousPrice) :
    (∃ k, a ≤ k ∧ k < a + n ∧ e.lowerStrike = 4 / 1000
        ∧ e.upperStrike = effectiveUpperStrike k)
    ∧ (e.error = true ↔ e.comparedWith > e.value) := by
  rw [upperStrikeLoop_range, List.mem_map] at he
  obtain ⟨j, hj, rfl⟩ := he
  rw [List.mem_range] at hj
  exact ⟨⟨a + j, by omega, by omega, rfl, rfl⟩, by simp only [decide_eq_true_eq]⟩

/-- Every pass of the lower-strike test has `k` between 1 and 99. -/
theorem lowerStrikeTest_mem (vars : TestParameters) (lib : Library) (e : Evaluation)
    (he : e ∈ testPriceMonotonicityWithRespectToLowerStrike vars lib) :
    (∃ k, 1 ≤ k ∧ k ≤ 99 ∧ e.lowerStrike = effectiveLowerStrike k
        ∧ e.upperStrike = CommonVars.infiniteUpperStrike)
    ∧ (e.error = true ↔ e.comparedWith ≤ e.value) := by
  obtain ⟨a00, a01, a10, a11, -, -, -, -, h⟩ := lowerStrikeTest_eq vars lib
  rw [h] at he
  simp only [List.mem_append] at he
  rcases he with he | he | he | he <;>
    · obtain ⟨⟨k, h1, h2, h3, h4⟩, h5⟩ := lowerStrikeLoop_mem _ _ _ _ _ _ _ _ _ e he
      exact ⟨⟨k, h1, by omega, h3, h4⟩, h5⟩

/-- Every pass of the upper-strike test has `k` between 1 and 94. -/
theorem upperStrikeTest_mem (vars : TestParameters) (lib : Library) (e : Evaluation)
    (he : e ∈ testPriceMonotonicityWithRespectToUpperStrike vars lib) :
    (∃ k, 1 ≤ k ∧ k ≤ 94 ∧ e.lowerStrike = 4 / 1000
        ∧ e.upperStrike = effectiveUpperStrike k)
    ∧ (e.error = true ↔ e.comparedWith > e.value) := by
  obtain ⟨a00, a01, a10, a11, -, -, -, -, h⟩ := upperStrikeTest_eq vars lib
  rw [h] at he
  simp only [List.mem_append] at he
  rcases he with he | he | he | he <;>
    · obtain ⟨⟨k, h1, h2, h3, h4⟩, h5⟩ := upperStrikeLoop_mem _ _ _ _ _ _ _ _ _ e he
      exact ⟨⟨k, h1, by omega, h3, h4⟩, h5⟩

/-- Every pass of `testInfiniteRange` uses the infinite corridor. -/
theorem testInfiniteRange_mem (vars : TestParameters) (lib : Library) (e : Evaluation)
    (he : e ∈ testInfiniteRange vars lib) :
    e.lowerStrike = CommonVars.infiniteLowerStrike
    ∧ e.upperStrike = CommonVars.infiniteUpperStrike := by
  obtain ⟨h00, h01, h10, h11⟩ := bgmPricerArgs_combinations
  simp only [testInfiniteRange, testCombinations_eq, infiniteRangeLoop, h00, h01, h10, h11,
    List.mem_cons, List.mem_nil_iff, or_false] at he
  rcases he with rfl | rfl | rfl | rfl <;> exact ⟨rfl, rfl⟩

/-- Every pass of the lower-strike loop carries the indices of the loop and
takes its price from the library with the pricer arguments of the loop, for the
coupon on its own corridor. -/
theorem lowerStrikeLoop_value (lib : Library) (z i pricer : Nat) (args : BgmPricerArgs)
    (n a nextObject : Nat) (previousPrice : ℚ) (e : Evaluation)
    (he : e ∈ lowerStrikeLoop lib z i pricer args (List.range' a n) nextObject previousPrice) :
    e.z = z ∧ e.i = i ∧ e.pricer = pricer
    ∧ e.value = lib.couponPrice args
        (testCoupon lib.observationSchedule e.lowerStrike e.upperStrike) := by
  rw [lowerStrikeLoop_range, List.mem_map] at he
  obtain ⟨j, -, rfl⟩ := he
  exact ⟨rfl, rfl, rfl, rfl⟩

/-- Every pass of the upper-strike loop carries the indices of the loop and
takes its price from the library with the pricer arguments of the loop, for the
coupon on its own corridor. -/
theorem upperStrikeLoop_value (lib : Library) (z i pricer : Nat) (args : BgmPricerArgs)
    (n a nextObject : Nat) (previousPrice : ℚ) (e : Evaluation)
    (he : e ∈ upperStrikeLoop lib z i pricer args (List.range' a n) nextObject previousPrice) :
    e.z = z ∧ e.i = i ∧ e.pricer = pricer
    ∧ e.value = lib.couponPrice args
        (testCoupon lib.observationSchedule e.lowerStrike e.upperStrike) := by
  rw [upperStrikeLoop_range, List.mem_map] at he
  obtain ⟨j, -, rfl⟩ := he
  exact ⟨rfl, rfl, rfl, rfl⟩

/-- Every pass of the lower-strike test is made for one of the four pairs and
prices its coupon with the pricer built from the smiles and the flag of that
pair. -/
theorem lowerStrikeTest_value (vars : TestParameters) (lib : Library) (e : Evaluation)
    (he : e ∈ testPriceMonotonicityWithRespectToLowerStrike vars lib) :
    (e.z, e.i) ∈ testCombinations
    ∧ ∃ a, bgmPricerArgs e.z e.i = some a
        ∧ e.value = lib.couponPrice a
            (testCoupon lib.observationSchedule e.lowerStrike e.upperStrike) := by
  obtain ⟨a00, a01, a10, a11, h00, h01, h10, h11, h⟩ := lowerStrikeTest_eq vars lib
  rw [h] at he
  simp only [List.mem_append] at he
  rw [testCombinations_eq]
  rcases he with he | he | he | he
  · obtain ⟨hz, hi, -, hv⟩ := lowerStrikeLoop_value _ _ _ _ _ _ _ _ _ e he
    rw [hz, hi]
    exact ⟨by simp, a00, h00, hv⟩
  · obtain ⟨hz, hi, -, hv⟩ := lowerStrikeLoop_value _ _ _ _ _ _ _ _ _ e he
    rw [hz, hi]
    exact ⟨by simp, a01, h01, hv⟩
  · obtain ⟨hz, hi, -, hv⟩ := lowerStrikeLoop_value _ _ _ _ _ _ _ _ _ e he
    rw [hz, hi]
    exact ⟨by simp, a10, h10, hv⟩
  · obtain ⟨hz, hi, -, hv⟩ := lowerStrikeLoop_value _ _ _ _ _ _ _ _ _ e he
    rw [hz, hi]
    exact ⟨by simp, a11, h11, hv⟩

/-- Every pass of the upper-strike test is made for one of the four pairs and
prices its coupon with the pricer built from the smiles and the flag of that
pair. -/
theorem upperStrikeTest_value (vars : TestParameters) (lib : Library) (e : Evaluation)
    (he : e ∈ testPriceMonotonicityWithRespectToUpperStrike vars lib) :
    (e.z, e.i) ∈ testCombinations
    ∧ ∃ a, bgmPricerArgs e.z e.i = some a
        ∧ e.value = lib.couponPrice a
            (testCoupon lib.observationSchedule e.lowerStrike e.upperStrike) := by
  obtain ⟨a00, a01, a10, a11, h00, h01, h10, h11, h⟩ := upperStrikeTest_eq vars lib
  rw [h] at he
  simp only [List.mem_append] at he
  rw [testCombinations_eq]
  rcases he with he | he | he | he
  · obtain ⟨hz, hi, -, hv⟩ := upperStrikeLoop_value _ _ _ _ _ _ _ _ _ e he
    rw [hz, hi]
    exact ⟨by simp, a00, h00, hv⟩
  · obtain ⟨hz, hi, -, hv⟩ := upperStrikeLoop_value _ _ _ _ _ _ _ _ _ e he
    rw [hz, hi]
    exact ⟨by simp, a01, h01, hv⟩
  · obtain ⟨hz, hi, -, hv⟩ := upperStrikeLoop_value _ _ _ _ _ _ _ _ _ e he
    rw [hz, hi]
    exact ⟨by simp, a10, h10, hv⟩
  · obtain ⟨hz, hi, -, hv⟩ := upperStrikeLoop_value _ _ _ _ _ _ _ _ _ e he
    rw [hz, hi]
    exact ⟨by simp, a11, h11, hv⟩

/-- Every pass of `testInfiniteRange` is made for one of the four pairs and
takes the rate of its coupon with the pricer built from the smiles and the flag
of that pair. -/
theorem testInfiniteRange_value (vars : TestParameters) (lib : Library) (e : Evaluation)
    (he : e ∈ testInfiniteRange vars lib) :
    (e.z, e.i) ∈ testCombinations
    ∧ ∃ a, bgmPricerArgs e.z e.i = some a
        ∧ e.value = lib.couponRate a
            (testCoupon lib.observationSchedule e.lowerStrike e.upperStrike) := by
  obtain ⟨h00, h01, h10, h11⟩ := bgmPricerArgs_combinations
  simp only [testInfiniteRange, testCombinations_eq, infiniteRangeLoop, h00, h01, h10, h11,
    List.mem_cons, List.mem_nil_iff, or_false] at he
  rw [testCombinations_eq]
  rcases he with rfl | rfl | rfl | rfl
  · exact ⟨by simp, _, h00, rfl⟩
  · exact ⟨by simp, _, h01, rfl⟩
  · exact ⟨by simp, _, h10, rfl⟩
  · exact ⟨by simp, _, h11, rfl⟩

/-- The lower strikes of the lower-strike test stay below the upper strike 1. -/
theorem effectiveLowerStrike_lt (k : Nat) (hk : k ≤ 99) :
    effectiveLowerStrike k < CommonVars.infiniteUpperStrike := by
  have h : (k : ℚ) ≤ 99 := by exact_mod_cast hk
  unfold effectiveLowerStrike CommonVars.infiniteUpperStrike
  linarith

/-- The upper strikes of the upper-strike test stay above the lower strike. -/
theorem lt_effectiveUpperStrike (k : Nat) : (4 / 1000 : ℚ) < effectiveUpperStrike k := by
  have h : (0 : ℚ) ≤ (k : ℚ) := Nat.cast_nonneg k
  unfold effectiveUpperStrike
  linarith

/-! ## Lemmas on dates -/

/-- A year has 366 days when it is a leap year and 365 days otherwise. -/
theorem daysInMonths_twelve (y : Nat) :
    daysInMonths y 12 = if isLeapYear y then 366 else 365 := by
  cases h : isLeapYear y <;> simp [daysInMonths, monthLength, h]

/-- The leap-year rule: a multiple of 4 that is not a multiple of 100, or a
multiple of 400. -/
theorem isLeapYear_iff (y : Nat) :
    isLeapYear y = true ↔ y % 4 = 0 ∧ (y % 100 ≠ 0 ∨ y % 400 = 0) := by
  simp [isLeapYear]

/-- The days before a year grow by the length of the year before it. -/
theorem daysBeforeYear_succ (y : Nat) (hy : 1 ≤ y) :
    daysBeforeYear (y + 1) = daysBeforeYear y + if isLeapYear y then 366 else 365 := by
  have e : y + 1 - 1 = y := by omega
  have hle : (y - 1) / 100 ≤ (y - 1) / 4 := by omega
  unfold daysBeforeYear
  rw [e]
  by_cases c4 : y % 4 = 0
  · have k4 : y / 4 = (y - 1) / 4 + 1 := by omega
    by_cases c100 : y % 100 = 0
    · have k100 : y / 100 = (y - 1) / 100 + 1 := by omega
      by_cases c400 : y % 400 = 0
      · have k400 : y / 400 = (y - 1) / 400 + 1 := by omega
        rw [if_pos ((isLeapYear_iff y).mpr ⟨c4, Or.inr c400⟩), k4, k100, k400]
        omega
      · have k400 : y / 400 = (y - 1) / 400 := by omega
        rw [if_neg (fun h =>
          ((isLeapYear_iff y).mp h).2.elim (fun h1 => h1 c100) (fun h1 => c400 h1)),
          k4, k100, k400]
        omega
    · have k100 : y / 100 = (y - 1) / 100 := by omega
      have k400 : y / 400 = (y - 1) / 400 := by omega
      rw [if_pos ((isLeapYear_iff y).mpr ⟨c4, Or.inl c100⟩), k4, k100, k400]
      omega
  · have k4 : y / 4 = (y - 1) / 4 := by omega
    have c100 : y % 100 ≠ 0 := by omega
    have c400 : y % 400 ≠ 0 := by omega
    have k100 : y / 100 = (y - 1) / 100 := by omega
    have k400 : y / 400 = (y - 1) / 400 := by omega
    rw [if_neg (fun h => c4 ((isLeapYear_iff y).mp h).1), k4, k100, k400]
    omega

/-- The day after a valid date is a valid date, and its day number is the next
number. -/
theorem dayNumber_next (d : CivilDate) (hv : d.isValid) (hy : 1 ≤ d.year) :
    d.next.isValid ∧ dayNumber d.next = dayNumber d + 1 := by
  obtain ⟨hm1, hm12, hd1, hdl⟩ := hv
  unfold CivilDate.next
  by_cases h1 : d.day < monthLength d.year d.month
  · rw [if_pos h1]
    refine ⟨⟨hm1, hm12, by simp, by simpa using h1⟩, ?_⟩
    simp [dayNumber]
    omega
  · rw [if_neg h1]
    have hday : d.day = monthLength d.year d.month := by omega
    by_cases h2 : d.month < 12
    · rw [if_pos h2]
      refine ⟨⟨by simp, by show d.month + 1 ≤ 12; omega, le_refl _, ?_⟩, ?_⟩
      · show 1 ≤ monthLength d.year (d.month + 1)
        unfold monthLength
        split_ifs <;> omega
      · obtain ⟨n, hn⟩ : ∃ n, d.month = n + 1 := ⟨d.month - 1, by omega⟩
        simp only [dayNumber, hn, Nat.add_sub_cancel, daysInMonths, hday]
        omega
    · rw [if_neg h2]
      have hm : d.month = 12 := by omega
      refine ⟨⟨le_refl _, by norm_num, le_refl _, ?_⟩, ?_⟩
      · show 1 ≤ monthLength (d.year + 1) 1
        simp [monthLength]
      · have h12 := daysInMonths_twelve d.year
        have hs := daysBeforeYear_succ d.year hy
        have h31 : monthLength d.year 12 = 31 := by simp [monthLength]
        simp only [dayNumber, hm, hday, h31]
        have : daysInMonths d.year 12 = daysInMonths d.year 11 + 31 := by
          simp [daysInMonths, monthLength]
        simp only [daysInMonths] at this h12 ⊢
        omega

/-- From 1901 on the day number of a date is at least that of 1 January 1901. -/
theorem dayNumber_ge (d : CivilDate) (hd : 1 ≤ d.day) (hy : 1901 ≤ d.year) :
    dayNumber { year := 1901, month := 1, day := 1 } ≤ dayNumber d := by
  have h0 : dayNumber { year := 1901, month := 1, day := 1 } = 693961 := by decide
  have h1 : 693960 ≤ daysBeforeYear d.year := by
    unfold daysBeforeYear
    omega
  rw [h0]
  unfold dayNumber
  omega

/-! ## Lemmas on the fixture tables -/

/-- The lower strikes of the lower-strike test lie strictly between `0.005` and
`0.105`. -/
theorem effectiveLowerStrike_bounds (k : Nat) (h1 : 1 ≤ k) (h99 : k ≤ 99) :
    (5 / 1000 : ℚ) < effectiveLowerStrike k ∧ effectiveLowerStrike k < 105 / 1000 := by
  have a : (1 : ℚ) ≤ (k : ℚ) := by exact_mod_cast h1
  have b : (k : ℚ) ≤ 99 := by exact_mod_cast h99
  unfold effectiveLowerStrike
  constructor <;> linarith

/-- The upper strikes of the upper-strike test lie strictly between `0.006` and
`0.101`. -/
theorem effectiveUpperStrike_bounds (k : Nat) (h1 : 1 ≤ k) (h94 : k ≤ 94) :
    (6 / 1000 : ℚ) < effectiveUpperStrike k ∧ effectiveUpperStrike k < 101 / 1000 := by
  have a : (1 : ℚ) ≤ (k : ℚ) := by exact_mod_cast h1
  have b : (k : ℚ) ≤ 94 := by exact_mod_cast h94
  unfold effectiveUpperStrike
  constructor <;> linarith

/-- The strike grid starts at `0.003` and ends at `1.002`. -/
theorem strikes_head_getLast :
    strikes.head? = some (3 / 1000) ∧ strikes.getLast? = some (1002 / 1000) := by
  constructor
  · unfold strikes
    rw [List.range_succ_eq_map]
    simp
  · unfold strikes
    rw [List.range_succ]
    simp
    norm_num

/-- The matrix `atmVolMatrix` after its assignments: every write is in bounds
and every cell holds `flatVol`. -/
theorem atmVolMatrix_eq :
    createVolatilityStructures.atmVolMatrix
      = some { rows := 6, columns := 4
               cells := List.replicate 6 (List.replicate 4 (some CommonVars.flatVol)) } := by
  rfl

/-- The matrix `volSpreadsMatrix` after its assignments: every write is in
bounds and the cells are those of the source, row by row. -/
theorem volSpreadsMatrix_eq :
    createVolatilityStructures.volSpreadsMatrix
      = some { rows := 9, columns := 5
               cells := (List.range 9).map (fun i =>
                 ((createVolatilityStructures.volSpreadsWrites.drop (5 * i)).take 5).map
                   (fun w => some w.value)) } := by
  rfl

/-! ## Lemmas on double-precision arithmetic -/

/-- The order decided on the mantissas is the order of the exact values. -/
theorem Double.toRat_lt_of_ltb (a b : Double) (h : Double.ltb a b = true) :
    a.toRat < b.toRat := by
  have h1 : a.mant * 2 ^ b.shift < b.mant * 2 ^ a.shift := of_decide_eq_true h
  have hc : ((a.mant * 2 ^ b.shift : Nat) : ℚ) < ((b.mant * 2 ^ a.shift : Nat) : ℚ) := by
    exact_mod_cast h1
  push_cast at hc
  unfold Double.toRat
  rw [div_lt_div_iff₀ (by positivity) (by positivity)]
  exact hc

/-- The weak order decided on the mantissas is the order of the exact values. -/
theorem Double.toRat_le_of_leb (a b : Double) (h : Double.leb a b = true) :
    a.toRat ≤ b.toRat := by
  have h1 : a.mant * 2 ^ b.shift ≤ b.mant * 2 ^ a.shift := of_decide_eq_true h
  have hc : ((a.mant * 2 ^ b.shift : Nat) : ℚ) ≤ ((b.mant * 2 ^ a.shift : Nat) : ℚ) := by
    exact_mod_cast h1
  push_cast at hc
  unfold Double.toRat
  rw [div_le_div_iff₀ (by positivity) (by positivity)]
  exact hc

/-- The distance decided on the mantissa bounds the distance of the exact
value from `n / d`. -/
theorem Double.abs_sub_le_of_within (x : Double) (n d k : Nat) (hd : 0 < d)
    (h : Double.within x n d k = true) :
    |x.toRat - (n : ℚ) / d| ≤ 1 / 2 ^ k := by
  unfold Double.within at h
  rw [Bool.and_eq_true] at h
  have h1 : 2 ^ k * d * x.mant ≤ 2 ^ k * n * 2 ^ x.shift + d * 2 ^ x.shift :=
    of_decide_eq_true h.1
  have h2 : 2 ^ k * n * 2 ^ x.shift ≤ 2 ^ k * d * x.mant + d * 2 ^ x.shift :=
    of_decide_eq_true h.2
  have c1 : ((2 ^ k * d * x.mant : Nat) : ℚ)
      ≤ ((2 ^ k * n * 2 ^ x.shift + d * 2 ^ x.shift : Nat) : ℚ) := by exact_mod_cast h1
  have c2 : ((2 ^ k * n * 2 ^ x.shift : Nat) : ℚ)
      ≤ ((2 ^ k * d * x.mant + d * 2 ^ x.shift : Nat) : ℚ) := by exact_mod_cast h2
  push_cast at c1 c2
  have hD : (0 : ℚ) < (d : ℚ) := by exact_mod_cast hd
  have hden : (0 : ℚ) < 2 ^ k * d * 2 ^ x.shift := by positivity
  unfold Double.toRat
  rw [abs_le]
  constructor
  · rw [← sub_nonneg]
    have e : (x.mant : ℚ) / 2 ^ x.shift - (n : ℚ) / d - -(1 / 2 ^ k)
        = (2 ^ k * d * x.mant + d * 2 ^ x.shift - 2 ^ k * n * 2 ^ x.shift)
          / (2 ^ k * d * 2 ^ x.shift) := by
      field_simp
      ring
    rw [e]
    exact div_nonneg (by linarith) (le_of_lt hden)
  · rw [← sub_nonneg]
    have e : 1 / 2 ^ k - ((x.mant : ℚ) / 2 ^ x.shift - (n : ℚ) / d)
        = (2 ^ k * n * 2 ^ x.shift + d * 2 ^ x.shift - 2 ^ k * d * x.mant)
          / (2 ^ k * d * 2 ^ x.shift) := by
      field_simp
      ring
    rw [e]
    exact div_nonneg (by linarith) (le_of_lt hden)

set_option maxRecDepth 100000 in
/-- The rounding on known values: `0.1` is `7205759403792794 / 2^56`, and
`0.1 + 0.2` is the double next above `0.3`. -/
theorem Double.tenth_plus_fifth :
    Double.literal 1 10 = { mant := 7205759403792794, shift := 56 }
    ∧ Double.add (Double.literal 1 10) (Double.literal 2 10)
      = { mant := 5404319552844596, shift := 54 }
    ∧ Double.literal 3 10 = { mant := 5404319552844595, shift := 54 } := by
  decide!

set_option maxRecDepth 1000000 in
/-- Every entry of the grid the source computes lies within `2^-53` of
`(3 + i) / 1000` and below the value the same expression takes at `i + 1`. -/
theorem doubleStrike_checked (i : Nat) (hi : i < 1000) :
    Double.within (doubleStrike i) (3 + i) 1000 53 = true
    ∧ Double.ltb (doubleStrike i) (doubleStrike (i + 1)) = true := by
  have h : (List.range 1000).all (fun i =>
      Double.within (doubleStrike i) (3 + i) 1000 53
        && Double.ltb (doubleStrike i) (doubleStrike (i + 1))) = true := by
    decide!
  have := List.all_eq_true.mp h i (List.mem_range.mpr hi)
  simpa using this

/-- Every entry of the grid the source computes lies within `2^-53` of its
exact value `0.003 + i/1000`. -/
theorem doubleStrike_near (i : Nat) (hi : i < 1000) :
    |(doubleStrike i).toRat - (3 / 1000 + (i : ℚ) / 1000)| ≤ 1 / 2 ^ 53 := by
  have h := Double.abs_sub_le_of_within _ _ _ _ (by norm_num) (doubleStrike_checked i hi).1
  have e : (((3 + i : Nat) : ℚ)) / ((1000 : Nat) : ℚ) = 3 / 1000 + (i : ℚ) / 1000 := by
    push_cast
    ring
  rw [e] at h
  exact h

/-- The grid the source computes increases with the index. -/
theorem doubleStrike_lt (i j : Nat) (hij : i < j) (hj : j ≤ 1000) :
    (doubleStrike i).toRat < (doubleStrike j).toRat := by
  induction j with
  | zero => omega
  | succ j ih =>
    have step := Double.toRat_lt_of_ltb _ _ (doubleStrike_checked j (by omega)).2
    rcases Nat.lt_succ_iff_lt_or_eq.mp hij with h | h
    · exact lt_trans (ih h (by omega)) step
    · rw [h]
      exact step

/-- Entry `i` of the vector is the value of the loop body at `i`. -/
theorem doubleStrikes_getElem (i : Nat) (hi : i < 1000) :
    doubleStrikes[i]? = some (doubleStrike i) := by
  simp [doubleStrikes, List.getElem?_map, List.getElem?_range hi]

set_option maxRecDepth 100000 in
/-- The first entry of the grid the source computes is the double `0.003` and
the last is the double `1.002`. -/
theorem doubleStrike_ends :
    doubleStrike 0 = Double.literal 3 1000 ∧ doubleStrike 999 = Double.literal 1002 1000 := by
  decide!

/-- The grid the source computes starts at the double `0.003` and ends at the
double `1.002`. -/
theorem doubleStrikes_head_getLast :
    doubleStrikes.head? = some (Double.literal 3 1000)
    ∧ doubleStrikes.getLast? = some (Double.literal 1002 1000) := by
  constructor
  · rw [← doubleStrike_ends.1]
    unfold doubleStrikes
    rw [List.range_succ_eq_map]
    simp
  · rw [← doubleStrike_ends.2]
    unfold doubleStrikes
    rw [List.range_succ]
    simp

set_option maxRecDepth 100000 in
/-- The entries 5, 6 and 7 of the grid the source computes, and the double
`0.009`. -/
theorem doubleStrike_values :
    doubleStrike 5 = { mant := 4611686018427388, shift := 59 }
    ∧ doubleStrike 6 = { mant := 5188146770730812, shift := 59 }
    ∧ doubleStrike 7 = { mant := 5764607523034235, shift := 59 }
    ∧ Double.literal 9 1000 = { mant := 5188146770730811, shift := 59 } := by
  decide!

set_option maxRecDepth 1000000 in
/-- The lower strikes the source computes in the lower-strike test lie within
`2^-56` of `(5 + k) / 1000` and between the doubles `0.003` and `1.002`. -/
theorem doubleEffectiveLowerStrike_checked (k : Nat) (h1 : 1 ≤ k) (h99 : k ≤ 99) :
    Double.within (doubleEffectiveLowerStrike k) (5 + k) 1000 56 = true
    ∧ Double.leb (Double.literal 3 1000) (doubleEffectiveLowerStrike k) = true
    ∧ Double.leb (doubleEffectiveLowerStrike k) (Double.literal 1002 1000) = true := by
  have h : (List.range' 1 99).all (fun k =>
      Double.within (doubleEffectiveLowerStrike k) (5 + k) 1000 56
        && (Double.leb (Double.literal 3 1000) (doubleEffectiveLowerStrike k)
        && Double.leb (doubleEffectiveLowerStrike k) (Double.literal 1002 1000))) = true := by
    decide!
  have := List.all_eq_true.mp h k (List.mem_range'_1.mpr ⟨h1, by omega⟩)
  simpa using this

set_option maxRecDepth 1000000 in
/-- The upper strikes the source computes in the upper-strike test lie within
`2^-56` of `(6 + k) / 1000` and between the doubles `0.003` and `1.002`. -/
theorem doubleEffectiveUpperStrike_checked (k : Nat) (h1 : 1 ≤ k) (h94 : k ≤ 94) :
    Double.within (doubleEffectiveUpperStrike k) (6 + k) 1000 56 = true
    ∧ Double.leb (Double.literal 3 1000) (doubleEffectiveUpperStrike k) = true
    ∧ Double.leb (doubleEffectiveUpperStrike k) (Double.literal 1002 1000) = true := by
  have h : (List.range' 1 94).all (fun k =>
      Double.within (doubleEffectiveUpperStrike k) (6 + k) 1000 56
        && (Double.leb (Double.literal 3 1000) (doubleEffectiveUpperStrike k)
        && Double.leb (doubleEffectiveUpperStrike k) (Double.literal 1002 1000))) = true := by
    decide!
  have := List.all_eq_true.mp h k (List.mem_range'_1.mpr ⟨h1, by omega⟩)
  simpa using this

/-- The lower strikes the source computes in the lower-strike test: each lies
within `2^-56` of its exact value and inside the grid the source computes. -/
theorem doubleEffectiveLowerStrike_inside (k : Nat) (h1 : 1 ≤ k) (h99 : k ≤ 99) :
    |(doubleEffectiveLowerStrike k).toRat - effectiveLowerStrike k| ≤ 1 / 2 ^ 56
    ∧ (Double.literal 3 1000).toRat ≤ (doubleEffectiveLowerStrike k).toRat
    ∧ (doubleEffectiveLowerStrike k).toRat ≤ (Double.literal 1002 1000).toRat := by
  obtain ⟨hw, hlo, hhi⟩ := doubleEffectiveLowerStrike_checked k h1 h99
  refine ⟨?_, Double.toRat_le_of_leb _ _ hlo, Double.toRat_le_of_leb _ _ hhi⟩
  have h := Double.abs_sub_le_of_within _ _ _ _ (by norm_num) hw
  have e : (((5 + k : Nat) : ℚ)) / ((1000 : Nat) : ℚ) = effectiveLowerStrike k := by
    unfold effectiveLowerStrike
    push_cast
    ring
  rw [e] at h
  exact h

/-- The upper strikes the source computes in the upper-strike test: each lies
within `2^-56` of its exact value and inside the grid the source computes. -/
theorem doubleEffectiveUpperStrike_inside (k : Nat) (h1 : 1 ≤ k) (h94 : k ≤ 94) :
    |(doubleEffectiveUpperStrike k).toRat - effectiveUpperStrike k| ≤ 1 / 2 ^ 56
    ∧ (Double.literal 3 1000).toRat ≤ (doubleEffectiveUpperStrike k).toRat
    ∧ (doubleEffectiveUpperStrike k).toRat ≤ (Double.literal 1002 1000).toRat := by
  obtain ⟨hw, hlo, hhi⟩ := doubleEffectiveUpperStrike_checked k h1 h94
  refine ⟨?_, Double.toRat_le_of_leb _ _ hlo, Double.toRat_le_of_leb _ _ hhi⟩
  have h := Double.abs_sub_le_of_within _ _ _ _ (by norm_num) hw
  have e : (((6 + k : Nat) : ℚ)) / ((1000 : Nat) : ℚ) = effectiveUpperStrike k := by
    unfold effectiveUpperStrike
    push_cast
    ring
  rw [e] at h
  exact h

set_option maxRecDepth 100000 in
/-- The fixed strikes of the monotonicity tests, the doubles `.004` and `1.0`,
lie between the doubles `0.003` and `1.002`; and the last lower strike the
source computes, `0.005 + 99*0.001`, is the double next above `0.104`. -/
theorem doubleFixedStrikes_inside :
    Double.leb (Double.literal 3 1000) (Double.literal 4 1000) = true
    ∧ Double.leb (Double.literal 4 1000) (Double.literal 1002 1000) = true
    ∧ Double.leb (Double.literal 3 1000) (Double.literal 1 1) = true
    ∧ Double.leb (Double.literal 1 1) (Double.literal 1002 1000) = true
    ∧ doubleEffectiveLowerStrike 99 = { mant := 7493989779944506, shift := 56 }
    ∧ Double.literal 104 1000 = { mant := 7493989779944505, shift := 56 } := by
  decide!

/-! ## Theorems -/

/-- C6: `price` is `rate` times notional, discount factor at the payment date
and accrual period length, whether `rate` returns a number or fails; for the
coupons of the tests (notional 1, paid on the fixture's payment date) it is
`rate` times discount factor times accrual period length. -/
theorem price_eq_rate_times_notional_discount_accrual (mk : Market) (rp : Replication)
    (p : RangeAccrualPricerByBgm) (c : RangeAccrualFloatersCoupon) :
    price mk rp p c
        = (rate mk rp p c).map
            (fun r => r * c.notional * mk.discountFactor c.paymentDate
              * accrualPeriodLength mk c)
    ∧ ∀ (schedule : List Nat) (lower upper : ℚ),
        price mk rp p (testCoupon schedule lower upper)
          = (rate mk rp p (testCoupon schedule lower upper)).map
              (fun r => r * mk.discountFactor CommonVars.endDate
                * mk.yearFraction CommonVars.startDate CommonVars.endDate) := by
  constructor
  · unfold price
    cases rate mk rp p c <;> rfl
  · intro schedule lower upper
    unfold price
    cases rate mk rp p (testCoupon schedule lower upper) with
    | error e => rfl
    | ok r =>
      simp [Except.map, bind, Except.bind, pure, Except.pure, testCoupon,
        accrualPeriodLength, CommonVars.paymentDate]

/-- C7: a coupon whose strikes satisfy `lowerStrike ≥ upperStrike` (the
zero-width corridor included) fails at construction with the invalid-corridor
error, and neither `rate` nor `price` returns a number for it, with any pricer
and any market. -/
theorem invalid_corridor_is_rejected (mk : Market) (rp : Replication)
    (p : RangeAccrualPricerByBgm) (c : RangeAccrualFloatersCoupon)
    (h : c.upperStrike ≤ c.lowerStrike) :
    c.create = .error .invalidCorridor
    ∧ rate mk rp p c = .error .invalidCorridor
    ∧ price mk rp p c = .error .invalidCorridor := by
  have hc : c.create = .error .invalidCorridor := by
    simp [RangeAccrualFloatersCoupon.create, checkCorridor, not_lt.mpr h, bind, Except.bind]
  have hr : rate mk rp p c = .error .invalidCorridor := by
    simp [rate, hc, bind, Except.bind]
  refine ⟨hc, hr, ?_⟩
  simp [price, hr, bind, Except.bind]

/-- C7, at the zero-width corridor `[1/100, 1/100]` of a test coupon. -/
theorem invalid_corridor_is_rejected_witness :
    (testCoupon [CommonVars.startDate, CommonVars.endDate] (1 / 100) (1 / 100)).upperStrike
      ≤ (testCoupon [CommonVars.startDate, CommonVars.endDate] (1 / 100) (1 / 100)).lowerStrike
    ∧ price sampleMarket intrinsicReplication (flatPricer true)
        (testCoupon [CommonVars.startDate, CommonVars.endDate] (1 / 100) (1 / 100))
      = .error .invalidCorridor :=
  ⟨le_refl _,
    (invalid_corridor_is_rejected sampleMarket intrinsicReplication (flatPricer true)
      (testCoupon [CommonVars.startDate, CommonVars.endDate] (1 / 100) (1 / 100))
      (le_refl _)).2.2⟩

/-- C8: a pricer whose correlation lies outside `[-1, 1]` fails at
configuration with the invalid-correlation error and neither `rate` nor `price`
returns a number with it; a pricer whose correlation lies in `[-1, 1]` passes
the correlation check, and is accepted when its smile sections are valid; the
fixture's correlation `1.0` passes. -/
theorem correlation_domain_is_checked (mk : Market) (p : RangeAccrualPricerByBgm) :
    ((p.correlation < -1 ∨ 1 < p.correlation) →
        p.create mk = .error .invalidCorrelation
        ∧ ∀ (rp : Replication) (c : RangeAccrualFloatersCoupon) (r : ℚ),
            rate mk rp p c ≠ .ok r ∧ price mk rp p c ≠ .ok r)
    ∧ ((-1 ≤ p.correlation ∧ p.correlation ≤ 1) →
        checkCorrelation p = .ok ()
        ∧ (mk.evaluationDate ≤ p.smileOnExpiry.exerciseDate →
            mk.evaluationDate ≤ p.smileOnPayment.exerciseDate → p.create mk = .ok p))
    ∧ ∀ (s1 s2 : SmileSection) (flag : Bool),
        checkCorrelation (testPricer s1 s2 flag) = .ok () := by
  refine ⟨?_, ?_, ?_⟩
  · intro h
    have hn : ¬ (-1 ≤ p.correlation ∧ p.correlation ≤ 1) := by
      rintro ⟨h1, h2⟩
      rcases h with h | h
      · exact absurd h1 (not_le.mpr h)
      · exact absurd h2 (not_le.mpr h)
    have hp : p.create mk = .error .invalidCorrelation := by
      simp [RangeAccrualPricerByBgm.create, checkCorrelation, hn, bind, Except.bind]
    refine ⟨hp, ?_⟩
    intro rp c r
    have hr : rate mk rp p c ≠ .ok r := by
      unfold rate
      cases hc : c.create with
      | error e => simp [bind, Except.bind]
      | ok c1 => simp [hp, bind, Except.bind]
    refine ⟨hr, ?_⟩
    unfold price
    cases hq : rate mk rp p c with
    | error e => simp [bind, Except.bind]
    | ok q =>
      have hq2 : rate mk rp p c ≠ .ok q := by
        unfold rate
        cases hc : c.create with
        | error e => simp [bind, Except.bind]
        | ok c1 => simp [hp, bind, Except.bind]
      exact absurd hq hq2
  · rintro ⟨h1, h2⟩
    refine ⟨by simp [checkCorrelation, h1, h2], ?_⟩
    intro hexp hpay
    exact create_pricer_ok mk p h1 h2 hexp hpay
  · intro s1 s2 flag
    simp [checkCorrelation, testPricer, CommonVars.correlation]

/-- C8, at a pricer with correlation `3/2` and at the fixture's flat pricer. -/
theorem correlation_domain_is_checked_witness :
    RangeAccrualPricerByBgm.create sampleMarket
        { flatPricer true with correlation := 3 / 2 } = .error .invalidCorrelation
    ∧ checkCorrelation (flatPricer true) = .ok () :=
  ⟨((correlation_domain_is_checked sampleMarket
      { flatPricer true with correlation := 3 / 2 }).1 (Or.inr (by norm_num))).1,
    (correlation_domain_is_checked sampleMarket (flatPricer true)).2.2 _ _ _⟩

/-- C4 fails as stated, and each condition of the amendment is needed.  All
four cases price the fixture's coupon over two observation dates on the sample
market (forward 3%, upper strike 1), change one input only, and end with the
condition that the change breaks.  With gearing
`-1`, so that every day in the corridor accrues a negative amount, and the
digital at zero volatility, raising the lower strike from 1% to 5% raises the
price from `-3/20000` to `0`.  With notional `-1` and the same digital it does
too.  With the call spread of a call with time value on the capped smile, whose
call price is not convex in the strike, raising the lower strike from 1% to
2.5% raises the price from `0` to `3/20000`.  With the digital with time value
on the skewed smile, which rises with the strike, raising the lower strike from
1% to 2.5% raises the price from `21/200000` to `3/25000`. -/
theorem price_not_antitone_in_lowerStrike :
    (price sampleMarket intrinsicReplication (flatPricer false)
        { testCoupon [42800, 42801] (1 / 100) 1 with gearing := -1 } = .ok (-3 / 20000)
      ∧ price sampleMarket intrinsicReplication (flatPricer false)
        { testCoupon [42800, 42801] (5 / 100) 1 with gearing := -1 } = .ok 0
      ∧ ((1 / 100 : ℚ) ≤ 5 / 100 ∧ (5 / 100 : ℚ) < 1)
      ∧ ¬ ((0 : ℚ) ≤ -3 / 20000)
      ∧ dayAccrual sampleMarket
          { testCoupon [42800, 42801] (1 / 100) 1 with gearing := -1 } 42800 < 0)
    ∧ (price sampleMarket intrinsicReplication (flatPricer false)
        { testCoupon [42800, 42801] (1 / 100) 1 with notional := -1 } = .ok (-3 / 20000)
      ∧ price sampleMarket intrinsicReplication (flatPricer false)
        { testCoupon [42800, 42801] (5 / 100) 1 with notional := -1 } = .ok 0
      ∧ ((1 / 100 : ℚ) ≤ 5 / 100 ∧ (5 / 100 : ℚ) < 1)
      ∧ ¬ ((0 : ℚ) ≤ -3 / 20000)
      ∧ ({ testCoupon [42800, 42801] (1 / 100) 1 with notional := -1 } :
            RangeAccrualFloatersCoupon).notional
          * sampleMarket.discountFactor
            ({ testCoupon [42800, 42801] (1 / 100) 1 with notional := -1 } :
              RangeAccrualFloatersCoupon).paymentDate < 0)
    ∧ (price sampleMarket timeValueReplication cappedSmilePricer
        (testCoupon [42800, 42801] (1 / 100) 1) = .ok 0
      ∧ price sampleMarket timeValueReplication cappedSmilePricer
        (testCoupon [42800, 42801] (25 / 1000) 1) = .ok (3 / 20000)
      ∧ ((1 / 100 : ℚ) ≤ 25 / 1000 ∧ (25 / 1000 : ℚ) < 1)
      ∧ ¬ ((3 / 20000 : ℚ) ≤ 0)
      ∧ ¬ ConvexOn ℚ Set.univ
          (callPrice sampleMarket timeValueReplication cappedSmilePricer 42800))
    ∧ (price sampleMarket timeValueReplication skewSmilePricer
        (testCoupon [42800, 42801] (1 / 100) 1) = .ok (21 / 200000)
      ∧ price sampleMarket timeValueReplication skewSmilePricer
        (testCoupon [42800, 42801] (25 / 1000) 1) = .ok (3 / 25000)
      ∧ ((1 / 100 : ℚ) ≤ 25 / 1000 ∧ (25 / 1000 : ℚ) < 1)
      ∧ ¬ ((3 / 25000 : ℚ) ≤ 21 / 200000)
      ∧ ¬ Antitone (fun strike : ℚ =>
          timeValueReplication.digital (sampleMarket.forwardFixing 42800) strike
            (skewSmilePricer.smileOnExpiry.volatility strike)
            (skewSmilePricer.smileOnPayment.volatility strike)
            skewSmilePricer.correlation)) := by
  refine ⟨⟨?_, ?_, by norm_num, by norm_num,
      by norm_num [dayAccrual, testCoupon, sampleMarket, CommonVars.spread]⟩,
    ⟨?_, ?_, by norm_num, by norm_num, by norm_num [sampleMarket, testCoupon]⟩,
    ⟨?_, ?_, by norm_num, by norm_num, callPrice_timeValue_not_convex 42800⟩,
    ⟨?_, ?_, by norm_num, by norm_num, digital_timeValue_not_antitone 42800⟩⟩
  · rw [price_sample _ _ _ (by norm_num [testCoupon])
      (by norm_num [flatPricer, testPricer, CommonVars.correlation])
      (by norm_num [flatPricer, testPricer, CommonVars.correlation])
      (by decide) (by decide) rfl rfl rfl]
    norm_num [inCorridorProbability, probAbove, testCoupon, flatPricer, testPricer,
      sampleMarket, intrinsicReplication, CommonVars.spread]
  · rw [price_sample _ _ _ (by norm_num [testCoupon])
      (by norm_num [flatPricer, testPricer, CommonVars.correlation])
      (by norm_num [flatPricer, testPricer, CommonVars.correlation])
      (by decide) (by decide) rfl rfl rfl]
    norm_num [inCorridorProbability, probAbove, testCoupon, flatPricer, testPricer,
      sampleMarket, intrinsicReplication, CommonVars.spread]
  · rw [price_sample _ _ _ (by norm_num [testCoupon])
      (by norm_num [flatPricer, testPricer, CommonVars.correlation])
      (by norm_num [flatPricer, testPricer, CommonVars.correlation])
      (by decide) (by decide) rfl rfl rfl]
    norm_num [inCorridorProbability, probAbove, testCoupon, flatPricer, testPricer,
      sampleMarket, intrinsicReplication, CommonVars.spread, CommonVars.gearing]
  · rw [price_sample _ _ _ (by norm_num [testCoupon])
      (by norm_num [flatPricer, testPricer, CommonVars.correlation])
      (by norm_num [flatPricer, testPricer, CommonVars.correlation])
      (by decide) (by decide) rfl rfl rfl]
    norm_num [inCorridorProbability, probAbove, testCoupon, flatPricer, testPricer,
      sampleMarket, intrinsicReplication, CommonVars.spread, CommonVars.gearing]
  · rw [price_sample _ _ _ (by norm_num [testCoupon])
      (by norm_num [cappedSmilePricer, testPricer, CommonVars.correlation])
      (by norm_num [cappedSmilePricer, testPricer, CommonVars.correlation])
      (by decide) (by decide) rfl rfl rfl]
    norm_num [inCorridorProbability, probAbove, callPrice, testCoupon, cappedSmilePricer,
      cappedSmileSection, testPricer, sampleMarket, timeValueReplication, CommonVars.spread,
      CommonVars.gearing]
  · rw [price_sample _ _ _ (by norm_num [testCoupon])
      (by norm_num [cappedSmilePricer, testPricer, CommonVars.correlation])
      (by norm_num [cappedSmilePricer, testPricer, CommonVars.correlation])
      (by decide) (by decide) rfl rfl rfl]
    norm_num [inCorridorProbability, probAbove, callPrice, testCoupon, cappedSmilePricer,
      cappedSmileSection, testPricer, sampleMarket, timeValueReplication, CommonVars.spread,
      CommonVars.gearing]
  · rw [price_sample _ _ _ (by norm_num [testCoupon])
      (by norm_num [skewSmilePricer, testPricer, CommonVars.correlation])
      (by norm_num [skewSmilePricer, testPricer, CommonVars.correlation])
      (by decide) (by decide) rfl rfl rfl]
    norm_num [inCorridorProbability, probAbove, testCoupon, skewSmilePricer,
      skewSmileSection, testPricer, sampleMarket, timeValueReplication, CommonVars.spread,
      CommonVars.gearing]
  · rw [price_sample _ _ _ (by norm_num [testCoupon])
      (by norm_num [skewSmilePricer, testPricer, CommonVars.correlation])
      (by norm_num [skewSmilePricer, testPricer, CommonVars.correlation])
      (by decide) (by decide) rfl rfl rfl]
    norm_num [inCorridorProbability, probAbove, testCoupon, skewSmilePricer,
      skewSmileSection, testPricer, sampleMarket, timeValueReplication, CommonVars.spread,
      CommonVars.gearing]

/-- C4, amended: for `lower1 ≤ lower2 < upperStrike` and a pricer that passes
its checks, if every observation day accrues a non-negative amount, the
notional times the discount factor is non-negative, and the option formulas
are free of arbitrage along the smile sections on every observation date (the
call price is convex in the strike when the call spread is used, the digital
formula does not increase with the strike when it is used), then both prices
are returned and the price at `lower2` is at most the price at `lower1`. -/
theorem price_antitone_in_lowerStrike (mk : Market) (rp : Replication)
    (p : RangeAccrualPricerByBgm) (c : RangeAccrualFloatersCoupon) (lower1 lower2 : ℚ)
    (hle : lower1 ≤ lower2) (hlt : lower2 < c.upperStrike)
    (hlo : -1 ≤ p.correlation) (hhi : p.correlation ≤ 1)
    (hexp : mk.evaluationDate ≤ p.smileOnExpiry.exerciseDate)
    (hpay : mk.evaluationDate ≤ p.smileOnPayment.exerciseDate)
    (hacc : ∀ d ∈ c.observationsSchedule, 0 ≤ dayAccrual mk c d)
    (hscale : 0 ≤ c.notional * mk.discountFactor c.paymentDate)
    (hcall : p.byCallSpread = true →
      ∀ d ∈ c.observationsSchedule, ConvexOn ℚ Set.univ (callPrice mk rp p d))
    (hdigital : p.byCallSpread = false →
      ∀ d ∈ c.observationsSchedule,
        Antitone (fun strike : ℚ =>
          rp.digital (mk.forwardFixing d) strike (p.smileOnExpiry.volatility strike)
            (p.smileOnPayment.volatility strike) p.correlation)) :
    ∃ v1 v2 : ℚ,
      price mk rp p { c with lowerStrike := lower1 } = .ok v1
      ∧ price mk rp p { c with lowerStrike := lower2 } = .ok v2
      ∧ v2 ≤ v1 := by
  have h1 : ({ c with lowerStrike := lower1 } : RangeAccrualFloatersCoupon).lowerStrike
      < ({ c with lowerStrike := lower1 } : RangeAccrualFloatersCoupon).upperStrike :=
    lt_of_le_of_lt hle hlt
  refine ⟨_, _, price_ok mk rp p _ h1 hlo hhi hexp hpay,
    price_ok mk rp p _ hlt hlo hhi hexp hpay, ?_⟩
  have hsum : accumulated mk rp p { c with lowerStrike := lower2 }
      ≤ accumulated mk rp p { c with lowerStrike := lower1 } := by
    refine accumulated_le_accumulated mk rp p { c with lowerStrike := lower1 }
      { c with lowerStrike := lower2 } rfl (fun _ => rfl) hacc ?_
    intro d hmem
    simp only [inCorridorProbability]
    exact sub_le_sub_right
      (probAbove_antitone mk rp p d (fun h => hcall h d hmem) (fun h => hdigital h d hmem)
        lower1 lower2 hle) _
  have key := scaled_le_scaled _ _ (accrualPeriodLength mk c)
    (c.notional * mk.discountFactor c.paymentDate) hsum hscale
  simp only [accrualPeriodLength] at key ⊢
  calc _ = accumulated mk rp p { c with lowerStrike := lower2 }
            / mk.yearFraction c.startDate c.endDate
            * (c.notional * mk.discountFactor c.paymentDate)
            * mk.yearFraction c.startDate c.endDate := by ring
    _ ≤ _ := key
    _ = _ := by ring

/-- C4 amended, at the fixture's coupon with call-spread replication at zero
volatility on the flat smile pair, upper strike 1: the price falls from
`3/20000` at the lower strike 1% to `0` at the lower strike 5%. -/
theorem price_antitone_in_lowerStrike_witness :
    ((1 / 100 : ℚ) ≤ 5 / 100 ∧ (5 / 100 : ℚ) < 1)
    ∧ price sampleMarket intrinsicReplication (flatPricer true)
        (testCoupon [42800, 42801] (1 / 100) 1) = .ok (3 / 20000)
    ∧ price sampleMarket intrinsicReplication (flatPricer true)
        (testCoupon [42800, 42801] (5 / 100) 1) = .ok 0
    ∧ ∃ v1 v2 : ℚ,
        price sampleMarket intrinsicReplication (flatPricer true)
          (testCoupon [42800, 42801] (1 / 100) 1) = .ok v1
        ∧ price sampleMarket intrinsicReplication (flatPricer true)
          (testCoupon [42800, 42801] (5 / 100) 1) = .ok v2
        ∧ v2 ≤ v1 :=
  ⟨by norm_num,
    by
      rw [price_sample _ _ _ (by norm_num [testCoupon])
        (by norm_num [flatPricer, testPricer, CommonVars.correlation])
        (by norm_num [flatPricer, testPricer, CommonVars.correlation])
        (by decide) (by decide) rfl rfl rfl]
      simp only [inCorridorProbability, testCoupon,
        probAbove_intrinsic_callSpread_one sampleMarket (flatPricer true) _ (1 / 100) rfl
          (by norm_num [sampleMarket]),
        probAbove_intrinsic_callSpread_zero sampleMarket (flatPricer true) _ 1 rfl
          (by norm_num [sampleMarket])]
      norm_num [CommonVars.gearing, CommonVars.spread],
    by
      rw [price_sample _ _ _ (by norm_num [testCoupon])
        (by norm_num [flatPricer, testPricer, CommonVars.correlation])
        (by norm_num [flatPricer, testPricer, CommonVars.correlation])
        (by decide) (by decide) rfl rfl rfl]
      simp only [inCorridorProbability, testCoupon,
        probAbove_intrinsic_callSpread_zero sampleMarket (flatPricer true) _ (5 / 100) rfl
          (by norm_num [sampleMarket]),
        probAbove_intrinsic_callSpread_zero sampleMarket (flatPricer true) _ 1 rfl
          (by norm_num [sampleMarket])]
      norm_num,
    price_antitone_in_lowerStrike sampleMarket intrinsicReplication (flatPricer true)
      (testCoupon [42800, 42801] (1 / 100) 1) (1 / 100) (5 / 100)
      (by norm_num) (by norm_num [testCoupon])
      (by norm_num [flatPricer, testPricer, CommonVars.correlation])
      (by norm_num [flatPricer, testPricer, CommonVars.correlation])
      (by decide) (by decide)
      (by
        intro d _
        norm_num [dayAccrual, testCoupon, sampleMarket, CommonVars.gearing, CommonVars.spread])
      (by norm_num [testCoupon, sampleMarket])
      (fun _ d _ => callPrice_intrinsic_convex sampleMarket (flatPricer true) d)
      (fun _ d _ => digital_intrinsic_antitone sampleMarket (flatPricer true) d)⟩

/-- C5 fails as stated, and each condition of the amendment is needed.  All
four cases price the fixture's coupon over two observation dates on the sample
market (forward 3%), change one input only, and end with the condition that
the change breaks.  With spread `-1/10`, so that
every day in the corridor accrues a negative amount, and the call spread at
zero volatility, raising the upper strike from 2% to 5% (lower strike 1%)
lowers the price from `0` to `-7/20000`.  With notional `-1` and the digital at
zero volatility it lowers the price from `0` to `-3/20000`.  With the call
spread of a call with time value on the capped smile, whose call price is not
convex in the strike, raising the upper strike from 1% to 2.5% (lower strike
0.5%) lowers the price from `0` to `-3/20000`.  With the digital with time
value on the skewed smile, which rises with the strike, raising the upper
strike from 1% to 2.5% (lower strike 0.5%) lowers the price from `-3/400000`
to `-9/400000`. -/
theorem price_not_monotone_in_upperStrike :
    (price sampleMarket intrinsicReplication (flatPricer true)
        { testCoupon [42800, 42801] (1 / 100) (2 / 100) with spread := -1 / 10 } = .ok 0
      ∧ price sampleMarket intrinsicReplication (flatPricer true)
        { testCoupon [42800, 42801] (1 / 100) (5 / 100) with spread := -1 / 10 }
        = .ok (-7 / 20000)
      ∧ ((1 / 100 : ℚ) < 2 / 100 ∧ (2 / 100 : ℚ) ≤ 5 / 100)
      ∧ ¬ ((0 : ℚ) ≤ -7 / 20000)
      ∧ dayAccrual sampleMarket
          { testCoupon [42800, 42801] (1 / 100) (2 / 100) with spread := -1 / 10 } 42800 < 0)
    ∧ (price sampleMarket intrinsicReplication (flatPricer false)
        { testCoupon [42800, 42801] (1 / 100) (2 / 100) with notional := -1 } = .ok 0
      ∧ price sampleMarket intrinsicReplication (flatPricer false)
        { testCoupon [42800, 42801] (1 / 100) (5 / 100) with notional := -1 }
        = .ok (-3 / 20000)
      ∧ ((1 / 100 : ℚ) < 2 / 100 ∧ (2 / 100 : ℚ) ≤ 5 / 100)
      ∧ ¬ ((0 : ℚ) ≤ -3 / 20000)
      ∧ ({ testCoupon [42800, 42801] (1 / 100) (2 / 100) with notional := -1 } :
            RangeAccrualFloatersCoupon).notional
          * sampleMarket.discountFactor
            ({ testCoupon [42800, 42801] (1 / 100) (2 / 100) with notional := -1 } :
              RangeAccrualFloatersCoupon).paymentDate < 0)
    ∧ (price sampleMarket timeValueReplication cappedSmilePricer
        (testCoupon [42800, 42801] (5 / 1000) (1 / 100)) = .ok 0
      ∧ price sampleMarket timeValueReplication cappedSmilePricer
        (testCoupon [42800, 42801] (5 / 1000) (25 / 1000)) = .ok (-3 / 20000)
      ∧ ((5 / 1000 : ℚ) < 1 / 100 ∧ (1 / 100 : ℚ) ≤ 25 / 1000)
      ∧ ¬ ((0 : ℚ) ≤ -3 / 20000)
      ∧ ¬ ConvexOn ℚ Set.univ
          (callPrice sampleMarket timeValueReplication cappedSmilePricer 42800))
    ∧ (price sampleMarket timeValueReplication skewSmilePricer
        (testCoupon [42800, 42801] (5 / 1000) (1 / 100)) = .ok (-3 / 400000)
      ∧ price sampleMarket timeValueReplication skewSmilePricer
        (testCoupon [42800, 42801] (5 / 1000) (25 / 1000)) = .ok (-9 / 400000)
      ∧ ((5 / 1000 : ℚ) < 1 / 100 ∧ (1 / 100 : ℚ) ≤ 25 / 1000)
      ∧ ¬ ((-3 / 400000 : ℚ) ≤ -9 / 400000)
      ∧ ¬ Antitone (fun strike : ℚ =>
          timeValueReplication.digital (sampleMarket.forwardFixing 42800) strike
            (skewSmilePricer.smileOnExpiry.volatility strike)
            (skewSmilePricer.smileOnPayment.volatility strike)
            skewSmilePricer.correlation)) := by
  have e1 : ∀ d, probAbove sampleMarket intrinsicReplication (flatPricer true) d (1 / 100) = 1 :=
    fun d => probAbove_intrinsic_callSpread_one _ _ _ _ rfl (by norm_num [sampleMarket])
  have e2 : ∀ d, probAbove sampleMarket intrinsicReplication (flatPricer true) d (2 / 100) = 1 :=
    fun d => probAbove_intrinsic_callSpread_one _ _ _ _ rfl (by norm_num [sampleMarket])
  have e5 : ∀ d, probAbove sampleMarket intrinsicReplication (flatPricer true) d (5 / 100) = 0 :=
    fun d => probAbove_intrinsic_callSpread_zero _ _ _ _ rfl (by norm_num [sampleMarket])
  refine ⟨⟨?_, ?_, by norm_num, by norm_num,
      by norm_num [dayAccrual, testCoupon, sampleMarket, CommonVars.gearing]⟩,
    ⟨?_, ?_, by norm_num, by norm_num, by norm_num [sampleMarket, testCoupon]⟩,
    ⟨?_, ?_, by norm_num, by norm_num, callPrice_timeValue_not_convex 42800⟩,
    ⟨?_, ?_, by norm_num, by norm_num, digital_timeValue_not_antitone 42800⟩⟩
  · rw [price_sample _ _ _ (by norm_num [testCoupon])
      (by norm_num [flatPricer, testPricer, CommonVars.correlation])
      (by norm_num [flatPricer, testPricer, CommonVars.correlation])
      (by decide) (by decide) rfl rfl rfl]
    simp only [inCorridorProbability, testCoupon, e1, e2]
    norm_num
  · rw [price_sample _ _ _ (by norm_num [testCoupon])
      (by norm_num [flatPricer, testPricer, CommonVars.correlation])
      (by norm_num [flatPricer, testPricer, CommonVars.correlation])
      (by decide) (by decide) rfl rfl rfl]
    simp only [inCorridorProbability, testCoupon, e1, e5]
    norm_num [CommonVars.gearing]
  · rw [price_sample _ _ _ (by norm_num [testCoupon])
      (by norm_num [flatPricer, testPricer, CommonVars.correlation])
      (by norm_num [flatPricer, testPricer, CommonVars.correlation])
      (by decide) (by decide) rfl rfl rfl]
    norm_num [inCorridorProbability, probAbove, testCoupon, flatPricer, testPricer,
      sampleMarket, intrinsicReplication, CommonVars.spread, CommonVars.gearing]
  · rw [price_sample _ _ _ (by norm_num [testCoupon])
      (by norm_num [flatPricer, testPricer, CommonVars.correlation])
      (by norm_num [flatPricer, testPricer, CommonVars.correlation])
      (by decide) (by decide) rfl rfl rfl]
    norm_num [inCorridorProbability, probAbove, testCoupon, flatPricer, testPricer,
      sampleMarket, intrinsicReplication, CommonVars.spread, CommonVars.gearing]
  · rw [price_sample _ _ _ (by norm_num [testCoupon])
      (by norm_num [cappedSmilePricer, testPricer, CommonVars.correlation])
      (by norm_num [cappedSmilePricer, testPricer, CommonVars.correlation])
      (by decide) (by decide) rfl rfl rfl]
    norm_num [inCorridorProbability, probAbove, callPrice, testCoupon, cappedSmilePricer,
      cappedSmileSection, testPricer, sampleMarket, timeValueReplication, CommonVars.spread,
      CommonVars.gearing]
  · rw [price_sample _ _ _ (by norm_num [testCoupon])
      (by norm_num [cappedSmilePricer, testPricer, CommonVars.correlation])
      (by norm_num [cappedSmilePricer, testPricer, CommonVars.correlation])
      (by decide) (by decide) rfl rfl rfl]
    norm_num [inCorridorProbability, probAbove, callPrice, testCoupon, cappedSmilePricer,
      cappedSmileSection, testPricer, sampleMarket, timeValueReplication, CommonVars.spread,
      CommonVars.gearing]
  · rw [price_sample _ _ _ (by norm_num [testCoupon])
      (by norm_num [skewSmilePricer, testPricer, CommonVars.correlation])
      (by norm_num [skewSmilePricer, testPricer, CommonVars.correlation])
      (by decide) (by decide) rfl rfl rfl]
    norm_num [inCorridorProbability, probAbove, testCoupon, skewSmilePricer,
      skewSmileSection, testPricer, sampleMarket, timeValueReplication, CommonVars.spread,
      CommonVars.gearing]
  · rw [price_sample _ _ _ (by norm_num [testCoupon])
      (by norm_num [skewSmilePricer, testPricer, CommonVars.correlation])
      (by norm_num [skewSmilePricer, testPricer, CommonVars.correlation])
      (by decide) (by decide) rfl rfl rfl]
    norm_num [inCorridorProbability, probAbove, testCoupon, skewSmilePricer,
      skewSmileSection, testPricer, sampleMarket, timeValueReplication, CommonVars.spread,
      CommonVars.gearing]

/-- C5, amended: for `lowerStrike < upper1 ≤ upper2` and a pricer that passes
its checks, if every observation day accrues a non-negative amount, the
notional times the discount factor is non-negative, and the option formulas
are free of arbitrage along the smile sections on every observation date (the
call price is convex in the strike when the call spread is used, the digital
formula does not increase with the strike when it is used), then both prices
are returned and the price at `upper1` is at most the price at `upper2`. -/
theorem price_monotone_in_upperStrike (mk : Market) (rp : Replication)
    (p : RangeAccrualPricerByBgm) (c : RangeAccrualFloatersCoupon) (upper1 upper2 : ℚ)
    (hlt : c.lowerStrike < upper1) (hle : upper1 ≤ upper2)
    (hlo : -1 ≤ p.correlation) (hhi : p.correlation ≤ 1)
    (hexp : mk.evaluationDate ≤ p.smileOnExpiry.exerciseDate)
    (hpay : mk.evaluationDate ≤ p.smileOnPayment.exerciseDate)
    (hacc : ∀ d ∈ c.observationsSchedule, 0 ≤ dayAccrual mk c d)
    (hscale : 0 ≤ c.notional * mk.discountFactor c.paymentDate)
    (hcall : p.byCallSpread = true →
      ∀ d ∈ c.observationsSchedule, ConvexOn ℚ Set.univ (callPrice mk rp p d))
    (hdigital : p.byCallSpread = false →
      ∀ d ∈ c.observationsSchedule,
        Antitone (fun strike : ℚ =>
          rp.digital (mk.forwardFixing d) strike (p.smileOnExpiry.volatility strike)
            (p.smileOnPayment.volatility strike) p.correlation)) :
    ∃ v1 v2 : ℚ,
      price mk rp p { c with upperStrike := upper1 } = .ok v1
      ∧ price mk rp p { c with upperStrike := upper2 } = .ok v2
      ∧ v1 ≤ v2 := by
  have h2 : ({ c with upperStrike := upper2 } : RangeAccrualFloatersCoupon).lowerStrike
      < ({ c with upperStrike := upper2 } : RangeAccrualFloatersCoupon).upperStrike :=
    lt_of_lt_of_le hlt hle
  refine ⟨_, _, price_ok mk rp p _ hlt hlo hhi hexp hpay,
    price_ok mk rp p _ h2 hlo hhi hexp hpay, ?_⟩
  have hsum : accumulated mk rp p { c with upperStrike := upper1 }
      ≤ accumulated mk rp p { c with upperStrike := upper2 } := by
    refine accumulated_le_accumulated mk rp p { c with upperStrike := upper2 }
      { c with upperStrike := upper1 } rfl (fun _ => rfl) hacc ?_
    intro d hmem
    simp only [inCorridorProbability]
    exact sub_le_sub_left
      (probAbove_antitone mk rp p d (fun h => hcall h d hmem) (fun h => hdigital h d hmem)
        upper1 upper2 hle) _
  have key := scaled_le_scaled _ _ (accrualPeriodLength mk c)
    (c.notional * mk.discountFactor c.paymentDate) hsum hscale
  simp only [accrualPeriodLength] at key ⊢
  calc _ = accumulated mk rp p { c with upperStrike := upper1 }
            / mk.yearFraction c.startDate c.endDate
            * (c.notional * mk.discountFactor c.paymentDate)
            * mk.yearFraction c.startDate c.endDate := by ring
    _ ≤ _ := key
    _ = _ := by ring

/-- C5 amended, at the fixture's coupon with the digital formula at zero
volatility on the flat smile pair, lower strike 1%: the price rises from `0`
at the upper strike 2% to `3/20000` at the upper strike 5%. -/
theorem price_monotone_in_upperStrike_witness :
    ((1 / 100 : ℚ) < 2 / 100 ∧ (2 / 100 : ℚ) ≤ 5 / 100)
    ∧ price sampleMarket intrinsicReplication (flatPricer false)
        (testCoupon [42800, 42801] (1 / 100) (2 / 100)) = .ok 0
    ∧ price sampleMarket intrinsicReplication (flatPricer false)
        (testCoupon [42800, 42801] (1 / 100) (5 / 100)) = .ok (3 / 20000)
    ∧ ∃ v1 v2 : ℚ,
        price sampleMarket intrinsicReplication (flatPricer false)
          (testCoupon [42800, 42801] (1 / 100) (2 / 100)) = .ok v1
        ∧ price sampleMarket intrinsicReplication (flatPricer false)
          (testCoupon [42800, 42801] (1 / 100) (5 / 100)) = .ok v2
        ∧ v1 ≤ v2 :=
  ⟨by norm_num,
    by
      rw [price_sample _ _ _ (by norm_num [testCoupon])
        (by norm_num [flatPricer, testPricer, CommonVars.correlation])
        (by norm_num [flatPricer, testPricer, CommonVars.correlation])
        (by decide) (by decide) rfl rfl rfl]
      norm_num [inCorridorProbability, probAbove, testCoupon, flatPricer, testPricer,
        sampleMarket, intrinsicReplication, CommonVars.spread, CommonVars.gearing],
    by
      rw [price_sample _ _ _ (by norm_num [testCoupon])
        (by norm_num [flatPricer, testPricer, CommonVars.correlation])
        (by norm_num [flatPricer, testPricer, CommonVars.correlation])
        (by decide) (by decide) rfl rfl rfl]
      norm_num [inCorridorProbability, probAbove, testCoupon, flatPricer, testPricer,
        sampleMarket, intrinsicReplication, CommonVars.spread, CommonVars.gearing],
    price_monotone_in_upperStrike sampleMarket intrinsicReplication (flatPricer false)
      (testCoupon [42800, 42801] (1 / 100) (2 / 100)) (2 / 100) (5 / 100)
      (by norm_num [testCoupon]) (by norm_num)
      (by norm_num [flatPricer, testPricer, CommonVars.correlation])
      (by norm_num [flatPricer, testPricer, CommonVars.correlation])
      (by decide) (by decide)
      (by
        intro d _
        norm_num [dayAccrual, testCoupon, sampleMarket, CommonVars.gearing, CommonVars.spread])
      (by norm_num [testCoupon, sampleMarket])
      (fun _ d _ => callPrice_intrinsic_convex sampleMarket (flatPricer false) d)
      (fun _ d _ => digital_intrinsic_antitone sampleMarket (flatPricer false) d)⟩

/-- C10: on a calendar in which the fixture's start date (42800) and end date
(42984) are business days and whose month index does not decrease with the
date, the fixture's observation schedule is strictly increasing, its first date
is the accrual start date of the coupon and its last date is the accrual end
date of the coupon. -/
theorem observationSchedule_increasing_with_coupon_endpoints (cal : Calendar)
    (hs : cal.isBusinessDay 42800 = true) (he : cal.isBusinessDay 42984 = true)
    (hm : ∀ a b, a ≤ b → cal.monthIndex a ≤ cal.monthIndex b) (lower upper : ℚ) :
    (observationSchedule cal).Pairwise (fun a b => a < b)
    ∧ (observationSchedule cal).head?
        = some (testCoupon (observationSchedule cal) lower upper).startDate
    ∧ (observationSchedule cal).getLast?
        = some (testCoupon (observationSchedule cal) lower upper).endDate :=
  schedule_spec cal CommonVars.startDate CommonVars.endDate (by decide) hs he hm

/-- C10, on the calendar of the coupon period: the observation schedule of the
fixture is strictly increasing, from 42800 to 42984. -/
theorem observationSchedule_increasing_with_coupon_endpoints_witness :
    (observationSchedule couponPeriodCalendar).Pairwise (fun a b => a < b)
    ∧ (observationSchedule couponPeriodCalendar).head? = some 42800
    ∧ (observationSchedule couponPeriodCalendar).getLast? = some 42984 :=
  observationSchedule_increasing_with_coupon_endpoints couponPeriodCalendar
    (by decide) (by decide)
    (by
      intro a b hab
      show List.countP _ _ ≤ List.countP _ _
      apply List.countP_mono_left
      intro m _ hma
      exact decide_eq_true (le_trans (of_decide_eq_true hma) hab))
    (1 / 100) 1

/-- C12: every coupon the three tests build has a valid corridor:
`1e-9 < 1.0`, `0.005 + k*0.001 < 1.0` for `k` from 1 to 99, and
`0.004 < 0.006 + k*0.001` for `k` from 1 to 94; hence every pass of every test
prices a coupon with `lowerStrike < upperStrike`, which passes the corridor
check. -/
theorem test_corridors_are_valid :
    CommonVars.infiniteLowerStrike < CommonVars.infiniteUpperStrike
    ∧ (∀ k, 1 ≤ k → k ≤ 99 → effectiveLowerStrike k < CommonVars.infiniteUpperStrike)
    ∧ (∀ k, 1 ≤ k → k ≤ 94 → (4 / 1000 : ℚ) < effectiveUpperStrike k)
    ∧ ∀ (vars : TestParameters) (lib : Library) (e : Evaluation),
        (e ∈ testInfiniteRange vars lib
          ∨ e ∈ testPriceMonotonicityWithRespectToLowerStrike vars lib
          ∨ e ∈ testPriceMonotonicityWithRespectToUpperStrike vars lib) →
        e.lowerStrike < e.upperStrike
        ∧ checkCorridor (testCoupon lib.observationSchedule e.lowerStrike e.upperStrike)
            = .ok () := by
  have h0 : CommonVars.infiniteLowerStrike < CommonVars.infiniteUpperStrike := by
    norm_num [CommonVars.infiniteLowerStrike, CommonVars.infiniteUpperStrike]
  refine ⟨h0, fun k _ hk => effectiveLowerStrike_lt k hk, fun k _ _ => lt_effectiveUpperStrike k,
    ?_⟩
  intro vars lib e he
  have hlt : e.lowerStrike < e.upperStrike := by
    rcases he with he | he | he
    · obtain ⟨h1, h2⟩ := testInfiniteRange_mem vars lib e he
      rw [h1, h2]
      exact h0
    · obtain ⟨⟨k, _, hk, h1, h2⟩, -⟩ := lowerStrikeTest_mem vars lib e he
      rw [h1, h2]
      exact effectiveLowerStrike_lt k hk
    · obtain ⟨⟨k, _, _, h1, h2⟩, -⟩ := upperStrikeTest_mem vars lib e he
      rw [h1, h2]
      exact lt_effectiveUpperStrike k
  refine ⟨hlt, ?_⟩
  simp [checkCorridor, testCoupon, hlt]

/-- C18: in the loop of the lower-strike test for one combination, started
with `previousPrice = 100`, pass `k` (for `k` from 1 to 99) computes the price
`p k`, compares it with 100 when `k = 1` and with `p (k-1)` otherwise, whether
or not an earlier pass reported an error, and reports an error exactly when
that previous value is `≤ p k`; hence no pass reports an error iff
`100 > p 1 > p 2 > … > p 99`. -/
theorem lowerStrikeTest_verdict (lib : Library) (z i pricer : Nat) (args : BgmPricerArgs)
    (nextObject : Nat) :
    (∀ k, 1 ≤ k → k ≤ 99 →
      ∃ e, (lowerStrikeLoop lib z i pricer args (List.range' 1 99) nextObject 100)[k - 1]?
          = some e
        ∧ e.k = k
        ∧ e.value = lowerStrikePrice lib args k
        ∧ e.comparedWith = (if k = 1 then 100 else lowerStrikePrice lib args (k - 1))
        ∧ (e.error = true ↔ e.comparedWith ≤ lowerStrikePrice lib args k))
    ∧ ((∀ e ∈ lowerStrikeLoop lib z i pricer args (List.range' 1 99) nextObject 100,
          e.error = false)
        ↔ (lowerStrikePrice lib args 1 < 100
          ∧ ∀ k, 2 ≤ k → k ≤ 99 →
              lowerStrikePrice lib args k < lowerStrikePrice lib args (k - 1))) := by
  rw [lowerStrikeLoop_range]
  constructor
  · intro k h1 h99
    have hlt : k - 1 < 99 := by omega
    have hk : 1 + (k - 1) = k := by omega
    refine ⟨_, by rw [List.getElem?_map, List.getElem?_range hlt]; rfl, ?_, ?_, ?_, ?_⟩
    · exact hk
    · simp only [hk]
    · by_cases h : k = 1
      · subst h
        simp
      · have h0 : k - 1 ≠ 0 := by omega
        simp only [h, h0, if_false, hk]
    · simp only [hk, decide_eq_true_eq]
  · simp only [List.mem_map, List.mem_range, forall_exists_index, and_imp]
    constructor
    · intro h
      constructor
      · have := h _ 0 (by omega) rfl
        simpa using this
      · intro k h2 h99
        have := h _ (k - 1) (by omega) rfl
        have h0 : k - 1 ≠ 0 := by omega
        have hk : 1 + (k - 1) = k := by omega
        simpa [h0, hk] using this
    · rintro ⟨hfirst, hrest⟩ e j hj rfl
      by_cases h0 : j = 0
      · subst h0
        simpa using hfirst
      · have := hrest (1 + j) (by omega) (by omega)
        have hk : 1 + j - 1 = j := by omega
        simp only [h0, if_false, decide_eq_false_iff_not, not_le]
        rw [hk] at this
        rw [Nat.add_sub_cancel_left]
        exact this

/-- C19: in the loop of the upper-strike test for one combination, started
with `previousPrice = 0`, pass `k` (for `k` from 1 to 94) computes the price
`p k`, compares it with 0 when `k = 1` and with `p (k-1)` otherwise, and
reports an error exactly when that previous value is `> p k`; hence no pass
reports an error iff `0 ≤ p 1 ≤ p 2 ≤ … ≤ p 94`, the first price being
required to be non-negative. -/
theorem upperStrikeTest_verdict (lib : Library) (z i pricer : Nat) (args : BgmPricerArgs)
    (nextObject : Nat) :
    (∀ k, 1 ≤ k → k ≤ 94 →
      ∃ e, (upperStrikeLoop lib z i pricer args (List.range' 1 94) nextObject 0)[k - 1]?
          = some e
        ∧ e.k = k
        ∧ e.value = upperStrikePrice lib args k
        ∧ e.comparedWith = (if k = 1 then 0 else upperStrikePrice lib args (k - 1))
        ∧ (e.error = true ↔ e.comparedWith > upperStrikePrice lib args k))
    ∧ ((∀ e ∈ upperStrikeLoop lib z i pricer args (List.range' 1 94) nextObject 0,
          e.error = false)
        ↔ (0 ≤ upperStrikePrice lib args 1
          ∧ ∀ k, 2 ≤ k → k ≤ 94 →
              upperStrikePrice lib args (k - 1) ≤ upperStrikePrice lib args k)) := by
  rw [upperStrikeLoop_range]
  constructor
  · intro k h1 h94
    have hlt : k - 1 < 94 := by omega
    have hk : 1 + (k - 1) = k := by omega
    refine ⟨_, by rw [List.getElem?_map, List.getElem?_range hlt]; rfl, ?_, ?_, ?_, ?_⟩
    · exact hk
    · simp only [hk]
    · by_cases h : k = 1
      · subst h
        simp
      · have h0 : k - 1 ≠ 0 := by omega
        simp only [h, h0, if_false, hk]
    · simp only [hk, decide_eq_true_eq]
  · simp only [List.mem_map, List.mem_range, forall_exists_index, and_imp]
    constructor
    · intro h
      constructor
      · have := h _ 0 (by omega) rfl
        simpa using this
      · intro k h2 h94
        have := h _ (k - 1) (by omega) rfl
        have h0 : k - 1 ≠ 0 := by omega
        have hk : 1 + (k - 1) = k := by omega
        simpa [h0, hk] using this
    · rintro ⟨hfirst, hrest⟩ e j hj rfl
      by_cases h0 : j = 0
      · subst h0
        simpa using hfirst
      · have := hrest (1 + j) (by omega) (by omega)
        have hk : 1 + j - 1 = j := by omega
        simp only [h0, if_false, decide_eq_false_iff_not, not_lt, gt_iff_lt]
        rw [hk] at this
        rw [Nat.add_sub_cancel_left]
        exact this

/-- C13 fails as stated: the lower-strike test never reads `priceTolerance`.
With the tolerance raised from `2e-4` to 1 the verdicts on the sample library,
whose consecutive prices differ by `0.001`, are the same, and no two values of
the test parameters give different results on any library. -/
theorem lowerStrikeTest_verdict_independent_of_priceTolerance :
    (testPriceMonotonicityWithRespectToLowerStrike
        { rateTolerance := 2 / 100000000, priceTolerance := 1 } sampleLibrary).map
        (fun e => e.error)
      = (testPriceMonotonicityWithRespectToLowerStrike CommonVars.testParameters
          sampleLibrary).map (fun e => e.error)
    ∧ ¬ ∃ (v1 v2 : TestParameters) (lib : Library),
        testPriceMonotonicityWithRespectToLowerStrike v1 lib
          ≠ testPriceMonotonicityWithRespectToLowerStrike v2 lib := by
  refine ⟨rfl, ?_⟩
  rintro ⟨v1, v2, lib, h⟩
  exact h rfl

/-- C13, amended: the lower-strike test compares consecutive prices exactly:
every pass reports an error exactly when the previous value is `≤` the price,
and the result of the test is the same for every value of `priceTolerance` (and
of `rateTolerance`). -/
theorem lowerStrikeTest_compares_exactly (vars vars2 : TestParameters) (lib : Library) :
    testPriceMonotonicityWithRespectToLowerStrike vars lib
      = testPriceMonotonicityWithRespectToLowerStrike vars2 lib
    ∧ ∀ e ∈ testPriceMonotonicityWithRespectToLowerStrike vars lib,
        (e.error = true ↔ e.comparedWith ≤ e.value) :=
  ⟨rfl, fun e he => (lowerStrikeTest_mem vars lib e he).2⟩

/-- C14: the outer loops of each test visit exactly the four pairs
`(0,0), (0,1), (1,0), (1,1)`; `testInfiniteRange` makes one pass for each and
the two monotonicity tests one pass for each pair and each `k`; in each pair the
pricer takes the smile on expiry and the smile on payment of the same kind
(flat for `z = 0`, interpolated for `z = 1`), anchored at `startDate` and at
`endDate`, with `byCallSpread` true for `i = 0` and false for `i = 1`; and
every pass of every test obtains its value (the rate in `testInfiniteRange`,
the price in the monotonicity tests) from the coupon on the corridor of the
pass with the pricer of exactly these arguments for its own pair `(z, i)`. -/
theorem tests_visit_four_combinations (vars : TestParameters) (lib : Library) :
    testCombinations = [(0, 0), (0, 1), (1, 0), (1, 1)]
    ∧ (testInfiniteRange vars lib).map (fun e => (e.z, e.i)) = testCombinations
    ∧ (testPriceMonotonicityWithRespectToLowerStrike vars lib).map (fun e => (e.z, e.i, e.k))
        = testCombinations.flatMap
            (fun zi => (List.range' 1 99).map (fun k => (zi.1, zi.2, k)))
    ∧ (testPriceMonotonicityWithRespectToUpperStrike vars lib).map (fun e => (e.z, e.i, e.k))
        = testCombinations.flatMap
            (fun zi => (List.range' 1 94).map (fun k => (zi.1, zi.2, k)))
    ∧ (∀ z i, (z, i) ∈ testCombinations →
        ∃ a, bgmPricerArgs z i = some a
          ∧ a.smileOnExpiry.kind = (if z = 0 then SmileKind.flat else SmileKind.interpolated)
          ∧ a.smileOnPayment.kind = a.smileOnExpiry.kind
          ∧ a.smileOnExpiry.exerciseDate = CommonVars.startDate
          ∧ a.smileOnPayment.exerciseDate = CommonVars.endDate
          ∧ a.byCallSpread = decide (i = 0))
    ∧ (∀ e ∈ testInfiniteRange vars lib,
        ∃ a, bgmPricerArgs e.z e.i = some a
          ∧ e.value = lib.couponRate a
              (testCoupon lib.observationSchedule e.lowerStrike e.upperStrike)
          ∧ a.smileOnExpiry.kind = (if e.z = 0 then SmileKind.flat else SmileKind.interpolated)
          ∧ a.smileOnPayment.kind = a.smileOnExpiry.kind
          ∧ a.smileOnExpiry.exerciseDate = CommonVars.startDate
          ∧ a.smileOnPayment.exerciseDate = CommonVars.endDate
          ∧ a.byCallSpread = decide (e.i = 0))
    ∧ (∀ e ∈ testPriceMonotonicityWithRespectToLowerStrike vars lib,
        ∃ a, bgmPricerArgs e.z e.i = some a
          ∧ e.value = lib.couponPrice a
              (testCoupon lib.observationSchedule e.lowerStrike e.upperStrike)
          ∧ a.smileOnExpiry.kind = (if e.z = 0 then SmileKind.flat else SmileKind.interpolated)
          ∧ a.smileOnPayment.kind = a.smileOnExpiry.kind
          ∧ a.smileOnExpiry.exerciseDate = CommonVars.startDate
          ∧ a.smileOnPayment.exerciseDate = CommonVars.endDate
          ∧ a.byCallSpread = decide (e.i = 0))
    ∧ ∀ e ∈ testPriceMonotonicityWithRespectToUpperStrike vars lib,
        ∃ a, bgmPricerArgs e.z e.i = some a
          ∧ e.value = lib.couponPrice a
              (testCoupon lib.observationSchedule e.lowerStrike e.upperStrike)
          ∧ a.smileOnExpiry.kind = (if e.z = 0 then SmileKind.flat else SmileKind.interpolated)
          ∧ a.smileOnPayment.kind = a.smileOnExpiry.kind
          ∧ a.smileOnExpiry.exerciseDate = CommonVars.startDate
          ∧ a.smileOnPayment.exerciseDate = CommonVars.endDate
          ∧ a.byCallSpread = decide (e.i = 0) := by
  obtain ⟨h00, h01, h10, h11⟩ := bgmPricerArgs_combinations
  have hkinds : ∀ z i, (z, i) ∈ testCombinations →
      ∃ a, bgmPricerArgs z i = some a
        ∧ a.smileOnExpiry.kind = (if z = 0 then SmileKind.flat else SmileKind.interpolated)
        ∧ a.smileOnPayment.kind = a.smileOnExpiry.kind
        ∧ a.smileOnExpiry.exerciseDate = CommonVars.startDate
        ∧ a.smileOnPayment.exerciseDate = CommonVars.endDate
        ∧ a.byCallSpread = decide (i = 0) := by
    intro z i hzi
    rw [testCombinations_eq] at hzi
    simp only [List.mem_cons, Prod.mk.injEq, List.mem_nil_iff, or_false] at hzi
    rcases hzi with ⟨rfl, rfl⟩ | ⟨rfl, rfl⟩ | ⟨rfl, rfl⟩ | ⟨rfl, rfl⟩
    · exact ⟨_, h00, rfl, rfl, rfl, rfl, rfl⟩
    · exact ⟨_, h01, rfl, rfl, rfl, rfl, rfl⟩
    · exact ⟨_, h10, rfl, rfl, rfl, rfl, rfl⟩
    · exact ⟨_, h11, rfl, rfl, rfl, rfl, rfl⟩
  refine ⟨testCombinations_eq, ?_, ?_, ?_, hkinds, ?_, ?_, ?_⟩
  · have h := congrArg (List.map (fun t : Nat × Nat × Nat × Nat × Nat => (t.1, t.2.1)))
      (testInfiniteRange_objects vars lib)
    rw [testCombinations_eq]
    simpa [List.map_map, Function.comp_def] using h
  · obtain ⟨a00, a01, a10, a11, -, -, -, -, h⟩ := lowerStrikeTest_eq vars lib
    rw [h, testCombinations_eq]
    simp only [List.map_append, (lowerStrikeLoop_objects _ _ _ _ _ _ _ _ _).2.2,
      List.flatMap_cons, List.flatMap_nil, List.append_nil]
  · obtain ⟨a00, a01, a10, a11, -, -, -, -, h⟩ := upperStrikeTest_eq vars lib
    rw [h, testCombinations_eq]
    simp only [List.map_append, (upperStrikeLoop_objects _ _ _ _ _ _ _ _ _).2.2,
      List.flatMap_cons, List.flatMap_nil, List.append_nil]
  · intro e he
    obtain ⟨hmem, a, ha, hv⟩ := testInfiniteRange_value vars lib e he
    obtain ⟨b, hb, hk⟩ := hkinds e.z e.i hmem
    rw [ha] at hb
    cases hb
    exact ⟨a, ha, hv, hk⟩
  · intro e he
    obtain ⟨hmem, a, ha, hv⟩ := lowerStrikeTest_value vars lib e he
    obtain ⟨b, hb, hk⟩ := hkinds e.z e.i hmem
    rw [ha] at hb
    cases hb
    exact ⟨a, ha, hv, hk⟩
  · intro e he
    obtain ⟨hmem, a, ha, hv⟩ := upperStrikeTest_value vars lib e he
    obtain ⟨b, hb, hk⟩ := hkinds e.z e.i hmem
    rw [ha] at hb
    cases hb
    exact ⟨a, ha, hv, hk⟩

/-- C15: the correlation of the fixture is 1, which lies in `[-1, 1]`, and the
anchor dates 42800 and 42984 of the smile sections are later than the
evaluation date 39147; hence, in each of the four combinations, the pricer of
the tests passes the correlation check and the smile-section checks on a market
evaluated at the fixture's date, and `rate` and `price` return a number for
every coupon with a valid corridor. -/
theorem fixture_satisfies_pricer_preconditions :
    (-1 ≤ CommonVars.correlation ∧ CommonVars.correlation ≤ 1)
    ∧ CommonVars.today < CommonVars.startDate
    ∧ CommonVars.today < CommonVars.endDate
    ∧ ∀ z i, (z, i) ∈ testCombinations →
        ∃ a, bgmPricerArgs z i = some a
          ∧ a.correlation = 1
          ∧ CommonVars.today < a.smileOnExpiry.exerciseDate
          ∧ CommonVars.today < a.smileOnPayment.exerciseDate
          ∧ ∀ (interpolate : List ℚ → List ℚ → ℚ → ℚ) (mk : Market) (rp : Replication)
              (c : RangeAccrualFloatersCoupon),
              mk.evaluationDate = CommonVars.today →
              RangeAccrualPricerByBgm.create mk (a.build interpolate)
                = .ok (a.build interpolate)
              ∧ (c.lowerStrike < c.upperStrike →
                  ∃ r v, rate mk rp (a.build interpolate) c = .ok r
                    ∧ price mk rp (a.build interpolate) c = .ok v) := by
  obtain ⟨h00, h01, h10, h11⟩ := bgmPricerArgs_combinations
  have key : ∀ a : BgmPricerArgs, a.correlation = 1 →
      a.smileOnExpiry.exerciseDate = CommonVars.startDate →
      a.smileOnPayment.exerciseDate = CommonVars.endDate →
      ∀ (interpolate : List ℚ → List ℚ → ℚ → ℚ) (mk : Market) (rp : Replication)
        (c : RangeAccrualFloatersCoupon),
        mk.evaluationDate = CommonVars.today →
        RangeAccrualPricerByBgm.create mk (a.build interpolate) = .ok (a.build interpolate)
        ∧ (c.lowerStrike < c.upperStrike →
            ∃ r v, rate mk rp (a.build interpolate) c = .ok r
              ∧ price mk rp (a.build interpolate) c = .ok v) := by
    intro a hc he hp interpolate mk rp c hmk
    have e1 : ((a.build interpolate).smileOnExpiry).exerciseDate = CommonVars.startDate := by
      rw [← he]
      cases h : a.smileOnExpiry <;> simp [BgmPricerArgs.build, SmileSectionArgs.build, h,
        SmileSectionArgs.exerciseDate, FlatSmileSection]
    have e2 : ((a.build interpolate).smileOnPayment).exerciseDate = CommonVars.endDate := by
      rw [← hp]
      cases h : a.smileOnPayment <;> simp [BgmPricerArgs.build, SmileSectionArgs.build, h,
        SmileSectionArgs.exerciseDate, FlatSmileSection]
    have c1 : -1 ≤ (a.build interpolate).correlation := by
      simp [BgmPricerArgs.build, hc]
    have c2 : (a.build interpolate).correlation ≤ 1 := by
      simp [BgmPricerArgs.build, hc]
    have d1 : mk.evaluationDate ≤ ((a.build interpolate).smileOnExpiry).exerciseDate := by
      rw [e1, hmk]
      decide
    have d2 : mk.evaluationDate ≤ ((a.build interpolate).smileOnPayment).exerciseDate := by
      rw [e2, hmk]
      decide
    have hcreate := create_pricer_ok mk (a.build interpolate) c1 c2 d1 d2
    refine ⟨hcreate, ?_⟩
    intro hcor
    have hprice := price_ok mk rp (a.build interpolate) c hcor c1 c2 d1 d2
    have hrate : rate mk rp (a.build interpolate) c
        = .ok (accumulated mk rp (a.build interpolate) c / accrualPeriodLength mk c) := by
      simp [rate, create_coupon_ok c hcor, hcreate, bind, Except.bind, pure, Except.pure]
    exact ⟨_, _, hrate, hprice⟩
  refine ⟨by norm_num [CommonVars.correlation], by decide, by decide, ?_⟩
  intro z i hzi
  rw [testCombinations_eq] at hzi
  simp only [List.mem_cons, Prod.mk.injEq, List.mem_nil_iff, or_false] at hzi
  rcases hzi with ⟨rfl, rfl⟩ | ⟨rfl, rfl⟩ | ⟨rfl, rfl⟩ | ⟨rfl, rfl⟩
  · exact ⟨_, h00, rfl, by decide, by decide, key _ rfl rfl rfl⟩
  · exact ⟨_, h01, rfl, by decide, by decide, key _ rfl rfl rfl⟩
  · exact ⟨_, h10, rfl, by decide, by decide, key _ rfl rfl rfl⟩
  · exact ⟨_, h11, rfl, by decide, by decide, key _ rfl rfl rfl⟩

set_option maxRecDepth 100000 in
/-- C16 fails as stated: in `testInfiniteRange` the one coupon object (object
0) is evaluated in all four passes, and in the lower-strike test the pricer of
the first combination (object 0) is used for 99 evaluations. -/
theorem tests_share_coupon_and_pricers :
    ((testInfiniteRange CommonVars.testParameters sampleLibrary).map
        (fun e => e.coupon)).count 0 = 4
    ∧ ((testPriceMonotonicityWithRespectToLowerStrike CommonVars.testParameters
        sampleLibrary).map (fun e => e.pricer)).count 0 = 99 := by
  constructor
  · decide
  · decide

/-- C16, amended: `testInfiniteRange` builds one coupon and evaluates it four
times, each time with a newly built pricer; the two monotonicity tests build
one pricer for each combination and use it for all the coupons of the loop on
`k` (99 and 94 of them), each coupon being newly built and evaluated once. -/
theorem tests_object_usage (vars : TestParameters) (lib : Library) :
    ((testInfiniteRange vars lib).map (fun e => e.coupon) = [0, 0, 0, 0]
      ∧ (testInfiniteRange vars lib).map (fun e => e.pricer) = [1, 2, 3, 4])
    ∧ (((testPriceMonotonicityWithRespectToLowerStrike vars lib).map (fun e => e.coupon)).Nodup
      ∧ (testPriceMonotonicityWithRespectToLowerStrike vars lib).map (fun e => e.pricer)
        = List.replicate 99 0 ++ (List.replicate 99 100 ++ (List.replicate 99 200
          ++ List.replicate 99 300)))
    ∧ (((testPriceMonotonicityWithRespectToUpperStrike vars lib).map (fun e => e.coupon)).Nodup
      ∧ (testPriceMonotonicityWithRespectToUpperStrike vars lib).map (fun e => e.pricer)
        = List.replicate 94 0 ++ (List.replicate 94 95 ++ (List.replicate 94 190
          ++ List.replicate 94 285))) := by
  refine ⟨⟨?_, ?_⟩, ⟨?_, ?_⟩, ⟨?_, ?_⟩⟩
  · have h := congrArg (List.map (fun t : Nat × Nat × Nat × Nat × Nat => t.2.2.2.1))
      (testInfiniteRange_objects vars lib)
    simpa [List.map_map, Function.comp_def] using h
  · have h := congrArg (List.map (fun t : Nat × Nat × Nat × Nat × Nat => t.2.2.2.2))
      (testInfiniteRange_objects vars lib)
    simpa [List.map_map, Function.comp_def] using h
  · obtain ⟨a00, a01, a10, a11, -, -, -, -, h⟩ := lowerStrikeTest_eq vars lib
    rw [h]
    simp only [List.map_append, (lowerStrikeLoop_objects _ _ _ _ _ _ _ _ _).1]
    exact four_blocks_nodup 99
  · obtain ⟨a00, a01, a10, a11, -, -, -, -, h⟩ := lowerStrikeTest_eq vars lib
    rw [h]
    simp only [List.map_append, (lowerStrikeLoop_objects _ _ _ _ _ _ _ _ _).2.1]
  · obtain ⟨a00, a01, a10, a11, -, -, -, -, h⟩ := upperStrikeTest_eq vars lib
    rw [h]
    simp only [List.map_append, (upperStrikeLoop_objects _ _ _ _ _ _ _ _ _).1]
    exact four_blocks_nodup 94
  · obtain ⟨a00, a01, a10, a11, -, -, -, -, h⟩ := upperStrikeTest_eq vars lib
    rw [h]
    simp only [List.map_append, (upperStrikeLoop_objects _ _ _ _ _ _ _ _ _).2.1]

/-- C20 fails of the source as stated: the grid is computed in double
precision, where `0.003 + 6/1000.0` is the double `5188146770730812 / 2^59`
(`0.009000000000000001`), the double next above the double
`5188146770730811 / 2^59` nearest to `0.009`, so that entry 6 is neither
`0.003 + 6/1000` nor its nearest double; and the spacing is not constant, the
step from entry 5 to entry 6 differs from the step from entry 6 to entry 7. -/
theorem strikes_not_exact_in_double :
    (∃ x, doubleStrikes[6]? = some x
      ∧ x = { mant := 5188146770730812, shift := 59 }
      ∧ Double.literal 9 1000 = { mant := 5188146770730811, shift := 59 }
      ∧ x ≠ Double.literal 9 1000
      ∧ x.toRat ≠ 3 / 1000 + 6 / 1000)
    ∧ ∃ a b c, doubleStrikes[5]? = some a ∧ doubleStrikes[6]? = some b
        ∧ doubleStrikes[7]? = some c
        ∧ b.toRat - a.toRat ≠ c.toRat - b.toRat := by
  obtain ⟨h5, h6, h7, h9⟩ := doubleStrike_values
  refine ⟨⟨_, doubleStrikes_getElem 6 (by norm_num), h6, h9, ?_, ?_⟩,
    ⟨_, _, _, doubleStrikes_getElem 5 (by norm_num), doubleStrikes_getElem 6 (by norm_num),
      doubleStrikes_getElem 7 (by norm_num), ?_⟩⟩
  · rw [h6, h9]
    decide
  · rw [h6]
    norm_num [Double.toRat]
  · rw [h5, h6, h7]
    norm_num [Double.toRat]

/-- C20, amended: the strike grid the source computes has 1000 entries; entry
`i` lies within `2^-53` of `0.003 + i/1000`, the exact value held by
`strikes[i]`; consecutive entries differ by `0.001` up to `2^-52`; the grid is
strictly increasing; its first and least entry is the double `0.003` and its
last and greatest entry is the double `1.002`. -/
theorem strikes_grid :
    doubleStrikes.length = 1000
    ∧ (∀ i : Nat, i < 1000 → ∃ x s, doubleStrikes[i]? = some x ∧ strikes[i]? = some s
        ∧ s = 3 / 1000 + (i : ℚ) / 1000 ∧ |x.toRat - s| ≤ 1 / 2 ^ 53)
    ∧ (∀ i : Nat, i + 1 < 1000 →
        ∃ a b, doubleStrikes[i]? = some a ∧ doubleStrikes[i + 1]? = some b
          ∧ |b.toRat - a.toRat - 1 / 1000| ≤ 1 / 2 ^ 52)
    ∧ doubleStrikes.Pairwise (fun a b => a.toRat < b.toRat)
    ∧ doubleStrikes.head? = some (Double.literal 3 1000)
    ∧ doubleStrikes.getLast? = some (Double.literal 1002 1000)
    ∧ ∀ x ∈ doubleStrikes,
        (Double.literal 3 1000).toRat ≤ x.toRat
        ∧ x.toRat ≤ (Double.literal 1002 1000).toRat := by
  refine ⟨by simp [doubleStrikes], ?_, ?_, ?_, doubleStrikes_head_getLast.1,
    doubleStrikes_head_getLast.2, ?_⟩
  · intro i hi
    refine ⟨doubleStrike i, 3 / 1000 + (i : ℚ) / 1000, doubleStrikes_getElem i hi, ?_, rfl,
      doubleStrike_near i hi⟩
    simp [strikes, List.getElem?_map, List.getElem?_range hi]
  · intro i hi
    refine ⟨_, _, doubleStrikes_getElem i (by omega), doubleStrikes_getElem (i + 1) hi, ?_⟩
    have ha := abs_le.mp (doubleStrike_near i (by omega))
    have hb := abs_le.mp (doubleStrike_near (i + 1) hi)
    push_cast at hb
    rw [abs_le]
    constructor <;> norm_num at ha hb ⊢ <;> linarith
  · unfold doubleStrikes
    rw [List.pairwise_map]
    refine List.Pairwise.imp_of_mem ?_ (List.pairwise_lt_range 1000)
    intro a b _ hb hab
    exact doubleStrike_lt a b hab (le_of_lt (List.mem_range.mp hb))
  · intro x hx
    unfold doubleStrikes at hx
    rw [List.mem_map] at hx
    obtain ⟨i, hi, rfl⟩ := hx
    rw [List.mem_range] at hi
    rw [← doubleStrike_ends.1, ← doubleStrike_ends.2]
    constructor
    · rcases Nat.eq_zero_or_pos i with h | h
      · rw [h]
      · exact le_of_lt (doubleStrike_lt 0 i h (by omega))
    · rcases Nat.lt_or_ge i 999 with h | h
      · exact le_of_lt (doubleStrike_lt i 999 h (by omega))
      · have : i = 999 := by omega
        rw [this]

/-- C11: under the serial convention (1 January 1901 is the serial 367 and the
day after a date has the next serial), the evaluation date 39147 is 6 March
2007, the start date 42800 is 6 March 2017 and the end date 42984, which is
also the payment date, is 6 September 2017; the coupon period is 184 days long
and starts 3653 days after the evaluation date. -/
theorem fixture_serials_denote_scenario_dates :
    serialNumber { year := 1901, month := 1, day := 1 } = 367
    ∧ (∀ d : CivilDate, d.isValid → 1901 ≤ d.year →
        d.next.isValid ∧ serialNumber d.next = serialNumber d + 1)
    ∧ (CivilDate.isValid { year := 2007, month := 3, day := 6 }
      ∧ serialNumber { year := 2007, month := 3, day := 6 } = CommonVars.today)
    ∧ (CivilDate.isValid { year := 2017, month := 3, day := 6 }
      ∧ serialNumber { year := 2017, month := 3, day := 6 } = CommonVars.startDate)
    ∧ (CivilDate.isValid { year := 2017, month := 9, day := 6 }
      ∧ serialNumber { year := 2017, month := 9, day := 6 } = CommonVars.endDate
      ∧ CommonVars.paymentDate = CommonVars.endDate)
    ∧ CommonVars.endDate - CommonVars.startDate = 184
    ∧ CommonVars.startDate - CommonVars.today = 3653 := by
  refine ⟨by decide, ?_, ⟨?_, by decide⟩, ⟨?_, by decide⟩, ⟨?_, by decide, rfl⟩,
    by decide, by decide⟩
  · intro d hv hy
    obtain ⟨hnext, hnum⟩ := dayNumber_next d hv (by omega)
    refine ⟨hnext, ?_⟩
    have hge := dayNumber_ge d hv.2.2.1 hy
    unfold serialNumber
    rw [hnum]
    omega
  · simp [CivilDate.isValid, monthLength]
  · simp [CivilDate.isValid, monthLength]
  · simp [CivilDate.isValid, monthLength]

set_option maxRecDepth 100000 in
/-- C21: the arrays `expiryBag` and `paymentBag` hold 1000 values each, as many
as the strike grid, so the vectors `stdDevsOnExpiry` and `stdDevsOnPayment`
have the length of `strikes` and every interpolated smile section of the
fixture is built from a strike vector and a standard-deviation vector of the
same length, 1000. -/
theorem stdDevs_tables_match_strike_grid :
    expiryBag.length = 1000
    ∧ paymentBag.length = 1000
    ∧ strikes.length = 1000
    ∧ stdDevsOnExpiry.length = strikes.length
    ∧ stdDevsOnPayment.length = strikes.length
    ∧ ∀ s ∈ smilesOnExpiry ++ smilesOnPayment,
        ∀ (date : Nat) (xs ys : List ℚ) (atm : ℚ),
          s = SmileSectionArgs.interpolatedSmileSection date xs ys atm →
          xs.length = ys.length ∧ ys.length = 1000 := by
  have he : expiryBag.length = 1000 := by decide
  have hp : paymentBag.length = 1000 := by decide
  have hs : strikes.length = 1000 := by simp [strikes]
  refine ⟨he, hp, hs, by rw [hs]; exact he, by rw [hs]; exact hp, ?_⟩
  intro s hmem date xs ys atm hsx
  simp only [smilesOnExpiry, smilesOnPayment, List.cons_append, List.nil_append, List.mem_cons,
    List.mem_nil_iff, or_false] at hmem
  rcases hmem with h | h | h | h
  · rw [h] at hsx
    cases hsx
  · rw [h] at hsx
    cases hsx
    exact ⟨by rw [hs]; exact he.symm, he⟩
  · rw [h] at hsx
    cases hsx
  · rw [h] at hsx
    cases hsx
    exact ⟨by rw [hs]; exact hp.symm, hp⟩

/-- C23: `createYieldCurve` hands to `ZeroCurve` a vector of 46 dates and a
vector of 46 zero rates. -/
theorem yieldCurve_vectors_have_equal_length :
    createYieldCurve.dates.length = 46
    ∧ createYieldCurve.zeroRates.length = 46
    ∧ createYieldCurve.dates.length = createYieldCurve.zeroRates.length := by
  refine ⟨by decide, by decide, by decide⟩

/-- C24: the node dates of the yield curve are strictly increasing; the first
node, 39147, is the evaluation date of the fixture and the last node is 61068;
the start date 42800 and the end date 42984 of the coupon, which is also its
payment date, lie between the first and the last node. -/
theorem yieldCurve_nodes_cover_coupon :
    createYieldCurve.dates.Pairwise (fun a b => a < b)
    ∧ createYieldCurve.dates.head? = some CommonVars.today
    ∧ createYieldCurve.dates.getLast? = some 61068
    ∧ (CommonVars.today ≤ CommonVars.startDate ∧ CommonVars.startDate ≤ 61068)
    ∧ (CommonVars.today ≤ CommonVars.endDate ∧ CommonVars.endDate ≤ 61068)
    ∧ (CommonVars.today ≤ CommonVars.paymentDate ∧ CommonVars.paymentDate ≤ 61068)
    ∧ ∀ d ∈ [CommonVars.startDate, CommonVars.endDate, CommonVars.paymentDate],
        ∀ first ∈ createYieldCurve.dates.head?, ∀ last ∈ createYieldCurve.dates.getLast?,
          first ≤ d ∧ d ≤ last := by
  refine ⟨by decide, by decide, by decide, by decide, by decide, by decide, by decide⟩

/-- C25: the two smile vectors have 2 elements each, so the assertion at the
end of `createSmileSections` holds and the function returns them; every index
`z` below `smilesOnPayment.size()` is an index of `smilesOnExpiry`, and so is
the `z` of every pair the tests visit. -/
theorem smile_vectors_have_equal_size :
    smilesOnExpiry.length = 2
    ∧ smilesOnPayment.length = 2
    ∧ createSmileSections = .ok (smilesOnExpiry, smilesOnPayment)
    ∧ (∀ z : Nat, z < smilesOnPayment.length →
        z < smilesOnExpiry.length ∧ ∃ s, smilesOnExpiry[z]? = some s)
    ∧ ∀ z i, (z, i) ∈ testCombinations →
        z < smilesOnPayment.length ∧ z < smilesOnExpiry.length
        ∧ i < CommonVars.byCallSpread.length := by
  have h1 : smilesOnExpiry.length = 2 := rfl
  have h2 : smilesOnPayment.length = 2 := rfl
  refine ⟨h1, h2, ?_, ?_, ?_⟩
  · simp [createSmileSections, h1, h2]
  · intro z hz
    rw [h2] at hz
    rw [h1]
    refine ⟨hz, ?_⟩
    have hz2 : z < smilesOnExpiry.length := by rw [h1]; exact hz
    exact ⟨smilesOnExpiry[z], List.getElem?_eq_getElem hz2⟩
  · intro z i hzi
    rw [testCombinations_eq] at hzi
    rw [h1, h2]
    simp only [List.mem_cons, Prod.mk.injEq, List.mem_nil_iff, or_false] at hzi
    rcases hzi with ⟨rfl, rfl⟩ | ⟨rfl, rfl⟩ | ⟨rfl, rfl⟩ | ⟨rfl, rfl⟩ <;> decide

/-- C22: every pass of the lower-strike test prices a corridor whose lower
strike lies strictly between `0.005` and `0.105` (the values `0.005 + k*0.001`
for `k` from 1 to 99, nominally `0.006` to `0.104`) and whose upper strike is
`1.0`; every pass of the upper-strike test prices a corridor whose lower strike
is `0.004` and whose upper strike lies strictly between `0.006` and `0.101`
(the values `0.006 + k*0.001` for `k` from 1 to 94, nominally `0.007` to
`0.100`); hence every corridor strike of the two tests lies between the first
strike `0.003` and the last strike `1.002` of the grid of the interpolated
smile.  The same holds of the doubles the source computes: the grid runs from
the double `0.003` to the double `1.002`, and the doubles `0.005 + k*0.001`
(`k` from 1 to 99), `0.006 + k*0.001` (`k` from 1 to 94), `.004` and `1.0` lie
between these two, each computed strike within `2^-56` of its exact value. -/
theorem monotonicity_test_strikes_inside_grid :
    (strikes.head? = some (3 / 1000) ∧ strikes.getLast? = some (1002 / 1000))
    ∧ (∀ k, 1 ≤ k → k ≤ 99 →
        (5 / 1000 : ℚ) < effectiveLowerStrike k ∧ effectiveLowerStrike k < 105 / 1000)
    ∧ (∀ k, 1 ≤ k → k ≤ 94 →
        (6 / 1000 : ℚ) < effectiveUpperStrike k ∧ effectiveUpperStrike k < 101 / 1000)
    ∧ (∀ (vars : TestParameters) (lib : Library) (e : Evaluation),
        e ∈ testPriceMonotonicityWithRespectToLowerStrike vars lib →
        ((5 / 1000 : ℚ) < e.lowerStrike ∧ e.lowerStrike < 105 / 1000) ∧ e.upperStrike = 1)
    ∧ (∀ (vars : TestParameters) (lib : Library) (e : Evaluation),
        e ∈ testPriceMonotonicityWithRespectToUpperStrike vars lib →
        e.lowerStrike = 4 / 1000
        ∧ ((6 / 1000 : ℚ) < e.upperStrike ∧ e.upperStrike < 101 / 1000))
    ∧ (∀ (vars : TestParameters) (lib : Library) (e : Evaluation),
        (e ∈ testPriceMonotonicityWithRespectToLowerStrike vars lib
          ∨ e ∈ testPriceMonotonicityWithRespectToUpperStrike vars lib) →
        ((3 / 1000 : ℚ) ≤ e.lowerStrike ∧ e.lowerStrike ≤ 1002 / 1000)
        ∧ ((3 / 1000 : ℚ) ≤ e.upperStrike ∧ e.upperStrike ≤ 1002 / 1000))
    ∧ (doubleStrikes.head? = some (Double.literal 3 1000)
      ∧ doubleStrikes.getLast? = some (Double.literal 1002 1000))
    ∧ (∀ k, 1 ≤ k → k ≤ 99 →
        |(doubleEffectiveLowerStrike k).toRat - effectiveLowerStrike k| ≤ 1 / 2 ^ 56
        ∧ (Double.literal 3 1000).toRat ≤ (doubleEffectiveLowerStrike k).toRat
        ∧ (doubleEffectiveLowerStrike k).toRat ≤ (Double.literal 1002 1000).toRat)
    ∧ (∀ k, 1 ≤ k → k ≤ 94 →
        |(doubleEffectiveUpperStrike k).toRat - effectiveUpperStrike k| ≤ 1 / 2 ^ 56
        ∧ (Double.literal 3 1000).toRat ≤ (doubleEffectiveUpperStrike k).toRat
        ∧ (doubleEffectiveUpperStrike k).toRat ≤ (Double.literal 1002 1000).toRat)
    ∧ ((Double.literal 3 1000).toRat ≤ (Double.literal 4 1000).toRat
      ∧ (Double.literal 4 1000).toRat ≤ (Double.literal 1002 1000).toRat)
    ∧ ((Double.literal 3 1000).toRat ≤ (Double.literal 1 1).toRat
      ∧ (Double.literal 1 1).toRat ≤ (Double.literal 1002 1000).toRat) := by
  have hlow : ∀ (vars : TestParameters) (lib : Library) (e : Evaluation),
      e ∈ testPriceMonotonicityWithRespectToLowerStrike vars lib →
      ((5 / 1000 : ℚ) < e.lowerStrike ∧ e.lowerStrike < 105 / 1000) ∧ e.upperStrike = 1 := by
    intro vars lib e he
    obtain ⟨⟨k, h1, h99, hl, hu⟩, -⟩ := lowerStrikeTest_mem vars lib e he
    rw [hl, hu]
    exact ⟨effectiveLowerStrike_bounds k h1 h99, rfl⟩
  have hup : ∀ (vars : TestParameters) (lib : Library) (e : Evaluation),
      e ∈ testPriceMonotonicityWithRespectToUpperStrike vars lib →
      e.lowerStrike = 4 / 1000
      ∧ ((6 / 1000 : ℚ) < e.upperStrike ∧ e.upperStrike < 101 / 1000) := by
    intro vars lib e he
    obtain ⟨⟨k, h1, h94, hl, hu⟩, -⟩ := upperStrikeTest_mem vars lib e he
    rw [hl, hu]
    exact ⟨rfl, effectiveUpperStrike_bounds k h1 h94⟩
  obtain ⟨f1, f2, f3, f4, -, -⟩ := doubleFixedStrikes_inside
  refine ⟨strikes_head_getLast, effectiveLowerStrike_bounds, effectiveUpperStrike_bounds,
    hlow, hup, ?_, doubleStrikes_head_getLast, doubleEffectiveLowerStrike_inside,
    doubleEffectiveUpperStrike_inside,
    ⟨Double.toRat_le_of_leb _ _ f1, Double.toRat_le_of_leb _ _ f2⟩,
    ⟨Double.toRat_le_of_leb _ _ f3, Double.toRat_le_of_leb _ _ f4⟩⟩
  intro vars lib e he
  rcases he with he | he
  · obtain ⟨⟨b1, b2⟩, hu⟩ := hlow vars lib e he
    rw [hu]
    exact ⟨⟨by linarith, by linarith⟩, by norm_num, by norm_num⟩
  · obtain ⟨hl, b1, b2⟩ := hup vars lib e he
    rw [hl]
    exact ⟨⟨by norm_num, by norm_num⟩, by linarith, by linarith⟩

/-- C26: `atmVolMatrix` has 6 rows and 4 columns, its 24 assignments are in
bounds, hit 24 different cells and leave `flatVol` in every cell;
`volSpreadsMatrix` has 9 rows and 5 columns, its 45 assignments are in bounds
and hit 45 different cells, so every cell is assigned exactly once, and the
column of the zero strike spread, index 2, holds 0 in every row. -/
theorem volatility_matrices_are_fully_assigned :
    (createVolatilityStructures.atmOptionTenors.length = 6
      ∧ createVolatilityStructures.atmSwapTenors.length = 4
      ∧ createVolatilityStructures.atmVolWrites.length = 24
      ∧ (∀ w ∈ createVolatilityStructures.atmVolWrites,
          w.row < createVolatilityStructures.atmOptionTenors.length
          ∧ w.col < createVolatilityStructures.atmSwapTenors.length
          ∧ w.value = CommonVars.flatVol)
      ∧ (createVolatilityStructures.atmVolWrites.map (fun w => (w.row, w.col))).Nodup
      ∧ ∃ m, createVolatilityStructures.atmVolMatrix = some m
          ∧ m.rows = 6 ∧ m.columns = 4
          ∧ ∀ i j, i < 6 → j < 4 → m.cell i j = some CommonVars.flatVol)
    ∧ (createVolatilityStructures.optionTenors.length = 3
      ∧ createVolatilityStructures.swapTenors.length = 3
      ∧ createVolatilityStructures.strikeSpreads.length = 5
      ∧ createVolatilityStructures.nRows = 9
      ∧ createVolatilityStructures.nCols = 5
      ∧ createVolatilityStructures.volSpreadsWrites.length = 45
      ∧ (∀ w ∈ createVolatilityStructures.volSpreadsWrites,
          w.row < createVolatilityStructures.nRows
          ∧ w.col < createVolatilityStructures.nCols)
      ∧ (createVolatilityStructures.volSpreadsWrites.map (fun w => (w.row, w.col))).Nodup
      ∧ createVolatilityStructures.strikeSpreads[2]? = some 0
      ∧ ∃ m, createVolatilityStructures.volSpreadsMatrix = some m
          ∧ m.rows = 9 ∧ m.columns = 5
          ∧ (∀ i j, i < 9 → j < 5 → (m.cell i j).isSome = true)
          ∧ ∀ i, i < 9 → m.cell i 2 = some 0) := by
  refine ⟨⟨rfl, rfl, rfl, ?_, by decide, _, atmVolMatrix_eq, rfl, rfl, ?_⟩,
    ⟨rfl, rfl, rfl, rfl, rfl, rfl, ?_, by decide, ?_, _, volSpreadsMatrix_eq, rfl, rfl, ?_, ?_⟩⟩
  · intro w hw
    simp only [createVolatilityStructures.atmVolWrites, List.mem_cons, List.mem_nil_iff,
      or_false] at hw
    rcases hw with h | h | h | h | h | h | h | h | h | h | h | h | h | h | h | h | h | h | h | h
      | h | h | h | h <;> subst h <;> exact ⟨by decide, by decide, rfl⟩
  · intro i j hi hj
    interval_cases i <;> interval_cases j <;> rfl
  · intro w hw
    have key : ∀ l : List MatrixWrite, (l.all (fun w => decide (w.row < 9 ∧ w.col < 5))) = true →
        ∀ w ∈ l, w.row < 9 ∧ w.col < 5 := by
      intro l hl w hw
      exact of_decide_eq_true (List.all_eq_true.mp hl w hw)
    exact key _ (by decide) w hw
  · norm_num [createVolatilityStructures.strikeSpreads]
  · intro i j hi hj
    interval_cases i <;> interval_cases j <;> rfl
  · intro i hi
    interval_cases i <;>
      norm_num [Matrix.cell, createVolatilityStructures.volSpreadsWrites]

end range_accrual_test
